import Mathlib

/-!
# Service worker of My Quran Journey: offline caching and synchronisation

A shallow embedding of `frontend/public/sw.js`.  Asynchronous functions become
computations over an explicit state (the cache storage, the IndexedDB action
store and a trace of the platform calls issued); a rejected promise is an
`Except.error`.  The network and the health of the storage backend are inputs
of every run.
-/

namespace QuranJourney

/-! ## Strings -/

/-- JavaScript `startsWith` on character lists. -/
def listStartsWith : List Char → List Char → Bool
  | _, [] => true
  | [], _ :: _ => false
  | c :: cs, p :: ps => c == p && listStartsWith cs ps

/-- JavaScript `String.prototype.startsWith`. -/
def startsWith (s p : String) : Bool := listStartsWith s.data p.data

/-- JavaScript `includes` on character lists. -/
def listIncludes : List Char → List Char → Bool
  | [], p => p.isEmpty
  | c :: cs, p => listStartsWith (c :: cs) p || listIncludes cs p

/-- JavaScript `String.prototype.includes`. -/
def includes (s sub : String) : Bool := listIncludes s.data sub.data

/-! ## Requests and responses -/

/-- A parsed absolute URL, as `new URL(request.url)` exposes it. -/
structure Url where
  origin : String
  pathname : String
  search : String
  hash : String
deriving DecidableEq, Repr

/-- The serialised URL, `request.url`. -/
def Url.href (u : Url) : String := u.origin ++ u.pathname ++ u.search ++ u.hash

/-- The key under which the Cache API files a URL: the fragment is excluded. -/
def Url.key (u : Url) : String := u.origin ++ u.pathname ++ u.search

/-- A `Request` object. -/
structure Request where
  method : String
  url : Url
  mode : String
  headers : List (String × String)
  body : String
deriving DecidableEq, Repr

/-- A `Response` object. -/
structure Response where
  status : Nat
  headers : List (String × String)
  body : String
deriving DecidableEq, Repr

/-- The getter `response.ok`: the status is in the range 200 to 299. -/
def Response.ok (r : Response) : Bool := decide (200 ≤ r.status) && decide (r.status ≤ 299)

/-- An offline action kept for background sync. -/
structure Action where
  id : String
  url : Url
  method : String
  headers : List (String × String)
  body : String
deriving DecidableEq, Repr

/-- The request that `fetch(action.url, { method, headers, body })` sends. -/
def Action.toRequest (a : Action) : Request :=
  { method := a.method, url := a.url, mode := "cors", headers := a.headers, body := a.body }

/-! ## Constants of the worker -/

def STATIC_CACHE_NAME : String := "my-quran-journey-static-v1.0.0"
def DYNAMIC_CACHE_NAME : String := "my-quran-journey-dynamic-v1.0.0"

/-- The list `cacheFirstEndpoints` of `handleApiRequest`. -/
def cacheFirstEndpoints : List String :=
  ["/api/quran/chapters", "/api/quran/reciters", "/api/quran/chapter/", "/api/quran/verse/"]

/-- The list `staticExtensions` of `isStaticFile`. -/
def staticExtensions : List String :=
  [".js", ".css", ".png", ".jpg", ".jpeg", ".gif", ".svg", ".ico", ".woff", ".woff2", ".ttf"]

/-- Check if URL is for a static file. -/
def isStaticFile (url : String) : Bool := staticExtensions.any (fun ext => includes url ext)

/-- The body `JSON.stringify(\x7b error: msg \x7d)` for a message without characters to escape. -/
def jsonError (msg : String) : String := "\x7b\"error\":\"" ++ msg ++ "\"\x7d"

/-- The response synthesized by the cache-first branch of `handleApiRequest`. -/
def offlineDataResponse : Response :=
  { status := 503, headers := [("Content-Type", "application/json")],
    body := jsonError "Offline - data not available" }

/-- The response synthesized by the network-first branch of `handleApiRequest`. -/
def networkUnavailableResponse : Response :=
  { status := 503, headers := [("Content-Type", "application/json")],
    body := jsonError "Network unavailable" }

/-- The template literal of the basic offline page. -/
def offlinePageBody : String :=
  "\n      <!DOCTYPE html>\n      <html>\n        <head>\n          <title>My Quran Journey - Offline</title>\n          <meta name=\"viewport\" content=\"width=device-width, initial-scale=1\">\n          <style>\n            body \x7b\n              font-family: -apple-system, BlinkMacSystemFont, \x27Segoe UI\x27, sans-serif;\n              text-align: center;\n              padding: 2rem;\n              background: linear-gradient(135deg, #667eea 0%, #764ba2 100%);\n              color: white;\n              min-height: 100vh;\n              display: flex;\n              align-items: center;\n              justify-content: center;\n              margin: 0;\n            \x7d\n            .container \x7b\n              max-width: 400px;\n            \x7d\n            h1 \x7b margin-bottom: 1rem; \x7d\n            p \x7b margin-bottom: 2rem; line-height: 1.6; \x7d\n            button \x7b\n              background: white;\n              color: #667eea;\n              border: none;\n              padding: 1rem 2rem;\n              border-radius: 0.5rem;\n              font-weight: bold;\n              cursor: pointer;\n            \x7d\n          </style>\n        </head>\n        <body>\n          <div class=\"container\">\n            <h1>ðŸ“– My Quran Journey</h1>\n            <p>You\x27re currently offline, but you can still access cached content.</p>\n            <button onclick=\"window.location.reload()\">Try Again</button>\n          </div>\n        </body>\n      </html>\n      "

/-- The basic offline page of `handleStaticRequest`. -/
def offlinePage : Response :=
  { status := 200, headers := [("Content-Type", "text/html")], body := offlinePageBody }

/-! ## Platform state -/

/-- One cache of the Cache API: responses filed by URL key. -/
abbrev Cache := List (String × Response)

/-- Platform calls issued by the worker, in the order of the calls. -/
inductive Event where
  | fetch (request : Request)
  | cachesOpen (name : String)
  | cacheMatch (name : String) (request : Request)
  | cachePut (name : String) (request : Request) (response : Response)
  | cachesKeys
  | cachesDelete (name : String)
  | skipWaiting
  | clientsClaim
  | removeStoredAction (actionId : String)
  | postMessage (success : Bool)
deriving DecidableEq, Repr

/-- Reasons for which a promise rejects. -/
inductive Fault where
  | networkError
  | storageError
  | typeError
deriving DecidableEq, Repr

/-- The world outside the worker during one run. -/
structure Env where
  /-- The origin of the worker, against which `'/'` resolves. -/
  origin : String
  /-- The network: the answer to the `n`-th `fetch` of the run's history, `none` when it rejects. -/
  net : Nat → Request → Option Response
  /-- Whether `caches.open` resolves. -/
  openOk : Bool
  /-- Whether `cache.match` resolves. -/
  matchOk : Bool
  /-- Whether the backend stores what `cache.put` is given (quota, `Vary: *`, body state). -/
  putOk : Bool

/-- The state the worker acts on. -/
structure St where
  /-- The cache storage: named caches in creation order. -/
  caches : List (String × Cache)
  /-- The IndexedDB store of offline actions. -/
  storedActions : List Action
  /-- The number of `fetch` calls issued so far. -/
  tick : Nat
  /-- The platform calls issued so far. -/
  trace : List Event

/-- The content of the cache called `name`, empty when there is none. -/
def St.cache (s : St) (name : String) : Cache := (s.caches.lookup name).getD []

/-- What `cache.match(request)` finds in the cache called `name`.  The worker passes no
options, so by the request matching of the Cache API (`ignoreMethod` is false) a request
whose method is not GET matches nothing; a GET request matches the entry filed under its
URL. -/
def St.matchIn (s : St) (name : String) (request : Request) : Option Response :=
  if request.method == "GET" then (s.cache name).lookup request.url.key else none

/-- Replace the entry of an association list, or add one at its end. -/
def assocSet {β : Type} (k : String) (v : β) : List (String × β) → List (String × β)
  | [] => [(k, v)]
  | (k0, v0) :: rest => if k0 == k then (k, v) :: rest else (k0, v0) :: assocSet k v rest

/-- The storage after `caches.open(name)`: a missing cache is created empty. -/
def openCache (name : String) (cs : List (String × Cache)) : List (String × Cache) :=
  match cs.lookup name with
  | some _ => cs
  | none => cs ++ [(name, [])]

/-- Whether `cache.put(request, response)` stores its entry: it rejects a request whose
method is not GET and a response of status 206, and depends on the backend. -/
def putAccepted (env : Env) (request : Request) (response : Response) : Bool :=
  env.putOk && request.method == "GET" && response.status != 206

/-! ## Computations -/

/-- An asynchronous computation of the worker: it reads the environment, updates the state
and settles with a value or a fault. -/
def SW (α : Type) : Type := Env → St → Except Fault α × St

instance : Monad SW where
  pure a := fun _ s => (Except.ok a, s)
  bind m f := fun env s =>
    match m env s with
    | (Except.ok a, s1) => f a env s1
    | (Except.error e, s1) => (Except.error e, s1)

/-- A `try` block with its `catch` handler. -/
def attempt {α : Type} (body : SW α) (handler : Fault → SW α) : SW α := fun env s =>
  match body env s with
  | (Except.ok a, s1) => (Except.ok a, s1)
  | (Except.error e, s1) => handler e env s1

/-- A promise nobody awaits (a `cache.put` without `await`, the background `fetch` of a
cache hit): its effects are part of the state the run ends in, its rejection reaches
nobody. -/
def detached (body : SW Unit) : SW Unit := fun env s => (Except.ok (), (body env s).2)

/-- Record a platform call. -/
def St.emit (s : St) (e : Event) : St := { s with trace := s.trace ++ [e] }

/-- The platform call `fetch(request)`. -/
def fetch (request : Request) : SW Response := fun env s =>
  let s1 := { s.emit (Event.fetch request) with tick := s.tick + 1 }
  match env.net s.tick request with
  | some r => (Except.ok r, s1)
  | none => (Except.error Fault.networkError, s1)

/-- The platform call `caches.open(name)`; the handle of a cache is its name. -/
def cachesOpen (name : String) : SW String := fun env s =>
  let s1 := s.emit (Event.cachesOpen name)
  if env.openOk then (Except.ok name, { s1 with caches := openCache name s1.caches })
  else (Except.error Fault.storageError, s1)

/-- The platform call `cache.match(request)`. -/
def cacheMatch (cache : String) (request : Request) : SW (Option Response) := fun env s =>
  let s1 := s.emit (Event.cacheMatch cache request)
  if env.matchOk then (Except.ok (s.matchIn cache request), s1)
  else (Except.error Fault.storageError, s1)

/-- The platform call `cache.put(request, response.clone())`. -/
def cachePut (cache : String) (request : Request) (response : Response) : SW Unit := fun env s =>
  let s1 := s.emit (Event.cachePut cache request response)
  if putAccepted env request response then
    (Except.ok (),
      { s1 with caches := assocSet cache (assocSet request.url.key response (s1.cache cache)) s1.caches })
  else (Except.error Fault.typeError, s1)

/-- The request that `cache.match('/')` looks up. -/
def rootRequest (env : Env) : Request :=
  { method := "GET", url := { origin := env.origin, pathname := "/", search := "", hash := "" },
    mode := "cors", headers := [], body := "" }

/-- The environment of the run. -/
def getEnv : SW Env := fun env s => (Except.ok env, s)

/-! ## The fetch handlers -/

/-- The test `shouldCacheFirst` of `handleApiRequest`. -/
def shouldCacheFirst (request : Request) : Bool :=
  cacheFirstEndpoints.any (fun endpoint => startsWith request.url.pathname endpoint)

/-- Handle API requests with cache-first strategy for specific endpoints. -/
def handleApiRequest (request : Request) : SW Response :=
  if shouldCacheFirst request && request.method == "GET" then
    attempt
      (do
        let cache ← cachesOpen DYNAMIC_CACHE_NAME
        let cachedResponse ← cacheMatch cache request
        match cachedResponse with
        | some cached => do
            detached (do
              let response ← fetch request
              if response.ok then detached (cachePut cache request response) else pure ())
            pure cached
        | none => do
            let response ← fetch request
            if response.ok then detached (cachePut cache request response) else pure ()
            pure response)
      (fun _ => pure offlineDataResponse)
  else
    attempt
      (do
        let response ← fetch request
        if response.ok && request.method == "GET" then do
          let cache ← cachesOpen DYNAMIC_CACHE_NAME
          detached (cachePut cache request response)
        else pure ()
        pure response)
      (fun _ => do
        let cache ← cachesOpen DYNAMIC_CACHE_NAME
        let cachedResponse ← cacheMatch cache request
        match cachedResponse with
        | some cached => pure cached
        | none => pure networkUnavailableResponse)

/-- Handle static requests (HTML, CSS, JS, images). -/
def handleStaticRequest (request : Request) : SW Response :=
  attempt
    (do
      let cache ← cachesOpen STATIC_CACHE_NAME
      let cachedResponse ← cacheMatch cache request
      match cachedResponse with
      | some cached => pure cached
      | none => do
          let response ← fetch request
          if response.ok && isStaticFile request.url.href then
            detached (cachePut cache request response)
          else pure ()
          pure response)
    (fun _ => do
      let fallback ←
        if request.mode == "navigate" then do
          let env ← getEnv
          let cache ← cachesOpen STATIC_CACHE_NAME
          cacheMatch cache (rootRequest env)
        else pure none
      match fallback with
      | some fallbackResponse => pure fallbackResponse
      | none => pure offlinePage)

/-- The `fetch` event listener: the promise handed to `event.respondWith`. -/
def onFetch (request : Request) : SW Response :=
  if startsWith request.url.pathname "/api/" then handleApiRequest request
  else handleStaticRequest request

/-! ## Background sync -/

/-- The stub `getStoredActions`: it returns the empty list. -/
def getStoredActions : SW (List Action) := pure []

/-- The stub `removeStoredAction`: it logs the call and leaves the store as it is. -/
def removeStoredAction (actionId : String) : SW Unit := fun _ s =>
  (Except.ok (), s.emit (Event.removeStoredAction actionId))

/-- The loop `for (const action of actions)` of `syncLearningProgress`. -/
def syncActions : List Action → SW Unit
  | [] => pure ()
  | action :: rest => do
      attempt
        (do
          let _ ← fetch action.toRequest
          removeStoredAction action.id)
        (fun _ => pure ())
      syncActions rest

/-- Sync learning progress when back online. -/
def syncLearningProgress : SW Unit :=
  attempt
    (do
      let actions ← getStoredActions
      syncActions actions)
    (fun _ => pure ())

/-- The `sync` event listener: the promise it hands to `event.waitUntil`, the run of
`syncLearningProgress`, and `none` when it does not call `event.waitUntil`. -/
def onSync (tag : String) : Option (SW Unit) :=
  if tag == "background-sync-learning-progress" then some syncLearningProgress else none

/-! ## Install, activate and message -/

/-- A promise that rejects. -/
def reject {α : Type} (e : Fault) : SW α := fun _ s => (Except.error e, s)

/-- The GET request the Cache API builds from a URL. -/
def getRequest (url : Url) : Request :=
  { method := "GET", url := url, mode := "cors", headers := [], body := "" }

/-- The manifest `STATIC_FILES`, resolved against the origin of the worker. -/
def STATIC_FILES (env : Env) : List Url :=
  [ { origin := env.origin, pathname := "/", search := "", hash := "" },
    { origin := env.origin, pathname := "/static/js/bundle.js", search := "", hash := "" },
    { origin := env.origin, pathname := "/static/css/main.css", search := "", hash := "" },
    { origin := env.origin, pathname := "/manifest.json", search := "", hash := "" },
    { origin := "https://fonts.googleapis.com", pathname := "/css2",
      search := "?family=Amiri:wght@400;700&family=Noto+Naskh+Arabic:wght@400;700&display=swap",
      hash := "" } ]

/-- A fetch whose rejection is kept as a value. -/
def fetchSettled (request : Request) : SW (Option Response) :=
  attempt (do let r ← fetch request; pure (some r)) (fun _ => pure none)

/-- The fetches `cache.addAll` issues, one per request, all of them. -/
def fetchEach : List Request → SW (List (Request × Option Response))
  | [] => pure []
  | request :: rest => do
      let r ← fetchSettled request
      let rs ← fetchEach rest
      pure ((request, r) :: rs)

/-- Whether `cache.addAll` accepts a fetched response: it is there, ok and not of status 206. -/
def addable : Option Response → Bool
  | some r => r.ok && r.status != 206
  | none => false

/-- File a batch of entries in a cache. -/
def fileAll (cache : List (String × Response)) : List (Request × Option Response) → Cache
  | [] => cache
  | (request, some r) :: rest => fileAll (assocSet request.url.key r cache) rest
  | (_, none) :: rest => fileAll cache rest

/-- The platform call `cache.addAll(urls)`: every URL is fetched, and the batch is stored
only when every response is acceptable. -/
def cacheAddAll (cache : String) (urls : List Url) : SW Unit := do
  let fetched ← fetchEach (urls.map getRequest)
  let env ← getEnv
  if fetched.all (fun p => addable p.2) && env.putOk then
    fun _ s => (Except.ok (), { s with caches := assocSet cache (fileAll (s.cache cache) fetched) s.caches })
  else reject Fault.typeError

/-- The platform call `self.skipWaiting()`. -/
def skipWaiting : SW Unit := fun _ s => (Except.ok (), s.emit Event.skipWaiting)

/-- The priming of the `install` listener: open the Static cache and add the manifest,
`caches.open(STATIC_CACHE_NAME).then((cache) => cache.addAll(STATIC_FILES))`. -/
def primeStaticCache : SW Unit := do
  let cache ← cachesOpen STATIC_CACHE_NAME
  let env ← getEnv
  cacheAddAll cache (STATIC_FILES env)

/-- The `install` event listener: the promise handed to `event.waitUntil`, the priming
followed by `.then(() => self.skipWaiting())` and by `.catch`, whose handler logs the error. -/
def onInstall : SW Unit :=
  attempt
    (do
      primeStaticCache
      skipWaiting)
    (fun _ => pure ())

/-- The platform call `caches.keys()`. -/
def cachesKeys : SW (List String) := fun _ s =>
  (Except.ok (s.caches.map Prod.fst), s.emit Event.cachesKeys)

/-- The platform call `caches.delete(name)`. -/
def cachesDelete (name : String) : SW Bool := fun _ s =>
  (Except.ok (s.caches.any (fun c => c.1 == name)),
    { s.emit (Event.cachesDelete name) with caches := s.caches.filter (fun c => c.1 != name) })

/-- The platform call `self.clients.claim()`. -/
def clientsClaim : SW Unit := fun _ s => (Except.ok (), s.emit Event.clientsClaim)

/-- The deletions of the `activate` listener, one cache name after the other. -/
def deleteOld : List String → SW Unit
  | [] => pure ()
  | cacheName :: rest => do
      if cacheName != STATIC_CACHE_NAME && cacheName != DYNAMIC_CACHE_NAME then do
        let _ ← cachesDelete cacheName
        pure ()
      else pure ()
      deleteOld rest

/-- The `activate` event listener: the promise handed to `event.waitUntil`. -/
def onActivate : SW Unit := do
  let cacheNames ← cachesKeys
  deleteOld cacheNames
  clientsClaim

/-- The data of a `message` event. -/
structure MessageData where
  type : String
  url : Url
deriving DecidableEq, Repr

/-- The call `event.ports[0].postMessage(reply)`: it throws when the event has no port. -/
def postMessage (hasPort : Bool) (success : Bool) : SW Unit := fun _ s =>
  if hasPort then (Except.ok (), s.emit (Event.postMessage success))
  else (Except.error Fault.typeError, s)

/-- The `message` event listener: the promise chain it starts. -/
def onMessage (data : Option MessageData) (hasPort : Bool) : SW Unit :=
  match data with
  | some d =>
      if d.type == "CACHE_AUDIO" then
        attempt
          (do
            let cache ← cachesOpen DYNAMIC_CACHE_NAME
            cacheAddAll cache [d.url]
            postMessage hasPort true)
          (fun _ => postMessage hasPort false)
      else pure ()
  | none => pure ()

/-! ## Reading a run -/

/-- The platform calls a run added to the trace. -/
def newEvents (before after : St) : List Event := after.trace.drop before.trace.length

/-- The requests among a list of platform calls that went to the network. -/
def fetchesOf : List Event → List Request
  | [] => []
  | Event.fetch r :: rest => r :: fetchesOf rest
  | _ :: rest => fetchesOf rest

/-- The action ids handed to `removeStoredAction` among a list of platform calls. -/
def removalsOf : List Event → List String
  | [] => []
  | Event.removeStoredAction i :: rest => i :: removalsOf rest
  | _ :: rest => removalsOf rest

/-- The answer of the network to each replay of a list of actions, whose first replay is
fetch number `tick`: each action with whether its fetch resolved. -/
def replayOutcomes (env : Env) : Nat → List Action → List (Action × Bool)
  | _, [] => []
  | tick, action :: rest =>
      (action, (env.net tick action.toRequest).isSome) :: replayOutcomes env (tick + 1) rest

/-- The initial state: no cache, no stored action, no call issued. -/
def St.init : St := { caches := [], storedActions := [], tick := 0, trace := [] }

/-- The calls of `cache.put` among a list of platform calls: cache, request and response. -/
def putsOf : List Event → List (String × Request × Response)
  | [] => []
  | Event.cachePut c q r :: rest => (c, q, r) :: putsOf rest
  | _ :: rest => putsOf rest

/-- The cache a fetch handler works on: Dynamic for API paths, Static for the others. -/
def handlerCache (request : Request) : String :=
  if startsWith request.url.pathname "/api/" then DYNAMIC_CACHE_NAME else STATIC_CACHE_NAME

/-! ## Sample inputs -/

/-- The origin used in the sample inputs. -/
def sampleOrigin : String := "https://quran.example"

/-- A GET request for a path on the sample origin. -/
def sampleGet (pathname : String) : Request :=
  getRequest { origin := sampleOrigin, pathname := pathname, search := "", hash := "" }

/-- A POST request for a path on the sample origin. -/
def samplePost (pathname : String) (body : String) : Request :=
  { method := "POST", url := { origin := sampleOrigin, pathname := pathname, search := "", hash := "" },
    mode := "cors", headers := [("Content-Type", "application/json")], body := body }

/-- A response with a status and a body. -/
def sampleResponse (status : Nat) (body : String) : Response :=
  { status := status, headers := [("Content-Type", "application/json")], body := body }

/-- An environment with a healthy storage backend whose network always answers the same. -/
def sampleEnv (answer : Option Response) : Env :=
  { origin := sampleOrigin, net := fun _ _ => answer, openOk := true, matchOk := true, putOk := true }

/-- A state whose Dynamic cache holds one entry for the chapter list. -/
def sampleCachedState : St :=
  { caches := [(DYNAMIC_CACHE_NAME,
      [((sampleGet "/api/quran/chapters").url.key, sampleResponse 200 "cached")])],
    storedActions := [], tick := 0, trace := [] }

/-- An offline action that posts a learning session. -/
def sampleAction (id body : String) : Action :=
  { id := id,
    url := { origin := sampleOrigin, pathname := "/api/learning/session", search := "", hash := "" },
    method := "POST", headers := [], body := body }

/-- Three offline actions, in the order they were stored. -/
def sampleActions : List Action :=
  [sampleAction "A1" "one", sampleAction "A2" "two", sampleAction "A3" "three"]

/-- An environment whose network rejects one request body and answers 201 to the others. -/
def sampleEnvFailing (body : String) : Env :=
  { origin := sampleOrigin,
    net := fun _ q => if q.body == body then none else some (sampleResponse 201 "saved"),
    openOk := true, matchOk := true, putOk := true }

/-- An environment whose storage backend cannot open a cache. -/
def sampleEnvNoStorage (answer : Option Response) : Env :=
  { origin := sampleOrigin, net := fun _ _ => answer, openOk := false, matchOk := true,
    putOk := true }

/-- The `cache.match` calls among a list of platform calls: cache and request. -/
def matchesOf : List Event → List (String × Request)
  | [] => []
  | Event.cacheMatch c q :: rest => (c, q) :: matchesOf rest
  | _ :: rest => matchesOf rest

/-- The names handed to `caches.delete` among a list of platform calls. -/
def deletionsOf : List Event → List String
  | [] => []
  | Event.cachesDelete n :: rest => n :: deletionsOf rest
  | _ :: rest => deletionsOf rest

/-- A state with a cache of an older version next to the two current caches. -/
def sampleUpgradeState : St :=
  { caches := [("my-quran-journey-static-v0.9.0", [("https://quran.example/", sampleResponse 200 "old")]),
      (STATIC_CACHE_NAME, [("https://quran.example/", sampleResponse 200 "home")]),
      (DYNAMIC_CACHE_NAME, [((sampleGet "/api/quran/chapters").url.key, sampleResponse 200 "cached")])],
    storedActions := [], tick := 0, trace := [] }

/-- A navigation request for a page on the sample origin. -/
def sampleNavigate (pathname : String) : Request :=
  { method := "GET", url := { origin := sampleOrigin, pathname := pathname, search := "", hash := "" },
    mode := "navigate", headers := [], body := "" }

/-- A state whose Static cache holds the root document and whose Dynamic cache holds the
user profile. -/
def sampleInstalledState : St :=
  { caches := [(STATIC_CACHE_NAME, [("https://quran.example/", sampleResponse 200 "home")]),
      (DYNAMIC_CACHE_NAME, [((sampleGet "/api/user/profile").url.key, sampleResponse 200 "me")])],
    storedActions := [], tick := 0, trace := [] }

/-- Whether `JSON.stringify` writes every character of a string as it is: no quote, no
backslash, no control character. -/
def jsonPlain (msg : String) : Bool :=
  msg.data.all (fun c => c != '"' && c != '\\' && decide (32 ≤ c.toNat))

/-- An environment whose storage backend opens caches but cannot match in them. -/
def sampleEnvNoMatch (answer : Option Response) : Env :=
  { origin := sampleOrigin, net := fun _ _ => answer, openOk := true, matchOk := false,
    putOk := true }

/-! ## Request classification -/

/-- The policies a request can be handled with. -/
inductive Policy where
  | cacheFirstDynamic
  | networkFirstDynamic
  | staticCache
deriving DecidableEq, Repr

/-- Classification in the order the specification gives: a GET request on a cache-first
path first, then any other request under the API root, then the rest. -/
def classify (request : Request) : Policy :=
  if request.method == "GET"
      && cacheFirstEndpoints.any (fun endpoint => startsWith request.url.pathname endpoint) then
    Policy.cacheFirstDynamic
  else if startsWith request.url.pathname "/api/" then Policy.networkFirstDynamic
  else Policy.staticCache

/-- The cache-first block of `handleApiRequest`, lines 96 to 132 of `sw.js`. -/
def apiCacheFirst (request : Request) : SW Response :=
  attempt
    (do
      let cache ← cachesOpen DYNAMIC_CACHE_NAME
      let cachedResponse ← cacheMatch cache request
      match cachedResponse with
      | some cached => do
          detached (do
            let response ← fetch request
            if response.ok then detached (cachePut cache request response) else pure ())
          pure cached
      | none => do
          let response ← fetch request
          if response.ok then detached (cachePut cache request response) else pure ()
          pure response)
    (fun _ => pure offlineDataResponse)

/-- The network-first block of `handleApiRequest`, lines 136 to 163 of `sw.js`. -/
def apiNetworkFirst (request : Request) : SW Response :=
  attempt
    (do
      let response ← fetch request
      if response.ok && request.method == "GET" then do
        let cache ← cachesOpen DYNAMIC_CACHE_NAME
        detached (cachePut cache request response)
      else pure ()
      pure response)
    (fun _ => do
      let cache ← cachesOpen DYNAMIC_CACHE_NAME
      let cachedResponse ← cacheMatch cache request
      match cachedResponse with
      | some cached => pure cached
      | none => pure networkUnavailableResponse)

/-- The names handed to `caches.open` among a list of platform calls. -/
def opensOf : List Event → List String
  | [] => []
  | Event.cachesOpen n :: rest => n :: opensOf rest
  | _ :: rest => opensOf rest



/-- A state whose Static cache holds the bundle of the application. -/
def sampleStaticState : St :=
  { caches := [(STATIC_CACHE_NAME,
      [((sampleGet "/static/js/bundle.js").url.key, sampleResponse 200 "bundle")])],
    storedActions := [], tick := 0, trace := [] }

/-- The cache names in the `caches.open`, `cache.match` and `cache.put` calls among a list
of platform calls. -/
def accessedOf : List Event → List String
  | [] => []
  | Event.cachesOpen n :: rest => n :: accessedOf rest
  | Event.cacheMatch n _ :: rest => n :: accessedOf rest
  | Event.cachePut n _ _ :: rest => n :: accessedOf rest
  | _ :: rest => accessedOf rest



/-- The replies sent by `postMessage` among a list of platform calls: their `success`. -/
def repliesOf : List Event → List Bool
  | [] => []
  | Event.postMessage b :: rest => b :: repliesOf rest
  | _ :: rest => repliesOf rest

/-- The URL of an audio file on a media host. -/
def sampleAudioUrl : Url :=
  { origin := "https://audio.example", pathname := "/alafasy/001001.mp3", search := "", hash := "" }

/-- The message that asks to cache the sample audio file. -/
def sampleAudioMessage : MessageData := { type := "CACHE_AUDIO", url := sampleAudioUrl }



/-! ## Premium access checks of `App.js` -/

/-- A JavaScript value as it comes out of JSON or a form field. -/
inductive JsValue where
  | undefined
  | null
  | bool (b : Bool)
  | num (n : Int)
  | str (s : String)
deriving DecidableEq, Repr

/-- The operator `===` on these values: same type and same value. -/
def strictEq (a b : JsValue) : Bool := decide (a = b)

/-- The logged-in user, as far as the access checks read it. -/
structure User where
  is_premium : Bool
deriving DecidableEq, Repr

/-- A chapter of the fetched chapter list, as far as the access checks read it. -/
structure Chapter where
  id : JsValue
  difficulty_level : JsValue
deriving DecidableEq, Repr

/-- Premium access check of a chapter; `user` is `none` when nobody is logged in. -/
def hasChapterAccess (user : Option User) (chapters : List Chapter) (chapter : Chapter) : Bool :=
  match user with
  | none => false
  | some u =>
      if u.is_premium then true
      else
        let beginnerChapters :=
          (chapters.filter (fun ch => strictEq ch.difficulty_level (JsValue.str "beginner"))).take 3
        beginnerChapters.any (fun ch => strictEq ch.id chapter.id)

/-- Premium access check of a reciter. -/
def hasReciterAccess (user : Option User) (reciterId : JsValue) : Bool :=
  match user with
  | none => false
  | some u => if u.is_premium then true else strictEq reciterId (JsValue.str "7")

/-- A chapter with a numeric id and a difficulty level. -/
def sampleChapter (id : Int) (level : String) : Chapter :=
  { id := JsValue.num id, difficulty_level := JsValue.str level }

/-- A chapter list with four beginner chapters. -/
def sampleChapters : List Chapter :=
  [sampleChapter 1 "beginner", sampleChapter 2 "advanced", sampleChapter 112 "beginner",
   sampleChapter 113 "beginner", sampleChapter 114 "beginner"]



/-- A state whose action store still holds the three sample actions. -/
def samplePendingState : St :=
  { caches := [], storedActions := sampleActions, tick := 0, trace := [] }

/-! # Theorems -/

/-! ## Association lists -/

theorem lookup_assocSet_self {β : Type} (k : String) (v : β) (l : List (String × β)) :
    (assocSet k v l).lookup k = some v := by
  induction l with
  | nil => simp [assocSet, List.lookup]
  | cons hd tl ih =>
    obtain ⟨k0, v0⟩ := hd
    by_cases h : k0 = k
    · simp [assocSet, h, List.lookup]
    · have h2 : (k == k0) = false := by simpa using fun e => h e.symm
      simp [assocSet, h, List.lookup, h2, ih]

theorem lookup_assocSet_other {β : Type} (k k2 : String) (v : β) (l : List (String × β))
    (hne : k2 ≠ k) : (assocSet k v l).lookup k2 = l.lookup k2 := by
  induction l with
  | nil =>
    have h2 : (k2 == k) = false := by simpa using hne
    simp [assocSet, List.lookup, h2]
  | cons hd tl ih =>
    obtain ⟨k0, v0⟩ := hd
    by_cases h : k0 = k
    · subst h
      have h2 : (k2 == k0) = false := by simpa using hne
      simp [assocSet, List.lookup, h2]
    · by_cases h3 : k2 = k0
      · subst h3
        simp [assocSet, h, List.lookup]
      · have h4 : (k2 == k0) = false := by simpa using h3
        simp [assocSet, h, List.lookup, h4, ih]

theorem cache_openCache (name other : String) (cs : List (String × Cache)) :
    ((openCache name cs).lookup other).getD [] = (cs.lookup other).getD [] := by
  unfold openCache
  cases hl : cs.lookup name with
  | some c => simp
  | none =>
    simp only [List.lookup_append]
    cases h2 : cs.lookup other with
    | some c => simp
    | none =>
      by_cases h3 : other = name
      · simp [List.lookup, h3]
      · have h4 : (other == name) = false := by simpa using h3
        simp [List.lookup, h4]

/-- Opening a cache changes the content of no cache. -/
theorem matchIn_openCache (s : St) (name other : String) (request : Request)
    (acts : List Action) (n : Nat) (tr : List Event) :
    St.matchIn { caches := openCache name s.caches, storedActions := acts,
                 tick := n, trace := tr } other request = s.matchIn other request := by
  simp [St.matchIn, St.cache, cache_openCache]

/-- Opening caches twice changes the content of no cache. -/
theorem matchIn_openCache_twice (s : St) (name1 name2 other : String) (request : Request)
    (acts : List Action) (n : Nat) (tr : List Event) :
    St.matchIn { caches := openCache name1 (openCache name2 s.caches), storedActions := acts,
                 tick := n, trace := tr } other request = s.matchIn other request := by
  simp [St.matchIn, St.cache, cache_openCache]

/-! ## Network-first reads -/

/-- Claim C1, as amended: a GET request to an API path outside the cache-first list, which
the network answers with a response `r` whose status is in 200 to 299, gets `r`; the handler
opens the Dynamic cache and puts `r` there under the request, and when the Cache API accepts
the put the Dynamic cache afterwards holds `r` for the request. -/
theorem networkFirst_get_ok_returns_and_caches (env : Env) (s : St) (request : Request)
    (r : Response)
    (hget : request.method = "GET")
    (hapi : startsWith request.url.pathname "/api/" = true)
    (hnf : shouldCacheFirst request = false)
    (hnet : env.net s.tick request = some r)
    (hlo : 200 ≤ r.status) (hhi : r.status ≤ 299)
    (hopen : env.openOk = true) :
    (onFetch request env s).1 = Except.ok r
    ∧ (onFetch request env s).2.trace
        = s.trace ++ [Event.fetch request, Event.cachesOpen DYNAMIC_CACHE_NAME,
            Event.cachePut DYNAMIC_CACHE_NAME request r]
    ∧ (putAccepted env request r = true →
        (onFetch request env s).2.matchIn DYNAMIC_CACHE_NAME request = some r) := by
  have hok : r.ok = true := by simp [Response.ok, hlo, hhi]
  simp only [onFetch, hapi, if_true]
  simp [handleApiRequest, hnf, attempt, bind, fetch, hnet, hok, hget, cachesOpen, hopen, detached,
    cachePut, St.emit, pure]
  refine ⟨?_, ?_⟩
  · split <;> rfl
  · intro hp
    simp [hp, St.matchIn, hget, St.cache, lookup_assocSet_self]

/-- The amended claim C1 at a sample input: a profile request answered with status 200 is
returned and is in the Dynamic cache afterwards. -/
theorem networkFirst_get_ok_returns_and_caches_witness :
    (onFetch (sampleGet "/api/user/profile") (sampleEnv (some (sampleResponse 200 "ok"))) St.init).1
        = Except.ok (sampleResponse 200 "ok")
    ∧ (onFetch (sampleGet "/api/user/profile") (sampleEnv (some (sampleResponse 200 "ok")))
          St.init).2.matchIn DYNAMIC_CACHE_NAME (sampleGet "/api/user/profile")
          = some (sampleResponse 200 "ok") :=
  have h := networkFirst_get_ok_returns_and_caches (sampleEnv (some (sampleResponse 200 "ok")))
    St.init (sampleGet "/api/user/profile") (sampleResponse 200 "ok") rfl rfl rfl rfl
    (by decide) (by decide) rfl
  ⟨h.1, h.2.2 rfl⟩

/-- Claim C1 fails as stated: a GET request for `/api/user/profile` is network-first, the
network answers with status 304, inside the range 200 to 399 that the specification counts as
success; the handler returns the response and the Dynamic cache holds no entry for the
request afterwards. -/
theorem networkFirst_get_304_not_cached :
    (sampleGet "/api/user/profile").method = "GET"
    ∧ startsWith (sampleGet "/api/user/profile").url.pathname "/api/" = true
    ∧ shouldCacheFirst (sampleGet "/api/user/profile") = false
    ∧ (sampleEnv (some (sampleResponse 304 ""))).net St.init.tick (sampleGet "/api/user/profile")
        = some (sampleResponse 304 "")
    ∧ (onFetch (sampleGet "/api/user/profile") (sampleEnv (some (sampleResponse 304 ""))) St.init).1
        = Except.ok (sampleResponse 304 "")
    ∧ (onFetch (sampleGet "/api/user/profile") (sampleEnv (some (sampleResponse 304 "")))
        St.init).2.matchIn DYNAMIC_CACHE_NAME (sampleGet "/api/user/profile") = none :=
  ⟨rfl, rfl, rfl, rfl, rfl, rfl⟩

/-! ## Cache-first reads -/

/-- A cache-first hit settles with the cached entry. -/
theorem cacheFirst_hit_lemma (env : Env) (s : St) (request : Request) (e : Response)
    (hget : request.method = "GET")
    (hcf : shouldCacheFirst request = true)
    (hopen : env.openOk = true) (hmatch : env.matchOk = true)
    (hhit : s.matchIn DYNAMIC_CACHE_NAME request = some e) :
    (handleApiRequest request env s).1 = Except.ok e := by
  simp [handleApiRequest, hcf, hget, attempt, bind, cachesOpen, hopen, cacheMatch, hmatch,
    St.emit, matchIn_openCache, hhit, detached, pure]

/-- Claim C2: for a GET request to a cache-first endpoint for which the Dynamic cache holds
an entry `e`, `handleApiRequest` returns `e` whatever the network answers, and the run issues
exactly one network fetch, of that request. -/
theorem cacheFirst_hit_returns_entry_and_fetches_once (env : Env) (s : St) (request : Request)
    (e : Response)
    (hget : request.method = "GET")
    (hcf : shouldCacheFirst request = true)
    (hopen : env.openOk = true) (hmatch : env.matchOk = true)
    (hhit : s.matchIn DYNAMIC_CACHE_NAME request = some e) :
    (handleApiRequest request env s).1 = Except.ok e
    ∧ fetchesOf (newEvents s (handleApiRequest request env s).2) = [request]
    ∧ (handleApiRequest request env s).2.tick = s.tick + 1 := by
  cases hn : env.net s.tick request with
  | none =>
    simp [handleApiRequest, hcf, hget, attempt, bind, cachesOpen, hopen, cacheMatch, hmatch,
      St.emit, matchIn_openCache, hhit, detached, fetch, hn, pure, newEvents, fetchesOf]
  | some r =>
    cases hok : r.ok with
    | false =>
      simp [handleApiRequest, hcf, hget, attempt, bind, cachesOpen, hopen, cacheMatch, hmatch,
        St.emit, matchIn_openCache, hhit, detached, fetch, hn, hok, pure, newEvents, fetchesOf]
    | true =>
      simp [handleApiRequest, hcf, hget, attempt, bind, cachesOpen, hopen, cacheMatch, hmatch,
        St.emit, matchIn_openCache, hhit, detached, fetch, hn, hok, pure, newEvents, fetchesOf,
        cachePut]
      constructor <;> split <;> simp [fetchesOf]

/-- Claim C2 at a sample input: the chapter list is cached and the network would answer
with something else; the cached entry is returned and one fetch is issued. -/
theorem cacheFirst_hit_returns_entry_and_fetches_once_witness :
    (handleApiRequest (sampleGet "/api/quran/chapters") (sampleEnv (some (sampleResponse 200 "fresh")))
        sampleCachedState).1 = Except.ok (sampleResponse 200 "cached")
    ∧ fetchesOf (newEvents sampleCachedState
        (handleApiRequest (sampleGet "/api/quran/chapters")
          (sampleEnv (some (sampleResponse 200 "fresh"))) sampleCachedState).2)
        = [sampleGet "/api/quran/chapters"]
    ∧ (handleApiRequest (sampleGet "/api/quran/chapters")
          (sampleEnv (some (sampleResponse 200 "fresh"))) sampleCachedState).2.tick
        = sampleCachedState.tick + 1 :=
  cacheFirst_hit_returns_entry_and_fetches_once (sampleEnv (some (sampleResponse 200 "fresh")))
    sampleCachedState (sampleGet "/api/quran/chapters") (sampleResponse 200 "cached")
    rfl rfl rfl rfl rfl

/-- Claim C3: from a state whose Dynamic cache is empty, a GET request for
`/api/quran/chapters` that the network answers with a 200 response `r` yields `r`; the same
request made afterwards, on the state the first run left, yields `r` again from the Dynamic
cache whatever the network does then, in particular while every network fetch fails. -/
theorem chapters_round_trip (env1 env2 : Env) (s : St) (request : Request) (r : Response)
    (hget : request.method = "GET")
    (hpath : request.url.pathname = "/api/quran/chapters")
    (hempty : s.cache DYNAMIC_CACHE_NAME = [])
    (hstatus : r.status = 200)
    (hnet1 : env1.net s.tick request = some r)
    (hopen1 : env1.openOk = true) (hmatch1 : env1.matchOk = true) (hput1 : env1.putOk = true)
    (hopen2 : env2.openOk = true) (hmatch2 : env2.matchOk = true) :
    (handleApiRequest request env1 s).1 = Except.ok r
    ∧ (handleApiRequest request env2 (handleApiRequest request env1 s).2).1 = Except.ok r := by
  have hcf : shouldCacheFirst request = true := by
    simp [shouldCacheFirst, hpath, cacheFirstEndpoints]
    left
    rfl
  have hok : r.ok = true := by simp [Response.ok, hstatus]
  have hacc : putAccepted env1 request r = true := by simp [putAccepted, hput1, hget, hstatus]
  have hmiss : s.matchIn DYNAMIC_CACHE_NAME request = none := by
    simp [St.matchIn, hempty, List.lookup]
  have hrun : handleApiRequest request env1 s
      = (Except.ok r,
          { caches := assocSet DYNAMIC_CACHE_NAME
              (assocSet request.url.key r
                (((openCache DYNAMIC_CACHE_NAME s.caches).lookup DYNAMIC_CACHE_NAME).getD []))
              (openCache DYNAMIC_CACHE_NAME s.caches),
            storedActions := s.storedActions, tick := s.tick + 1,
            trace := s.trace ++ [Event.cachesOpen DYNAMIC_CACHE_NAME,
              Event.cacheMatch DYNAMIC_CACHE_NAME request, Event.fetch request,
              Event.cachePut DYNAMIC_CACHE_NAME request r] }) := by
    simp [handleApiRequest, hcf, hget, attempt, bind, cachesOpen, hopen1, cacheMatch, hmatch1,
      St.emit, matchIn_openCache, hmiss, detached, fetch, hnet1, hok, pure, cachePut, hacc,
      St.cache]
  refine ⟨by rw [hrun], ?_⟩
  rw [hrun]
  have hhit : St.matchIn
      { caches := assocSet DYNAMIC_CACHE_NAME
              (assocSet request.url.key r
                (((openCache DYNAMIC_CACHE_NAME s.caches).lookup DYNAMIC_CACHE_NAME).getD []))
              (openCache DYNAMIC_CACHE_NAME s.caches),
            storedActions := s.storedActions, tick := s.tick + 1,
            trace := s.trace ++ [Event.cachesOpen DYNAMIC_CACHE_NAME,
              Event.cacheMatch DYNAMIC_CACHE_NAME request, Event.fetch request,
              Event.cachePut DYNAMIC_CACHE_NAME request r] } DYNAMIC_CACHE_NAME request
      = some r := by
    simp [St.matchIn, hget, St.cache, lookup_assocSet_self]
  exact (cacheFirst_hit_lemma env2 _ request r hget hcf hopen2 hmatch2 hhit)

/-- Claim C3 at a sample input: the chapter list is fetched online, then asked again while
every network fetch fails. -/
theorem chapters_round_trip_witness :
    (handleApiRequest (sampleGet "/api/quran/chapters")
        (sampleEnv (some (sampleResponse 200 "[1]"))) St.init).1
      = Except.ok (sampleResponse 200 "[1]")
    ∧ (handleApiRequest (sampleGet "/api/quran/chapters") (sampleEnv none)
        (handleApiRequest (sampleGet "/api/quran/chapters")
          (sampleEnv (some (sampleResponse 200 "[1]"))) St.init).2).1
      = Except.ok (sampleResponse 200 "[1]") :=
  chapters_round_trip (sampleEnv (some (sampleResponse 200 "[1]"))) (sampleEnv none) St.init
    (sampleGet "/api/quran/chapters") (sampleResponse 200 "[1]") rfl rfl rfl rfl rfl rfl rfl rfl
    rfl rfl

/-! ## What is written to the caches -/

/-- The puts of a foreground fetch of a GET request: one put of the response when it is ok
and, outside the API, the URL contains a static extension; none otherwise. -/
theorem foreground_puts (env : Env) (s : St) (request : Request) (r : Response)
    (hget : request.method = "GET")
    (hopen : env.openOk = true) (hmatch : env.matchOk = true)
    (hfg : (startsWith request.url.pathname "/api/" = true ∧ shouldCacheFirst request = false)
      ∨ s.matchIn (handlerCache request) request = none)
    (hnet : env.net s.tick request = some r) :
    putsOf (newEvents s (onFetch request env s).2)
      = if 200 ≤ r.status ∧ r.status ≤ 299
            ∧ (startsWith request.url.pathname "/api/" = true
                ∨ isStaticFile request.url.href = true)
        then [(handlerCache request, request, r)] else [] := by
  have hokdef : r.ok = decide (200 ≤ r.status ∧ r.status ≤ 299) := by
    simp [Response.ok, Bool.decide_and]
  cases hapi : startsWith request.url.pathname "/api/" with
  | true =>
    cases hcf : shouldCacheFirst request with
    | false =>
      cases hok : r.ok with
      | false =>
        have hno : ¬ (200 ≤ r.status ∧ r.status ≤ 299) := by
          intro h; rw [hokdef] at hok; simp [h] at hok
        simp [onFetch, hapi, handleApiRequest, hcf, attempt, bind, fetch, hnet, hok, pure,
          St.emit, newEvents, putsOf, hno]
      | true =>
        have hyes : 200 ≤ r.status ∧ r.status ≤ 299 := by
          rw [hokdef] at hok; simpa using hok
        simp [onFetch, hapi, handleApiRequest, hcf, attempt, bind, fetch, hnet, hok, hget, pure,
          St.emit, newEvents, putsOf, hyes, cachesOpen, hopen, detached, cachePut, handlerCache]
        split <;> simp [putsOf]
    | true =>
      have hmiss : s.matchIn DYNAMIC_CACHE_NAME request = none := by
        rcases hfg with h | h
        · rw [hcf] at h; exact absurd h.2 (by decide)
        · simpa [handlerCache, hapi] using h
      cases hok : r.ok with
      | false =>
        have hno : ¬ (200 ≤ r.status ∧ r.status ≤ 299) := by
          intro h; rw [hokdef] at hok; simp [h] at hok
        simp [onFetch, hapi, handleApiRequest, hcf, hget, attempt, bind, cachesOpen, hopen,
          cacheMatch, hmatch, St.emit, matchIn_openCache, hmiss, fetch, hnet, hok, pure,
          newEvents, putsOf, hno]
      | true =>
        have hyes : 200 ≤ r.status ∧ r.status ≤ 299 := by
          rw [hokdef] at hok; simpa using hok
        simp [onFetch, hapi, handleApiRequest, hcf, hget, attempt, bind, cachesOpen, hopen,
          cacheMatch, hmatch, St.emit, matchIn_openCache, hmiss, fetch, hnet, hok, pure,
          newEvents, putsOf, hyes, detached, cachePut, handlerCache]
        split <;> simp [putsOf]
  | false =>
    have hmiss : s.matchIn STATIC_CACHE_NAME request = none := by
      rcases hfg with h | h
      · rw [hapi] at h; exact absurd h.1 (by decide)
      · simpa [handlerCache, hapi] using h
    cases hcond : (r.ok && isStaticFile request.url.href) with
    | false =>
      have hno : ¬ (200 ≤ r.status ∧ r.status ≤ 299 ∧ isStaticFile request.url.href = true) := by
        rintro ⟨h1, h2, h3⟩
        rw [hokdef] at hcond; simp [h1, h2, h3] at hcond
      have hno2 : ¬ ((200 ≤ r.status ∧ r.status ≤ 299) ∧ isStaticFile request.url.href = true) := by
        rintro ⟨⟨h1, h2⟩, h3⟩; exact hno ⟨h1, h2, h3⟩
      simp [onFetch, hapi, handleStaticRequest, attempt, bind, cachesOpen, hopen,
        cacheMatch, hmatch, St.emit, matchIn_openCache, hmiss, fetch, hnet, hcond, pure,
        newEvents, putsOf, hno]
    | true =>
      have hyes : 200 ≤ r.status ∧ r.status ≤ 299 ∧ isStaticFile request.url.href = true := by
        rw [hokdef] at hcond; simpa [and_assoc] using hcond
      have hok : r.ok = true := by rw [hokdef]; simp [hyes.1, hyes.2.1]
      have hst : isStaticFile request.url.href = true := hyes.2.2
      simp [onFetch, hapi, handleStaticRequest, attempt, bind, cachesOpen, hopen,
        cacheMatch, hmatch, St.emit, matchIn_openCache, hmiss, fetch, hnet, hok, hst, pure,
        newEvents, putsOf, hyes, detached, cachePut, handlerCache]
      split <;> simp [putsOf]

/-- A foreground fetch whose response the handler does not put: the response is returned and
no cache content changes. -/
theorem foreground_without_put (env : Env) (s : St) (request : Request) (r : Response)
    (hfg : (startsWith request.url.pathname "/api/" = true
        ∧ (shouldCacheFirst request && request.method == "GET") = false)
      ∨ (env.openOk = true ∧ env.matchOk = true
        ∧ s.matchIn (handlerCache request) request = none))
    (hnet : env.net s.tick request = some r)
    (hnp : (r.ok && ((startsWith request.url.pathname "/api/" && request.method == "GET")
        || (!startsWith request.url.pathname "/api/" && isStaticFile request.url.href))) = false) :
    (onFetch request env s).1 = Except.ok r
    ∧ putsOf (newEvents s (onFetch request env s).2) = []
    ∧ ∀ name q, (onFetch request env s).2.matchIn name q = s.matchIn name q := by
  cases hapi : startsWith request.url.pathname "/api/" with
  | true =>
    cases hcf : (shouldCacheFirst request && request.method == "GET") with
    | false =>
      have hnp2 : (r.ok && request.method == "GET") = false := by simpa [hapi] using hnp
      simp [onFetch, hapi, handleApiRequest, hcf, attempt, bind, fetch, hnet, hnp2, pure,
        St.emit, newEvents, putsOf, St.matchIn, St.cache]
    | true =>
      have hget : (request.method == "GET") = true := by
        simp only [Bool.and_eq_true] at hcf; exact hcf.2
      have hok : r.ok = false := by simpa [hapi, hget] using hnp
      obtain ⟨hopen, hmatch, hmiss⟩ : env.openOk = true ∧ env.matchOk = true
          ∧ s.matchIn DYNAMIC_CACHE_NAME request = none := by
        rcases hfg with h | h
        · rw [hcf] at h; exact absurd h.2 (by decide)
        · simpa [handlerCache, hapi] using h
      simp [onFetch, hapi, handleApiRequest, hcf, attempt, bind, cachesOpen, hopen,
        cacheMatch, hmatch, St.emit, matchIn_openCache, hmiss, fetch, hnet, hok, pure,
        newEvents, putsOf]
  | false =>
    have hnp2 : (r.ok && isStaticFile request.url.href) = false := by simpa [hapi] using hnp
    obtain ⟨hopen, hmatch, hmiss⟩ : env.openOk = true ∧ env.matchOk = true
        ∧ s.matchIn STATIC_CACHE_NAME request = none := by
      rcases hfg with h | h
      · rw [hapi] at h; exact absurd h.1 (by decide)
      · simpa [handlerCache, hapi] using h
    simp [onFetch, hapi, handleStaticRequest, attempt, bind, cachesOpen, hopen,
      cacheMatch, hmatch, St.emit, matchIn_openCache, hmiss, fetch, hnet, hnp2, pure,
      newEvents, putsOf]

/-- A foreground fetch of a GET request whose response the handler puts and the Cache API
accepts: the cache of the handler holds the response afterwards. -/
theorem foreground_put_stored (env : Env) (s : St) (request : Request) (r : Response)
    (hget : request.method = "GET")
    (hopen : env.openOk = true) (hmatch : env.matchOk = true)
    (hfg : (startsWith request.url.pathname "/api/" = true ∧ shouldCacheFirst request = false)
      ∨ s.matchIn (handlerCache request) request = none)
    (hnet : env.net s.tick request = some r)
    (hok : r.ok = true)
    (hst : startsWith request.url.pathname "/api/" = true ∨ isStaticFile request.url.href = true)
    (hacc : putAccepted env request r = true) :
    (onFetch request env s).2.matchIn (handlerCache request) request = some r := by
  cases hapi : startsWith request.url.pathname "/api/" with
  | true =>
    cases hcf : shouldCacheFirst request with
    | false =>
      simp [onFetch, hapi, handleApiRequest, hcf, attempt, bind, fetch, hnet, hok, hget, pure,
        St.emit, cachesOpen, hopen, detached, cachePut, handlerCache, hacc, St.matchIn, St.cache,
        lookup_assocSet_self]
    | true =>
      have hmiss : s.matchIn DYNAMIC_CACHE_NAME request = none := by
        rcases hfg with h | h
        · rw [hcf] at h; exact absurd h.2 (by decide)
        · simpa [handlerCache, hapi] using h
      simp [onFetch, hapi, handleApiRequest, hcf, hget, attempt, bind, cachesOpen, hopen,
        cacheMatch, hmatch, St.emit, matchIn_openCache, hmiss, fetch, hnet, hok, pure,
        detached, cachePut, handlerCache, hacc]
      simp [St.matchIn, St.cache, hget, lookup_assocSet_self]
  | false =>
    have hmiss : s.matchIn STATIC_CACHE_NAME request = none := by
      rcases hfg with h | h
      · rw [hapi] at h; exact absurd h.1 (by decide)
      · simpa [handlerCache, hapi] using h
    have hst2 : isStaticFile request.url.href = true := by
      rcases hst with h | h
      · rw [hapi] at h; exact absurd h (by decide)
      · exact h
    simp [onFetch, hapi, handleStaticRequest, attempt, bind, cachesOpen, hopen,
      cacheMatch, hmatch, St.emit, matchIn_openCache, hmiss, fetch, hnet, hok, hst2, pure,
      detached, cachePut, handlerCache, hacc]
    simp [St.matchIn, St.cache, hget, lookup_assocSet_self]

/-- A foreground fetch of a GET request whose response the handler puts and the Cache API
refuses: no cache content changes. -/
theorem foreground_put_refused (env : Env) (s : St) (request : Request) (r : Response)
    (hget : request.method = "GET")
    (hopen : env.openOk = true) (hmatch : env.matchOk = true)
    (hfg : (startsWith request.url.pathname "/api/" = true ∧ shouldCacheFirst request = false)
      ∨ s.matchIn (handlerCache request) request = none)
    (hnet : env.net s.tick request = some r)
    (hok : r.ok = true)
    (hst : startsWith request.url.pathname "/api/" = true ∨ isStaticFile request.url.href = true)
    (hacc : putAccepted env request r = false) :
    ∀ name q, (onFetch request env s).2.matchIn name q = s.matchIn name q := by
  cases hapi : startsWith request.url.pathname "/api/" with
  | true =>
    cases hcf : shouldCacheFirst request with
    | false =>
      simp [onFetch, hapi, handleApiRequest, hcf, attempt, bind, fetch, hnet, hok, hget, pure,
        St.emit, cachesOpen, hopen, detached, cachePut, hacc, matchIn_openCache]
    | true =>
      have hmiss : s.matchIn DYNAMIC_CACHE_NAME request = none := by
        rcases hfg with h | h
        · rw [hcf] at h; exact absurd h.2 (by decide)
        · simpa [handlerCache, hapi] using h
      simp [onFetch, hapi, handleApiRequest, hcf, hget, attempt, bind, cachesOpen, hopen,
        cacheMatch, hmatch, St.emit, matchIn_openCache, hmiss, fetch, hnet, hok, pure,
        detached, cachePut, hacc]
  | false =>
    have hmiss : s.matchIn STATIC_CACHE_NAME request = none := by
      rcases hfg with h | h
      · rw [hapi] at h; exact absurd h.1 (by decide)
      · simpa [handlerCache, hapi] using h
    have hst2 : isStaticFile request.url.href = true := by
      rcases hst with h | h
      · rw [hapi] at h; exact absurd h (by decide)
      · exact h
    simp [onFetch, hapi, handleStaticRequest, attempt, bind, cachesOpen, hopen,
      cacheMatch, hmatch, St.emit, matchIn_openCache, hmiss, fetch, hnet, hok, hst2, pure,
      detached, cachePut, hacc]

/-- While `caches.open` rejects, a run of the fetch handler calls no `cache.put` and changes
no cache content. -/
theorem no_put_without_storage (env : Env) (s : St) (request : Request)
    (hopen : env.openOk = false) :
    putsOf (newEvents s (onFetch request env s).2) = []
    ∧ ∀ name q, (onFetch request env s).2.matchIn name q = s.matchIn name q := by
  cases hapi : startsWith request.url.pathname "/api/" with
  | true =>
    cases hcf : (shouldCacheFirst request && request.method == "GET") with
    | true =>
      simp [onFetch, hapi, handleApiRequest, hcf, attempt, bind, cachesOpen, hopen, St.emit,
        pure, newEvents, putsOf, St.matchIn, St.cache]
    | false =>
      cases hn : env.net s.tick request with
      | none =>
        simp [onFetch, hapi, handleApiRequest, hcf, attempt, bind, fetch, hn, cachesOpen, hopen,
          St.emit, pure, newEvents, putsOf, St.matchIn, St.cache]
      | some r =>
        cases hc : (r.ok && request.method == "GET") <;>
          simp [onFetch, hapi, handleApiRequest, hcf, attempt, bind, fetch, hn, hc, cachesOpen,
            hopen, St.emit, pure, newEvents, putsOf, St.matchIn, St.cache]
  | false =>
    by_cases hnav : request.mode = "navigate" <;>
      simp [onFetch, hapi, handleStaticRequest, attempt, bind, cachesOpen, hopen, St.emit, hnav,
        getEnv, pure, newEvents, putsOf, St.matchIn, St.cache]

/-- Claim C4, as amended: a fetch handler sends a GET request to the network in the
foreground (network-first, or a miss of the cache-first or static lookup) and the network
answers with `r`.  When `caches.open` and `cache.match` resolve, the handler calls
`cache.put` with `r` exactly when the status of `r` is in 200 to 299 and, for a request
outside the API, the URL contains a static extension; when the put is made and the Cache API
accepts it, the cache of the handler holds `r` under the request afterwards; when the put is
made and refused, or not made, no cache content changes.  When `caches.open` rejects, no put
is made and no cache content changes. -/
theorem fetched_response_put_iff_ok (env : Env) (s : St) (request : Request) (r : Response)
    (hget : request.method = "GET")
    (hfg : (startsWith request.url.pathname "/api/" = true ∧ shouldCacheFirst request = false)
      ∨ s.matchIn (handlerCache request) request = none)
    (hnet : env.net s.tick request = some r) :
    (env.openOk = true → env.matchOk = true →
      putsOf (newEvents s (onFetch request env s).2)
        = (if 200 ≤ r.status ∧ r.status ≤ 299
              ∧ (startsWith request.url.pathname "/api/" = true
                  ∨ isStaticFile request.url.href = true)
          then [(handlerCache request, request, r)] else [])
      ∧ ((200 ≤ r.status ∧ r.status ≤ 299
            ∧ (startsWith request.url.pathname "/api/" = true
                ∨ isStaticFile request.url.href = true)) →
          (putAccepted env request r = true →
            (onFetch request env s).2.matchIn (handlerCache request) request = some r)
          ∧ (putAccepted env request r = false →
            ∀ name q, (onFetch request env s).2.matchIn name q = s.matchIn name q))
      ∧ (¬ (200 ≤ r.status ∧ r.status ≤ 299
            ∧ (startsWith request.url.pathname "/api/" = true
                ∨ isStaticFile request.url.href = true)) →
          ∀ name q, (onFetch request env s).2.matchIn name q = s.matchIn name q))
    ∧ (env.openOk = false →
        putsOf (newEvents s (onFetch request env s).2) = []
        ∧ ∀ name q, (onFetch request env s).2.matchIn name q = s.matchIn name q) := by
  have hgetb : (request.method == "GET") = true := by simp [hget]
  refine ⟨fun hopen hmatch =>
    ⟨foreground_puts env s request r hget hopen hmatch hfg hnet, ?_, ?_⟩,
    fun hopen => no_put_without_storage env s request hopen⟩
  · rintro ⟨h1, h2, h3⟩
    have hok : r.ok = true := by simp [Response.ok, h1, h2]
    exact ⟨fun hacc => foreground_put_stored env s request r hget hopen hmatch hfg hnet hok h3 hacc,
      fun hacc => foreground_put_refused env s request r hget hopen hmatch hfg hnet hok h3 hacc⟩
  · intro hno
    have hfg2 : (startsWith request.url.pathname "/api/" = true
          ∧ (shouldCacheFirst request && request.method == "GET") = false)
        ∨ (env.openOk = true ∧ env.matchOk = true
          ∧ s.matchIn (handlerCache request) request = none) := by
      rcases hfg with h | h
      · exact Or.inl ⟨h.1, by simp [h.2]⟩
      · exact Or.inr ⟨hopen, hmatch, h⟩
    have hnp : (r.ok && ((startsWith request.url.pathname "/api/" && request.method == "GET")
        || (!startsWith request.url.pathname "/api/" && isStaticFile request.url.href))) = false := by
      cases hok : r.ok with
      | false => rfl
      | true =>
        have hr : 200 ≤ r.status ∧ r.status ≤ 299 := by simpa [Response.ok] using hok
        cases hapi : startsWith request.url.pathname "/api/" with
        | true => exact absurd ⟨hr.1, hr.2, Or.inl hapi⟩ hno
        | false =>
          cases hst : isStaticFile request.url.href with
          | true => exact absurd ⟨hr.1, hr.2, Or.inr hst⟩ hno
          | false => simp
    exact (foreground_without_put env s request r hfg2 hnet hnp).2.2

/-- The amended claim C4 at sample inputs: a verse request missing from the cache and
answered with status 200 is put in the Dynamic cache and is there afterwards; answered with
status 206 it is put, the put is refused and the cache has no entry for it; and while
`caches.open` rejects, the profile request answered with status 200 is not put. -/
theorem fetched_response_put_iff_ok_witness :
    (putsOf (newEvents St.init (onFetch (sampleGet "/api/quran/verse/1")
        (sampleEnv (some (sampleResponse 200 "v"))) St.init).2)
        = [(DYNAMIC_CACHE_NAME, sampleGet "/api/quran/verse/1", sampleResponse 200 "v")]
      ∧ (onFetch (sampleGet "/api/quran/verse/1") (sampleEnv (some (sampleResponse 200 "v")))
          St.init).2.matchIn DYNAMIC_CACHE_NAME (sampleGet "/api/quran/verse/1")
        = some (sampleResponse 200 "v"))
    ∧ (putsOf (newEvents St.init (onFetch (sampleGet "/api/quran/verse/1")
        (sampleEnv (some (sampleResponse 206 "v"))) St.init).2)
        = [(DYNAMIC_CACHE_NAME, sampleGet "/api/quran/verse/1", sampleResponse 206 "v")]
      ∧ (onFetch (sampleGet "/api/quran/verse/1") (sampleEnv (some (sampleResponse 206 "v")))
          St.init).2.matchIn DYNAMIC_CACHE_NAME (sampleGet "/api/quran/verse/1")
        = none)
    ∧ putsOf (newEvents St.init (onFetch (sampleGet "/api/user/profile")
        (sampleEnvNoStorage (some (sampleResponse 200 "me"))) St.init).2) = [] :=
  have h := (fetched_response_put_iff_ok (sampleEnv (some (sampleResponse 200 "v"))) St.init
    (sampleGet "/api/quran/verse/1") (sampleResponse 200 "v") rfl (Or.inr rfl) rfl).1 rfl rfl
  have h2 := (fetched_response_put_iff_ok (sampleEnv (some (sampleResponse 206 "v"))) St.init
    (sampleGet "/api/quran/verse/1") (sampleResponse 206 "v") rfl (Or.inr rfl) rfl).1 rfl rfl
  have h3 := (fetched_response_put_iff_ok (sampleEnvNoStorage (some (sampleResponse 200 "me")))
    St.init (sampleGet "/api/user/profile") (sampleResponse 200 "me") rfl (Or.inl ⟨rfl, rfl⟩)
    rfl).2 rfl
  ⟨⟨h.1, (h.2.1 ⟨by decide, by decide, Or.inl rfl⟩).1 rfl⟩,
    ⟨h2.1, ((h2.2.1 ⟨by decide, by decide, Or.inl rfl⟩).2 rfl _ _).trans rfl⟩, h3.1⟩

/-- Claim C4 fails as stated: the chapter list is missing from the Dynamic cache and the
network answers the GET request with status 304, inside the range 200 to 399; the response is
returned, no `cache.put` is called and the Dynamic cache holds no entry for the request
afterwards.  And a GET request for the page `/about`, missing from the Static cache and
answered with status 200, is returned without a `cache.put`, its URL having no static
extension. -/
theorem redirect_status_not_written :
    ((200 ≤ (sampleResponse 304 "").status ∧ (sampleResponse 304 "").status < 400)
      ∧ (sampleGet "/api/quran/chapters").method = "GET"
      ∧ St.init.matchIn DYNAMIC_CACHE_NAME (sampleGet "/api/quran/chapters") = none
      ∧ (onFetch (sampleGet "/api/quran/chapters") (sampleEnv (some (sampleResponse 304 "")))
          St.init).1 = Except.ok (sampleResponse 304 "")
      ∧ putsOf (newEvents St.init (onFetch (sampleGet "/api/quran/chapters")
          (sampleEnv (some (sampleResponse 304 ""))) St.init).2) = []
      ∧ (onFetch (sampleGet "/api/quran/chapters") (sampleEnv (some (sampleResponse 304 "")))
          St.init).2.matchIn DYNAMIC_CACHE_NAME (sampleGet "/api/quran/chapters") = none)
    ∧ (St.init.matchIn STATIC_CACHE_NAME (sampleGet "/about") = none
      ∧ (onFetch (sampleGet "/about") (sampleEnv (some (sampleResponse 200 "page")))
          St.init).1 = Except.ok (sampleResponse 200 "page")
      ∧ putsOf (newEvents St.init (onFetch (sampleGet "/about")
          (sampleEnv (some (sampleResponse 200 "page"))) St.init).2) = []
      ∧ (onFetch (sampleGet "/about") (sampleEnv (some (sampleResponse 200 "page")))
          St.init).2.matchIn STATIC_CACHE_NAME (sampleGet "/about") = none) :=
  ⟨⟨by decide, rfl, rfl, rfl, rfl, rfl⟩, ⟨rfl, rfl, rfl, rfl⟩⟩

/-! ## Error statuses of the origin -/

/-- Claim C5: whenever a handler fetches a request from the network in the foreground
(network-first, or the cache-first or static lookup was made and missed) and the network
answers with a response `r` of status 400 to 599, the handler returns `r` itself, calls no
`cache.put` and changes the content of no cache. -/
theorem origin_error_passed_through (env : Env) (s : St) (request : Request) (r : Response)
    (hfg : (startsWith request.url.pathname "/api/" = true
        ∧ (shouldCacheFirst request && request.method == "GET") = false)
      ∨ (env.openOk = true ∧ env.matchOk = true
        ∧ s.matchIn (handlerCache request) request = none))
    (hnet : env.net s.tick request = some r)
    (hlo : 400 ≤ r.status) (hhi : r.status ≤ 599) :
    (onFetch request env s).1 = Except.ok r
    ∧ putsOf (newEvents s (onFetch request env s).2) = []
    ∧ ∀ name q, (onFetch request env s).2.matchIn name q = s.matchIn name q := by
  have hok : r.ok = false := by
    simp only [Response.ok, Bool.and_eq_false_iff, decide_eq_false_iff_not]
    right; omega
  exact foreground_without_put env s request r hfg hnet (by simp [hok])

/-- Claim C5 at sample inputs: a 404 for a cached-first chapter request that misses the
cache, and a 500 for a page, are returned as they are and nothing is put. -/
theorem origin_error_passed_through_witness :
    ((onFetch (sampleGet "/api/quran/chapter/999") (sampleEnv (some (sampleResponse 404 "no")))
        St.init).1 = Except.ok (sampleResponse 404 "no")
      ∧ putsOf (newEvents St.init (onFetch (sampleGet "/api/quran/chapter/999")
          (sampleEnv (some (sampleResponse 404 "no"))) St.init).2) = [])
    ∧ ((onFetch (sampleGet "/about") (sampleEnv (some (sampleResponse 500 "oops")))
        St.init).1 = Except.ok (sampleResponse 500 "oops")
      ∧ putsOf (newEvents St.init (onFetch (sampleGet "/about")
          (sampleEnv (some (sampleResponse 500 "oops"))) St.init).2) = []) :=
  have h1 := origin_error_passed_through (sampleEnv (some (sampleResponse 404 "no"))) St.init
    (sampleGet "/api/quran/chapter/999") (sampleResponse 404 "no") (Or.inr ⟨rfl, rfl, rfl⟩) rfl
    (by decide) (by decide)
  have h2 := origin_error_passed_through (sampleEnv (some (sampleResponse 500 "oops"))) St.init
    (sampleGet "/about") (sampleResponse 500 "oops") (Or.inr ⟨rfl, rfl, rfl⟩) rfl
    (by decide) (by decide)
  ⟨⟨h1.1, h1.2.1⟩, ⟨h2.1, h2.2.1⟩⟩

/-! ## Requests that are not GET -/

/-- Claim C6, as amended: a request whose method is not GET is forwarded to the network by
the fetch handler when its path is an API path, and for another path when the Static cache
opens and can be consulted: the run issues one network fetch, of that request, and whenever
the network answers, the answer is what the handler returns, whatever the caches hold; no
cache has an entry that matches the request.  A request outside the API whose Static cache
cannot be opened or consulted is never sent to the network. -/
theorem non_get_forwarded_to_network (env : Env) (s : St) (request : Request)
    (hmethod : request.method ≠ "GET") :
    ((startsWith request.url.pathname "/api/" = true
        ∨ (env.openOk = true ∧ env.matchOk = true)) →
      fetchesOf (newEvents s (onFetch request env s).2) = [request]
      ∧ (∀ r, env.net s.tick request = some r → (onFetch request env s).1 = Except.ok r))
    ∧ (∀ name, s.matchIn name request = none)
    ∧ (startsWith request.url.pathname "/api/" = false →
        (env.openOk = false ∨ env.matchOk = false) →
        fetchesOf (newEvents s (onFetch request env s).2) = []) := by
  have hm : (request.method == "GET") = false := by simpa using hmethod
  have hnone : ∀ (t : St) (name : String), t.matchIn name request = none := by
    intro t name; simp [St.matchIn, hm]
  refine ⟨fun hstore => ⟨?_, ?_⟩, hnone s, ?_⟩
  · cases hapi : startsWith request.url.pathname "/api/" with
    | true =>
      cases hn : env.net s.tick request with
      | some r =>
        simp [onFetch, hapi, handleApiRequest, hm, attempt, bind, fetch, hn, pure, St.emit,
          newEvents, fetchesOf]
      | none =>
        cases ho : env.openOk <;> cases hma : env.matchOk <;>
          simp [onFetch, hapi, handleApiRequest, hm, attempt, bind, fetch, hn, pure, St.emit,
            newEvents, fetchesOf, cachesOpen, ho, cacheMatch, hma, hnone]
    | false =>
      obtain ⟨ho, hma⟩ : env.openOk = true ∧ env.matchOk = true := by
        rcases hstore with h | h
        · rw [hapi] at h; exact absurd h (by decide)
        · exact h
      cases hn : env.net s.tick request with
      | some r =>
        cases hc : (r.ok && isStaticFile request.url.href) with
        | false =>
          simp [onFetch, hapi, handleStaticRequest, attempt, bind, cachesOpen, ho, cacheMatch,
            hma, hnone, fetch, hn, hc, pure, St.emit, newEvents, fetchesOf]
        | true =>
          have hok : r.ok = true := by simp only [Bool.and_eq_true] at hc; exact hc.1
          have hst : isStaticFile request.url.href = true := by
            simp only [Bool.and_eq_true] at hc; exact hc.2
          simp [onFetch, hapi, handleStaticRequest, attempt, bind, cachesOpen, ho, cacheMatch,
            hma, hnone, fetch, hn, hok, hst, pure, St.emit, newEvents, fetchesOf, detached,
            cachePut, putAccepted, hm]
      | none =>
        cases hnav : (request.mode == "navigate") with
        | false =>
          have hnav2 : ¬ request.mode = "navigate" := by simpa using hnav
          simp [onFetch, hapi, handleStaticRequest, attempt, bind, cachesOpen, ho, cacheMatch,
            hma, hnone, fetch, hn, hnav2, pure, St.emit, newEvents, fetchesOf]
        | true =>
          have hnav2 : request.mode = "navigate" := by simpa using hnav
          simp [onFetch, hapi, handleStaticRequest, attempt, bind, cachesOpen, ho, cacheMatch,
            hma, hnone, fetch, hn, hnav2, pure, St.emit, newEvents, fetchesOf, getEnv]
          generalize St.matchIn _ STATIC_CACHE_NAME (rootRequest env) = fallback
          cases fallback <;> simp [fetchesOf]
  · intro r hn
    cases hapi : startsWith request.url.pathname "/api/" with
    | true =>
      simp [onFetch, hapi, handleApiRequest, hm, attempt, bind, fetch, hn, pure, St.emit]
    | false =>
      obtain ⟨ho, hma⟩ : env.openOk = true ∧ env.matchOk = true := by
        rcases hstore with h | h
        · rw [hapi] at h; exact absurd h (by decide)
        · exact h
      cases hc : (r.ok && isStaticFile request.url.href) with
      | false =>
        simp [onFetch, hapi, handleStaticRequest, attempt, bind, cachesOpen, ho, cacheMatch,
          hma, hnone, fetch, hn, hc, pure, St.emit]
      | true =>
        have hok : r.ok = true := by simp only [Bool.and_eq_true] at hc; exact hc.1
        have hst : isStaticFile request.url.href = true := by
          simp only [Bool.and_eq_true] at hc; exact hc.2
        simp [onFetch, hapi, handleStaticRequest, attempt, bind, cachesOpen, ho, cacheMatch,
          hma, hnone, fetch, hn, hok, hst, pure, St.emit, detached]

  · intro hapi hdown
    by_cases hnav : request.mode = "navigate"
    · cases ho : env.openOk with
      | false =>
        simp [onFetch, hapi, handleStaticRequest, attempt, bind, cachesOpen, ho, St.emit, hnav,
          getEnv, pure, newEvents, fetchesOf]
      | true =>
        have hma : env.matchOk = false := by
          rcases hdown with h | h
          · rw [ho] at h; exact absurd h (by decide)
          · exact h
        simp [onFetch, hapi, handleStaticRequest, attempt, bind, cachesOpen, ho, cacheMatch,
          hma, St.emit, hnav, getEnv, pure, newEvents, fetchesOf]
    · cases ho : env.openOk with
      | false =>
        simp [onFetch, hapi, handleStaticRequest, attempt, bind, cachesOpen, ho, St.emit, hnav,
          pure, newEvents, fetchesOf]
      | true =>
        have hma : env.matchOk = false := by
          rcases hdown with h | h
          · rw [ho] at h; exact absurd h (by decide)
          · exact h
        simp [onFetch, hapi, handleStaticRequest, attempt, bind, cachesOpen, ho, cacheMatch,
          hma, St.emit, hnav, pure, newEvents, fetchesOf]

/-- The amended claim C6 at sample inputs: a POST to the API and a POST to a page, each
answered by the network with status 201, are answered with that response after one fetch. -/
theorem non_get_forwarded_to_network_witness :
    (fetchesOf (newEvents St.init (onFetch (samplePost "/api/learning/session" "b")
        (sampleEnv (some (sampleResponse 201 "saved"))) St.init).2)
        = [samplePost "/api/learning/session" "b"]
      ∧ (onFetch (samplePost "/api/learning/session" "b")
          (sampleEnv (some (sampleResponse 201 "saved"))) St.init).1
        = Except.ok (sampleResponse 201 "saved"))
    ∧ (fetchesOf (newEvents sampleCachedState (onFetch (samplePost "/contact" "b")
        (sampleEnv (some (sampleResponse 201 "saved"))) sampleCachedState).2)
        = [samplePost "/contact" "b"]
      ∧ (onFetch (samplePost "/contact" "b")
          (sampleEnv (some (sampleResponse 201 "saved"))) sampleCachedState).1
        = Except.ok (sampleResponse 201 "saved")) :=
  have h1 := (non_get_forwarded_to_network (sampleEnv (some (sampleResponse 201 "saved")))
    St.init (samplePost "/api/learning/session" "b") (by decide)).1 (Or.inl rfl)
  have h2 := (non_get_forwarded_to_network (sampleEnv (some (sampleResponse 201 "saved")))
    sampleCachedState (samplePost "/contact" "b") (by decide)).1 (Or.inr ⟨rfl, rfl⟩)
  ⟨⟨h1.1, h1.2 _ rfl⟩, ⟨h2.1, h2.2 _ rfl⟩⟩

/-- Claim C6 fails as stated: a POST to the page `/contact` while `caches.open` rejects and
the network would answer 201 is not forwarded: the handler opens the Static cache, fails,
and its `catch` block returns the offline page; no fetch is issued. -/
theorem non_get_not_forwarded_when_cache_fails :
    (samplePost "/contact" "b").method ≠ "GET"
    ∧ (sampleEnvNoStorage (some (sampleResponse 201 "saved"))).net 0 (samplePost "/contact" "b")
        = some (sampleResponse 201 "saved")
    ∧ (onFetch (samplePost "/contact" "b")
        (sampleEnvNoStorage (some (sampleResponse 201 "saved"))) St.init).1
      = Except.ok offlinePage
    ∧ fetchesOf (newEvents St.init (onFetch (samplePost "/contact" "b")
        (sampleEnvNoStorage (some (sampleResponse 201 "saved"))) St.init).2) = []
    ∧ (onFetch (samplePost "/contact" "b")
        (sampleEnvNoStorage (some (sampleResponse 201 "saved"))) St.init).2.trace
      = [Event.cachesOpen STATIC_CACHE_NAME] :=
  ⟨by decide, rfl, rfl, rfl, rfl⟩

/-- Claim C7, as amended: for a request whose method is not GET and whose network fetch
fails with a network error, the handler records no deferred action: the store of offline
actions is left as it was, whatever the cache storage does.  When `caches.open` and
`cache.match` resolve, the response is the synthesized 503 with the error
`Network unavailable` for an API path; for another path it is the basic offline page, or the
root entry of the Static cache when the request is a navigation and that entry exists. -/
theorem non_get_network_failure_not_queued (env : Env) (s : St) (request : Request)
    (hmethod : request.method ≠ "GET")
    (hnet : env.net s.tick request = none) :
    (onFetch request env s).2.storedActions = s.storedActions
    ∧ (env.openOk = true → env.matchOk = true →
        (onFetch request env s).1 = Except.ok
          (if startsWith request.url.pathname "/api/" = true then networkUnavailableResponse
           else if request.mode = "navigate" then
             (s.matchIn STATIC_CACHE_NAME (rootRequest env)).getD offlinePage
           else offlinePage)) := by
  have hm : (request.method == "GET") = false := by simpa using hmethod
  have hnone : ∀ (t : St) (name : String), t.matchIn name request = none := by
    intro t name; simp [St.matchIn, hm]
  refine ⟨?_, ?_⟩
  · cases hapi : startsWith request.url.pathname "/api/" <;>
      cases hopen : env.openOk <;> cases hmatch : env.matchOk <;>
      by_cases hnav : request.mode = "navigate" <;>
      simp [onFetch, hapi, handleApiRequest, handleStaticRequest, hm, attempt, bind, fetch, hnet,
        pure, St.emit, cachesOpen, hopen, cacheMatch, hmatch, hnone, hnav, getEnv,
        matchIn_openCache_twice]
    cases hroot : s.matchIn STATIC_CACHE_NAME (rootRequest env) <;> rfl
  · intro hopen hmatch
    cases hapi : startsWith request.url.pathname "/api/" with
    | true =>
      simp [onFetch, hapi, handleApiRequest, hm, attempt, bind, fetch, hnet, pure, St.emit,
        cachesOpen, hopen, cacheMatch, hmatch, hnone]
    | false =>
      by_cases hnav : request.mode = "navigate"
      · simp [onFetch, hapi, handleStaticRequest, attempt, bind, cachesOpen, hopen, cacheMatch,
          hmatch, hnone, fetch, hnet, hnav, pure, St.emit, getEnv, matchIn_openCache_twice]
        cases hroot : s.matchIn STATIC_CACHE_NAME (rootRequest env) <;> simp
      · simp [onFetch, hapi, handleStaticRequest, attempt, bind, cachesOpen, hopen, cacheMatch,
          hmatch, hnone, fetch, hnet, hnav, pure, St.emit]

/-- The amended claim C7 at sample inputs: a POST of a learning session while the network
is down, with the cache storage working, and with `caches.open` rejecting, where the store
of offline actions is left as it was too. -/
theorem non_get_network_failure_not_queued_witness :
    ((onFetch (samplePost "/api/learning/session" "b") (sampleEnv none) St.init).2.storedActions
        = St.init.storedActions
      ∧ (onFetch (samplePost "/api/learning/session" "b") (sampleEnv none) St.init).1
        = Except.ok networkUnavailableResponse)
    ∧ (onFetch (samplePost "/api/learning/session" "b") (sampleEnvNoStorage none)
          St.init).2.storedActions = St.init.storedActions :=
  have h1 := non_get_network_failure_not_queued (sampleEnv none) St.init
    (samplePost "/api/learning/session" "b") (by decide) rfl
  have h2 := non_get_network_failure_not_queued (sampleEnvNoStorage none) St.init
    (samplePost "/api/learning/session" "b") (by decide) rfl
  ⟨⟨h1.1, h1.2 rfl rfl⟩, h2.1⟩

/-- Claim C7 fails as stated: `POST /api/learning/session` with the network down gets the
503 response whose error is `Network unavailable`, not `queued-for-retry`; the store of
offline actions is empty before and after, and the only platform calls are the fetch, the
opening of the Dynamic cache and the lookup in it. -/
theorem post_network_failure_queues_nothing :
    (samplePost "/api/learning/session" "b").method ≠ "GET"
    ∧ (sampleEnv none).net St.init.tick (samplePost "/api/learning/session" "b") = none
    ∧ (onFetch (samplePost "/api/learning/session" "b") (sampleEnv none) St.init).1
      = Except.ok networkUnavailableResponse
    ∧ networkUnavailableResponse.body ≠ jsonError "queued-for-retry"
    ∧ (onFetch (samplePost "/api/learning/session" "b") (sampleEnv none) St.init).2.storedActions
      = []
    ∧ (onFetch (samplePost "/api/learning/session" "b") (sampleEnv none) St.init).2.trace
      = [Event.fetch (samplePost "/api/learning/session" "b"),
         Event.cachesOpen DYNAMIC_CACHE_NAME,
         Event.cacheMatch DYNAMIC_CACHE_NAME (samplePost "/api/learning/session" "b")] :=
  ⟨by decide, rfl, rfl, by decide, rfl, rfl⟩

/-! ## Background sync -/

/-- The replay outcomes list every action once, in the order of the list. -/
theorem replayOutcomes_fst (env : Env) (tick : Nat) (actions : List Action) :
    (replayOutcomes env tick actions).map Prod.fst = actions := by
  induction actions generalizing tick with
  | nil => rfl
  | cons a rest ih => simp [replayOutcomes, ih]

/-- The whole run of the loop of `syncLearningProgress`: it settles without a fault, touches
neither the caches nor the action store, and issues for every action its fetch, followed by
its removal when the fetch resolved. -/
theorem syncActions_run (env : Env) (actions : List Action) (s : St) :
    syncActions actions env s
      = (Except.ok (),
          { caches := s.caches, storedActions := s.storedActions,
            tick := s.tick + actions.length,
            trace := s.trace ++ (replayOutcomes env s.tick actions).flatMap
              (fun p => Event.fetch p.1.toRequest
                :: (if p.2 = true then [Event.removeStoredAction p.1.id] else [])) }) := by
  induction actions generalizing s with
  | nil => simp [syncActions, pure, replayOutcomes]
  | cons a rest ih =>
    cases hn : env.net s.tick a.toRequest with
    | none =>
      simp [syncActions, bind, attempt, fetch, hn, pure, St.emit, ih, replayOutcomes]
      omega
    | some r =>
      simp [syncActions, bind, attempt, fetch, hn, pure, St.emit, ih, replayOutcomes,
        removeStoredAction]
      omega

theorem fetchesOf_replay (l : List (Action × Bool)) :
    fetchesOf (l.flatMap (fun p => Event.fetch p.1.toRequest
        :: (if p.2 = true then [Event.removeStoredAction p.1.id] else [])))
      = l.map (fun p => p.1.toRequest) := by
  induction l with
  | nil => rfl
  | cons p rest ih =>
    obtain ⟨a, b⟩ := p
    rw [List.flatMap_cons]
    cases b
    · exact congrArg (List.cons a.toRequest) ih
    · exact congrArg (List.cons a.toRequest) ih

theorem removalsOf_replay (l : List (Action × Bool)) :
    removalsOf (l.flatMap (fun p => Event.fetch p.1.toRequest
        :: (if p.2 = true then [Event.removeStoredAction p.1.id] else [])))
      = (l.filter (fun p => p.2)).map (fun p => p.1.id) := by
  induction l with
  | nil => rfl
  | cons p rest ih =>
    obtain ⟨a, b⟩ := p
    rw [List.flatMap_cons]
    cases b <;>
      simp [removalsOf, ih, List.filter_cons]

/-- Claim C8, as amended: for every list of stored actions, the loop of
`syncLearningProgress` replays all of them oldest-first, each once, and does not stop at an
action whose replay fails: the fetches it issues are the requests of the actions, in the
order of the list, and the loop settles without a fault. -/
theorem sync_replays_every_action (env : Env) (s : St) (actions : List Action) :
    (syncActions actions env s).1 = Except.ok ()
    ∧ fetchesOf (newEvents s (syncActions actions env s).2)
        = actions.map Action.toRequest := by
  rw [syncActions_run]
  refine ⟨rfl, ?_⟩
  simp only [newEvents, List.drop_left, fetchesOf_replay]
  conv => rhs; rw [← replayOutcomes_fst env s.tick actions]
  simp [List.map_map]

/-- Claim C8 fails as stated: with A1, A2, A3 stored and the replay of A2 failing, the loop
goes on to replay A3 and hands A3 to `removeStoredAction`. -/
theorem sync_continues_after_failure :
    (sampleEnvFailing "two").net 1 (sampleAction "A2" "two").toRequest = none
    ∧ (syncActions sampleActions (sampleEnvFailing "two") St.init).2.trace
        = [Event.fetch (sampleAction "A1" "one").toRequest,
           Event.removeStoredAction "A1",
           Event.fetch (sampleAction "A2" "two").toRequest,
           Event.fetch (sampleAction "A3" "three").toRequest,
           Event.removeStoredAction "A3"]
    ∧ removalsOf (syncActions sampleActions (sampleEnvFailing "two") St.init).2.trace
        = ["A1", "A3"] :=
  ⟨rfl, rfl, rfl⟩

/-- Claim C9: in the loop of `syncLearningProgress`, every action contributes to the
platform calls its replay fetch, followed at once by `removeStoredAction` of its id when
that fetch resolved and by nothing when it failed; so the ids handed to `removeStoredAction`
are those of the actions whose replay resolved, in order, each action at most once. -/
theorem removal_only_after_resolved_replay (env : Env) (s : St) (actions : List Action) :
    newEvents s (syncActions actions env s).2
      = (replayOutcomes env s.tick actions).flatMap
          (fun p => Event.fetch p.1.toRequest
            :: (if p.2 = true then [Event.removeStoredAction p.1.id] else []))
    ∧ (replayOutcomes env s.tick actions).map Prod.fst = actions
    ∧ removalsOf (newEvents s (syncActions actions env s).2)
        = ((replayOutcomes env s.tick actions).filter (fun p => p.2)).map (fun p => p.1.id)
    ∧ (removalsOf (newEvents s (syncActions actions env s).2)).Sublist
        (actions.map Action.id) := by
  have hids : (replayOutcomes env s.tick actions).map (fun p => p.1.id)
      = actions.map Action.id := by
    conv => rhs; rw [← replayOutcomes_fst env s.tick actions]
    simp [List.map_map]
  have hsub := (List.filter_sublist (p := fun p : Action × Bool => p.2)
    (replayOutcomes env s.tick actions)).map (fun p => p.1.id)
  rw [hids] at hsub
  rw [syncActions_run]
  refine ⟨?_, replayOutcomes_fst env s.tick actions, ?_, ?_⟩
  · simp only [newEvents, List.drop_left]
  · simp only [newEvents, List.drop_left, removalsOf_replay]
  · simp only [newEvents, List.drop_left, removalsOf_replay]
    exact hsub

/-! ## Install -/

/-- What a lookup finds depends on the caches of the state only. -/
theorem matchIn_congr (s1 s2 : St) (h : s1.caches = s2.caches) (name : String) (q : Request) :
    s1.matchIn name q = s2.matchIn name q := by
  simp [St.matchIn, St.cache, h]

/-- The fetches of `cache.addAll` settle without a fault and leave the caches alone. -/
theorem fetchEach_caches (env : Env) (requests : List Request) (s : St) :
    (∃ fetched, (fetchEach requests env s).1 = Except.ok fetched)
    ∧ (fetchEach requests env s).2.caches = s.caches := by
  induction requests generalizing s with
  | nil => exact ⟨⟨[], rfl⟩, rfl⟩
  | cons q rest ih =>
    cases hn : env.net s.tick q with
    | none =>
      obtain ⟨⟨l, hl⟩, hc⟩ := ih { s.emit (Event.fetch q) with tick := s.tick + 1 }
      simp only [fetchEach, bind, fetchSettled, attempt, fetch, hn, pure]
      generalize hx : fetchEach rest env _ = x at hl hc ⊢
      obtain ⟨x1, x2⟩ := x
      simp only at hl hc
      subst hl
      exact ⟨⟨_, rfl⟩, hc⟩
    | some r =>
      obtain ⟨⟨l, hl⟩, hc⟩ := ih { s.emit (Event.fetch q) with tick := s.tick + 1 }
      simp only [fetchEach, bind, fetchSettled, attempt, fetch, hn, pure]
      generalize hx : fetchEach rest env _ = x at hl hc ⊢
      obtain ⟨x1, x2⟩ := x
      simp only at hl hc
      subst hl
      exact ⟨⟨_, rfl⟩, hc⟩

/-- A priming that rejects leaves the content of every cache as it was. -/
theorem primeStaticCache_error_caches (env : Env) (s : St) (e : Fault)
    (h : (primeStaticCache env s).1 = Except.error e) (name : String) (q : Request) :
    (primeStaticCache env s).2.matchIn name q = s.matchIn name q := by
  cases ho : env.openOk with
  | false =>
    simp [primeStaticCache, bind, cachesOpen, ho, St.emit, St.matchIn, St.cache]
  | true =>
    obtain ⟨⟨l, hl⟩, hc⟩ := fetchEach_caches env ((STATIC_FILES env).map getRequest)
      { caches := openCache STATIC_CACHE_NAME s.caches, storedActions := s.storedActions,
        tick := s.tick, trace := s.trace ++ [Event.cachesOpen STATIC_CACHE_NAME] }
    simp only [primeStaticCache, bind, cachesOpen, ho, St.emit, getEnv, cacheAddAll, if_true]
      at h ⊢
    generalize hx : fetchEach ((STATIC_FILES env).map getRequest) env _ = x at hl hc h ⊢
    obtain ⟨x1, x2⟩ := x
    simp only at hl hc
    subst hl
    simp only at h ⊢
    by_cases hall : (l.all (fun p => addable p.2) && env.putOk) = true
    · simp [hall] at h
    · simp only [hall, if_false, reject, Bool.false_eq_true]
      rw [matchIn_congr x2
        (St.mk (openCache STATIC_CACHE_NAME s.caches) s.storedActions s.tick s.trace) hc]
      exact matchIn_openCache s STATIC_CACHE_NAME name q _ _ _

/-- Claim C10, as amended: the promise the `install` listener hands to `event.waitUntil`
never rejects.  When the priming of the Static cache rejects (the cache cannot be opened or
`addAll` rejects), the `catch` handler settles the promise as fulfilled, nothing further is
done (`skipWaiting` is not called) and the content of every cache is as before. -/
theorem install_promise_never_rejects (env : Env) (s : St) :
    (onInstall env s).1 = Except.ok ()
    ∧ ∀ e, (primeStaticCache env s).1 = Except.error e →
        (onInstall env s).2 = (primeStaticCache env s).2
        ∧ ∀ name q, (onInstall env s).2.matchIn name q = s.matchIn name q := by
  have hrun : ∀ e, (primeStaticCache env s).1 = Except.error e →
      (onInstall env s).2 = (primeStaticCache env s).2 := by
    intro e he
    simp only [onInstall, attempt, bind, pure]
    generalize primeStaticCache env s = x at he ⊢
    obtain ⟨x1, x2⟩ := x
    simp only at he
    subst he
    rfl
  refine ⟨?_, fun e he => ⟨hrun e he, fun name q => ?_⟩⟩
  · simp only [onInstall, attempt, bind, pure, skipWaiting]
    generalize primeStaticCache env s = x
    obtain ⟨x1, x2⟩ := x
    cases x1 <;> rfl
  · rw [hrun e he]
    exact primeStaticCache_error_caches env s e he name q

/-- The amended claim C10 at a sample input: the network is down during install. -/
theorem install_promise_never_rejects_witness :
    (onInstall (sampleEnv none) St.init).1 = Except.ok ()
    ∧ (onInstall (sampleEnv none) St.init).2 = (primeStaticCache (sampleEnv none) St.init).2
    ∧ (onInstall (sampleEnv none) St.init).2.matchIn STATIC_CACHE_NAME (sampleGet "/")
        = St.init.matchIn STATIC_CACHE_NAME (sampleGet "/") :=
  have h := install_promise_never_rejects (sampleEnv none) St.init
  ⟨h.1, (h.2 Fault.typeError rfl).1, (h.2 Fault.typeError rfl).2 _ _⟩

/-- Claim C10 fails as stated: with the network down `addAll` rejects, and with a storage
backend that cannot open a cache `caches.open` rejects; in both cases the promise handed to
`event.waitUntil` is fulfilled, not rejected. -/
theorem install_fulfils_when_priming_fails :
    ((primeStaticCache (sampleEnv none) St.init).1 = Except.error Fault.typeError
      ∧ (onInstall (sampleEnv none) St.init).1 = Except.ok ())
    ∧ ((primeStaticCache (sampleEnvNoStorage (some (sampleResponse 200 "x"))) St.init).1
        = Except.error Fault.storageError
      ∧ (onInstall (sampleEnvNoStorage (some (sampleResponse 200 "x"))) St.init).1
        = Except.ok ()) :=
  ⟨⟨rfl, rfl⟩, ⟨rfl, rfl⟩⟩

/-! ## Activate -/

/-- A lookup by name in a list filtered on names that keeps the name. -/
theorem lookup_filter_keep {β : Type} (keep : String → Bool) (l : List (String × β)) (n : String)
    (h : keep n = true) : (l.filter (fun c => keep c.1)).lookup n = l.lookup n := by
  induction l with
  | nil => rfl
  | cons hd tl ih =>
    obtain ⟨k, v⟩ := hd
    by_cases hk : n = k
    · subst hk
      simp [List.filter_cons, h, List.lookup]
    · have hb : (n == k) = false := by simpa using hk
      cases hkk : keep k <;> simp [List.filter_cons, hkk, List.lookup, hb, ih]

/-- The run of the deletions of the `activate` listener over a list of names. -/
theorem deleteOld_run (env : Env) (names : List String) (s : St) :
    deleteOld names env s
      = (Except.ok (),
          { caches := s.caches.filter (fun c =>
              !(names.any (fun n => n == c.1
                  && (n != STATIC_CACHE_NAME && n != DYNAMIC_CACHE_NAME)))),
            storedActions := s.storedActions, tick := s.tick,
            trace := s.trace ++ (names.filter (fun n =>
              n != STATIC_CACHE_NAME && n != DYNAMIC_CACHE_NAME)).map Event.cachesDelete }) := by
  induction names generalizing s with
  | nil => simp [deleteOld, pure]
  | cons n rest ih =>
    cases hold : (n != STATIC_CACHE_NAME && n != DYNAMIC_CACHE_NAME) with
    | false =>
      simp only [deleteOld, hold, bind, pure, ih, List.any_cons, Bool.and_false, Bool.false_or,
        List.filter_cons, Bool.false_eq_true, if_false]
    | true =>
      simp only [deleteOld, hold, bind, pure, cachesDelete, St.emit, ih, List.any_cons,
        Bool.and_true, List.filter_cons, if_true, List.map_cons, List.filter_filter,
        List.append_assoc, List.singleton_append]
      congr 2
      apply List.filter_congr
      intro c _
      by_cases hc : n = c.1
      · simp [hc]
      · have h1 : (n == c.1) = false := by simpa using hc
        have h2 : (c.1 != n) = true := by simpa using fun e => hc e.symm
        simp [h1, h2]

/-- The run of the `activate` listener: the caches of other names are deleted, the two
current caches are kept as they are. -/
theorem onActivate_run (env : Env) (s : St) :
    onActivate env s
      = (Except.ok (),
          { caches := s.caches.filter (fun c =>
              c.1 == STATIC_CACHE_NAME || c.1 == DYNAMIC_CACHE_NAME),
            storedActions := s.storedActions, tick := s.tick,
            trace := s.trace ++ Event.cachesKeys
              :: ((s.caches.map Prod.fst).filter (fun n =>
                    n != STATIC_CACHE_NAME && n != DYNAMIC_CACHE_NAME)).map Event.cachesDelete
              ++ [Event.clientsClaim] }) := by
  have hfilter : s.caches.filter (fun c =>
        !((s.caches.map Prod.fst).any (fun n => n == c.1
            && (n != STATIC_CACHE_NAME && n != DYNAMIC_CACHE_NAME))))
      = s.caches.filter (fun c => c.1 == STATIC_CACHE_NAME || c.1 == DYNAMIC_CACHE_NAME) := by
    apply List.filter_congr
    intro c hc
    by_cases hkeep : c.1 = STATIC_CACHE_NAME ∨ c.1 = DYNAMIC_CACHE_NAME
    · have h1 : (c.1 == STATIC_CACHE_NAME || c.1 == DYNAMIC_CACHE_NAME) = true := by
        simpa using hkeep
      rw [h1]
      simp only [Bool.not_eq_true', List.any_eq_false]
      intro n _
      by_cases hn : n = c.1
      · subst hn
        rcases hkeep with h | h <;> simp [h]
      · simp [hn]
    · have h1 : (c.1 == STATIC_CACHE_NAME || c.1 == DYNAMIC_CACHE_NAME) = false := by
        simpa using hkeep
      rw [h1]
      simp only [Bool.not_eq_false', List.any_eq_true]
      refine ⟨c.1, List.mem_map_of_mem Prod.fst hc, ?_⟩
      have h2 : ¬ c.1 = STATIC_CACHE_NAME ∧ ¬ c.1 = DYNAMIC_CACHE_NAME := by
        constructor
        · exact fun h => hkeep (Or.inl h)
        · exact fun h => hkeep (Or.inr h)
      simp [h2.1, h2.2]
  simp only [onActivate, bind, cachesKeys, St.emit, deleteOld_run, clientsClaim, hfilter]
  simp

/-- Claim C11: whatever caches exist, the `activate` listener settles without a fault and
leaves exactly the caches named `STATIC_CACHE_NAME` or `DYNAMIC_CACHE_NAME` among those that
existed: a name is there afterwards if and only if it was there before and is one of the two
current names, the names handed to `caches.delete` are the others, and what a lookup finds
in the two current caches is unchanged. -/
theorem activate_keeps_exactly_current_caches (env : Env) (s : St) :
    (onActivate env s).1 = Except.ok ()
    ∧ (onActivate env s).2.caches
        = s.caches.filter (fun c => c.1 == STATIC_CACHE_NAME || c.1 == DYNAMIC_CACHE_NAME)
    ∧ (∀ name, name ∈ (onActivate env s).2.caches.map Prod.fst
        ↔ name ∈ s.caches.map Prod.fst
          ∧ (name = STATIC_CACHE_NAME ∨ name = DYNAMIC_CACHE_NAME))
    ∧ deletionsOf (newEvents s (onActivate env s).2)
        = (s.caches.map Prod.fst).filter
            (fun n => n != STATIC_CACHE_NAME && n != DYNAMIC_CACHE_NAME)
    ∧ ∀ q, (onActivate env s).2.matchIn STATIC_CACHE_NAME q = s.matchIn STATIC_CACHE_NAME q
        ∧ (onActivate env s).2.matchIn DYNAMIC_CACHE_NAME q
            = s.matchIn DYNAMIC_CACHE_NAME q := by
  rw [onActivate_run]
  refine ⟨rfl, rfl, ?_, ?_, ?_⟩
  · intro name
    simp only [List.mem_map, List.mem_filter, Bool.or_eq_true, beq_iff_eq]
    constructor
    · rintro ⟨c, ⟨hc, hk⟩, rfl⟩
      exact ⟨⟨c, hc, rfl⟩, hk⟩
    · rintro ⟨⟨c, hc, rfl⟩, hk⟩
      exact ⟨c, ⟨hc, hk⟩, rfl⟩
  · have hdel : ∀ old : List String,
        deletionsOf (Event.cachesKeys :: old.map Event.cachesDelete ++ [Event.clientsClaim])
          = old := by
      intro old
      induction old with
      | nil => rfl
      | cons n rest ih =>
        simp only [List.map_cons, List.cons_append, deletionsOf] at ih ⊢
        rw [ih]
    simp only [newEvents]
    rw [List.append_assoc, List.drop_left]
    exact hdel _
  · intro q
    constructor
    · simp only [St.matchIn, St.cache]
      rw [lookup_filter_keep (fun n => n == STATIC_CACHE_NAME || n == DYNAMIC_CACHE_NAME)
        s.caches STATIC_CACHE_NAME (by decide)]
    · simp only [St.matchIn, St.cache]
      rw [lookup_filter_keep (fun n => n == STATIC_CACHE_NAME || n == DYNAMIC_CACHE_NAME)
        s.caches DYNAMIC_CACHE_NAME (by decide)]

/-- The names of the caches the `activate` listener keeps. -/
theorem kept_names (l : List (String × Cache)) :
    (l.filter (fun c => c.1 == STATIC_CACHE_NAME || c.1 == DYNAMIC_CACHE_NAME)).map Prod.fst
      = (l.map Prod.fst).filter (fun n => n == STATIC_CACHE_NAME || n == DYNAMIC_CACHE_NAME) := by
  induction l with
  | nil => rfl
  | cons hd tl ih =>
    cases hk : (hd.1 == STATIC_CACHE_NAME || hd.1 == DYNAMIC_CACHE_NAME) <;>
      simp [List.filter_cons, hk, ih]

/-- Claim C12, as amended: two runs of the `activate` listener in a row both settle without
a fault; the second deletes nothing and leaves the caches as the first left them; every
cache left is named `STATIC_CACHE_NAME` or `DYNAMIC_CACHE_NAME` and what a lookup finds in
these two is what it found before the first run.  The listener creates no cache: a current
name is there afterwards exactly when it was there before, and with distinct cache names
one cache of that name is left when it existed and none when it did not. -/
theorem activate_twice_changes_nothing (env1 env2 : Env) (s : St) :
    (onActivate env1 s).1 = Except.ok ()
    ∧ (onActivate env2 (onActivate env1 s).2).1 = Except.ok ()
    ∧ (onActivate env2 (onActivate env1 s).2).2.caches = (onActivate env1 s).2.caches
    ∧ deletionsOf (newEvents (onActivate env1 s).2 (onActivate env2 (onActivate env1 s).2).2)
        = []
    ∧ (∀ name ∈ (onActivate env2 (onActivate env1 s).2).2.caches.map Prod.fst,
        name = STATIC_CACHE_NAME ∨ name = DYNAMIC_CACHE_NAME)
    ∧ (∀ q, (onActivate env2 (onActivate env1 s).2).2.matchIn STATIC_CACHE_NAME q
          = s.matchIn STATIC_CACHE_NAME q
        ∧ (onActivate env2 (onActivate env1 s).2).2.matchIn DYNAMIC_CACHE_NAME q
          = s.matchIn DYNAMIC_CACHE_NAME q)
    ∧ (∀ name, name ∈ (onActivate env2 (onActivate env1 s).2).2.caches.map Prod.fst
        ↔ name ∈ s.caches.map Prod.fst
          ∧ (name = STATIC_CACHE_NAME ∨ name = DYNAMIC_CACHE_NAME))
    ∧ ((s.caches.map Prod.fst).Nodup →
        ((onActivate env2 (onActivate env1 s).2).2.caches.map Prod.fst).count STATIC_CACHE_NAME
            = (if STATIC_CACHE_NAME ∈ s.caches.map Prod.fst then 1 else 0)
        ∧ ((onActivate env2 (onActivate env1 s).2).2.caches.map Prod.fst).count
            DYNAMIC_CACHE_NAME
            = (if DYNAMIC_CACHE_NAME ∈ s.caches.map Prod.fst then 1 else 0)) := by
  have hidem : (s.caches.filter (fun c =>
        c.1 == STATIC_CACHE_NAME || c.1 == DYNAMIC_CACHE_NAME)).filter (fun c =>
        c.1 == STATIC_CACHE_NAME || c.1 == DYNAMIC_CACHE_NAME)
      = s.caches.filter (fun c => c.1 == STATIC_CACHE_NAME || c.1 == DYNAMIC_CACHE_NAME) := by
    rw [List.filter_filter]
    apply List.filter_congr
    intro c _
    simp
  have hnone : ((s.caches.filter (fun c =>
        c.1 == STATIC_CACHE_NAME || c.1 == DYNAMIC_CACHE_NAME)).map Prod.fst).filter
        (fun n => n != STATIC_CACHE_NAME && n != DYNAMIC_CACHE_NAME) = [] := by
    rw [kept_names, List.filter_filter, List.filter_eq_nil_iff]
    intro n _
    by_cases h1 : n = STATIC_CACHE_NAME
    · simp [h1]
    · by_cases h2 : n = DYNAMIC_CACHE_NAME
      · simp [h2]
      · simp [h1, h2]
  have h1 := onActivate_run env1 s
  have h2 := onActivate_run env2 (onActivate env1 s).2
  rw [h1] at h2
  simp only [hidem, hnone, List.map_nil] at h2
  rw [h1]
  dsimp only
  rw [h2]
  refine ⟨rfl, rfl, rfl, ?_, ?_, ?_, ?_, ?_⟩
  · simp only [newEvents]
    rw [List.append_assoc _ [Event.cachesKeys], List.drop_left]
    rfl
  · intro name hname
    rw [kept_names, List.mem_filter] at hname
    simpa using hname.2
  · intro q
    constructor
    · simp only [St.matchIn, St.cache]
      rw [lookup_filter_keep (fun n => n == STATIC_CACHE_NAME || n == DYNAMIC_CACHE_NAME)
        s.caches STATIC_CACHE_NAME (by decide)]
    · simp only [St.matchIn, St.cache]
      rw [lookup_filter_keep (fun n => n == STATIC_CACHE_NAME || n == DYNAMIC_CACHE_NAME)
        s.caches DYNAMIC_CACHE_NAME (by decide)]
  · intro name
    rw [kept_names, List.mem_filter]
    simp
  · intro hnodup
    rw [kept_names]
    constructor
    · by_cases hst : STATIC_CACHE_NAME ∈ s.caches.map Prod.fst
      · rw [if_pos hst]
        exact List.count_eq_one_of_mem (hnodup.filter _)
          (List.mem_filter.mpr ⟨hst, by decide⟩)
      · rw [if_neg hst]
        exact List.count_eq_zero_of_not_mem (fun h => hst (List.mem_filter.mp h).1)
    · by_cases hdy : DYNAMIC_CACHE_NAME ∈ s.caches.map Prod.fst
      · rw [if_pos hdy]
        exact List.count_eq_one_of_mem (hnodup.filter _)
          (List.mem_filter.mpr ⟨hdy, by decide⟩)
      · rw [if_neg hdy]
        exact List.count_eq_zero_of_not_mem (fun h => hdy (List.mem_filter.mp h).1)

/-- The amended claim C12 at a sample input: a state with a cache of an older version and
the two current caches; after two activations one Static and one Dynamic cache are left, and
the second activation changed nothing. -/
theorem activate_twice_changes_nothing_witness :
    (onActivate (sampleEnv none) (onActivate (sampleEnv none) sampleUpgradeState).2).2.caches
        = (onActivate (sampleEnv none) sampleUpgradeState).2.caches
    ∧ ((onActivate (sampleEnv none) (onActivate (sampleEnv none)
          sampleUpgradeState).2).2.caches.map Prod.fst).count STATIC_CACHE_NAME = 1
    ∧ ((onActivate (sampleEnv none) (onActivate (sampleEnv none)
          sampleUpgradeState).2).2.caches.map Prod.fst).count DYNAMIC_CACHE_NAME = 1 :=
  have h := activate_twice_changes_nothing (sampleEnv none) (sampleEnv none) sampleUpgradeState
  have hc := h.2.2.2.2.2.2.2 (by decide)
  ⟨h.2.2.1, hc.1.trans (if_pos (by decide)), hc.2.trans (if_pos (by decide))⟩

/-- Claim C12 fails as stated: after an install that primed the Static cache, the only
cache is the Static one; two activations in a row leave it so, and no Dynamic cache
exists. -/
theorem activate_twice_after_install_has_no_dynamic :
    (onInstall (sampleEnv (some (sampleResponse 200 "asset"))) St.init).2.caches.map Prod.fst
      = [STATIC_CACHE_NAME]
    ∧ (onActivate (sampleEnv none) (onActivate (sampleEnv none)
        (onInstall (sampleEnv (some (sampleResponse 200 "asset"))) St.init).2).2).2.caches.map
          Prod.fst = [STATIC_CACHE_NAME]
    ∧ ((onActivate (sampleEnv none) (onActivate (sampleEnv none)
        (onInstall (sampleEnv (some (sampleResponse 200 "asset"))) St.init).2).2).2.caches.map
          Prod.fst).count DYNAMIC_CACHE_NAME = 0 :=
  ⟨rfl, rfl, rfl⟩

/-! ## Fallbacks of the fetch handlers -/

/-- Claim C13: for a navigation request whose network fetch fails while the Static cache
holds an entry for `'/'`, `handleStaticRequest` returns a cached document: the entry of the
request itself when there is one, the entry for `'/'` otherwise; it is not the synthesized
offline page that is returned. -/
theorem navigation_offline_serves_cached_document (env : Env) (s : St) (request : Request)
    (root : Response)
    (hnav : request.mode = "navigate")
    (hopen : env.openOk = true) (hmatch : env.matchOk = true)
    (hnet : env.net s.tick request = none)
    (hroot : s.matchIn STATIC_CACHE_NAME (rootRequest env) = some root) :
    (∀ own, s.matchIn STATIC_CACHE_NAME request = some own →
        (handleStaticRequest request env s).1 = Except.ok own)
    ∧ (s.matchIn STATIC_CACHE_NAME request = none →
        (handleStaticRequest request env s).1 = Except.ok root) := by
  constructor
  · intro own hown
    simp [handleStaticRequest, attempt, bind, cachesOpen, hopen, cacheMatch, hmatch, St.emit,
      matchIn_openCache, hown, pure]
  · intro hmiss
    simp [handleStaticRequest, attempt, bind, cachesOpen, hopen, cacheMatch, hmatch, St.emit,
      matchIn_openCache, matchIn_openCache_twice, hmiss, fetch, hnet, hnav, getEnv, hroot, pure]

/-- Claim C13 at a sample input: a navigation to `/surah/2` with the network down and the
root document in the Static cache gets the root document. -/
theorem navigation_offline_serves_cached_document_witness :
    (handleStaticRequest (sampleNavigate "/surah/2") (sampleEnv none) sampleInstalledState).1
      = Except.ok (sampleResponse 200 "home") :=
  (navigation_offline_serves_cached_document (sampleEnv none) sampleInstalledState
    (sampleNavigate "/surah/2") (sampleResponse 200 "home") rfl rfl rfl rfl rfl).2 rfl

/-- Claim C14, as amended: for a request whose mode is not `navigate`, `handleStaticRequest`
looks up nothing but the request itself, so the root entry of the Static cache is never a
fallback; it returns the entry of the request when there is one, else the answer of the
network, and the synthesized offline page when the network fetch fails or the Static cache
cannot be opened or consulted. -/
theorem non_navigation_no_root_fallback (env : Env) (s : St) (request : Request)
    (hnav : request.mode ≠ "navigate") :
    (handleStaticRequest request env s).1
      = Except.ok (if env.openOk = true ∧ env.matchOk = true then
          (s.matchIn STATIC_CACHE_NAME request).getD
            ((env.net s.tick request).getD offlinePage)
        else offlinePage)
    ∧ matchesOf (newEvents s (handleStaticRequest request env s).2)
        = if env.openOk = true then [(STATIC_CACHE_NAME, request)] else [] := by
  cases ho : env.openOk with
  | false =>
    simp [handleStaticRequest, attempt, bind, cachesOpen, ho, St.emit, hnav, pure, newEvents,
      matchesOf]
  | true =>
    cases hma : env.matchOk with
    | false =>
      simp [handleStaticRequest, attempt, bind, cachesOpen, ho, cacheMatch, hma, St.emit, hnav,
        pure, newEvents, matchesOf]
    | true =>
      cases hc : s.matchIn STATIC_CACHE_NAME request with
      | some own =>
        simp [handleStaticRequest, attempt, bind, cachesOpen, ho, cacheMatch, hma, St.emit,
          matchIn_openCache, hc, pure, newEvents, matchesOf]
      | none =>
        cases hn : env.net s.tick request with
        | none =>
          simp [handleStaticRequest, attempt, bind, cachesOpen, ho, cacheMatch, hma, St.emit,
            matchIn_openCache, hc, fetch, hn, hnav, pure, newEvents, matchesOf]
        | some r =>
          cases hput : (r.ok && isStaticFile request.url.href) with
          | false =>
            simp [handleStaticRequest, attempt, bind, cachesOpen, ho, cacheMatch, hma, St.emit,
              matchIn_openCache, hc, fetch, hn, hput, pure, newEvents, matchesOf]
          | true =>
            have hok : r.ok = true := by simp only [Bool.and_eq_true] at hput; exact hput.1
            have hst : isStaticFile request.url.href = true := by
              simp only [Bool.and_eq_true] at hput; exact hput.2
            simp [handleStaticRequest, attempt, bind, cachesOpen, ho, cacheMatch, hma, St.emit,
              matchIn_openCache, hc, fetch, hn, hok, hst, pure, newEvents, matchesOf, detached,
              cachePut]
            split <;> simp [matchesOf]

/-- The amended claim C14 at a sample input: a script requested with the network down. -/
theorem non_navigation_no_root_fallback_witness :
    (handleStaticRequest (sampleGet "/static/js/app.js") (sampleEnv none)
        sampleInstalledState).1 = Except.ok offlinePage
    ∧ matchesOf (newEvents sampleInstalledState (handleStaticRequest
        (sampleGet "/static/js/app.js") (sampleEnv none) sampleInstalledState).2)
      = [(STATIC_CACHE_NAME, sampleGet "/static/js/app.js")] :=
  non_navigation_no_root_fallback (sampleEnv none) sampleInstalledState
    (sampleGet "/static/js/app.js") (by decide)

/-- Claim C14 fails as stated: a script requested with mode `cors` while the network is down
and the Static cache has no entry for it gets the synthesized offline HTML document, status
200 and `Content-Type: text/html`. -/
theorem non_navigation_gets_offline_page :
    (sampleGet "/static/js/app.js").mode ≠ "navigate"
    ∧ (handleStaticRequest (sampleGet "/static/js/app.js") (sampleEnv none)
        sampleInstalledState).1 = Except.ok offlinePage
    ∧ offlinePage.status = 200
    ∧ offlinePage.headers = [("Content-Type", "text/html")] :=
  ⟨by decide, rfl, rfl, rfl⟩

/-- Claim C16: for an API request handled network-first whose network fetch fails, the
handler returns the entry the Dynamic cache holds for the request when there is one, and the
synthesized 503 response `Network unavailable` when there is none. -/
theorem networkFirst_failure_falls_back_to_cache (env : Env) (s : St) (request : Request)
    (hnf : (shouldCacheFirst request && request.method == "GET") = false)
    (hopen : env.openOk = true) (hmatch : env.matchOk = true)
    (hnet : env.net s.tick request = none) :
    (∀ e, s.matchIn DYNAMIC_CACHE_NAME request = some e →
        (handleApiRequest request env s).1 = Except.ok e)
    ∧ (s.matchIn DYNAMIC_CACHE_NAME request = none →
        (handleApiRequest request env s).1 = Except.ok networkUnavailableResponse) := by
  constructor
  · intro e he
    simp [handleApiRequest, hnf, attempt, bind, fetch, hnet, cachesOpen, hopen, cacheMatch,
      hmatch, St.emit, matchIn_openCache, he, pure]
  · intro hmiss
    simp [handleApiRequest, hnf, attempt, bind, fetch, hnet, cachesOpen, hopen, cacheMatch,
      hmatch, St.emit, matchIn_openCache, hmiss, pure]

/-- Claim C16 at sample inputs: with the network down, the cached profile is returned, and
a request that is not cached gets the 503 response. -/
theorem networkFirst_failure_falls_back_to_cache_witness :
    (handleApiRequest (sampleGet "/api/user/profile") (sampleEnv none) sampleInstalledState).1
      = Except.ok (sampleResponse 200 "me")
    ∧ (handleApiRequest (sampleGet "/api/leaderboard") (sampleEnv none) sampleInstalledState).1
      = Except.ok networkUnavailableResponse :=
  ⟨(networkFirst_failure_falls_back_to_cache (sampleEnv none) sampleInstalledState
      (sampleGet "/api/user/profile") rfl rfl rfl rfl).1 _ rfl,
   (networkFirst_failure_falls_back_to_cache (sampleEnv none) sampleInstalledState
      (sampleGet "/api/leaderboard") rfl rfl rfl rfl).2 rfl⟩

/-! ## Synthesized responses and totality -/

/-- Claim C15: when the Dynamic cache has no entry for the request and the network fetch
fails, `handleApiRequest` returns a synthesized response, `Offline - data not available` on
the cache-first path and `Network unavailable` on the network-first path; each of the two
has status 503, the single header `Content-Type: application/json`, and as body the JSON
text of an object whose single field `error` is a string. -/
theorem synthesized_api_error_shape (env : Env) (s : St) (request : Request)
    (hopen : env.openOk = true) (hmatch : env.matchOk = true)
    (hnet : env.net s.tick request = none)
    (hmiss : s.matchIn DYNAMIC_CACHE_NAME request = none) :
    (handleApiRequest request env s).1
      = Except.ok (if (shouldCacheFirst request && request.method == "GET") = true
          then offlineDataResponse else networkUnavailableResponse)
    ∧ (offlineDataResponse.status = 503
      ∧ offlineDataResponse.headers = [("Content-Type", "application/json")]
      ∧ offlineDataResponse.body = "\x7b\"error\":\"Offline - data not available\"\x7d"
      ∧ ∃ msg, jsonPlain msg = true ∧ offlineDataResponse.body = jsonError msg)
    ∧ (networkUnavailableResponse.status = 503
      ∧ networkUnavailableResponse.headers = [("Content-Type", "application/json")]
      ∧ networkUnavailableResponse.body = "\x7b\"error\":\"Network unavailable\"\x7d"
      ∧ ∃ msg, jsonPlain msg = true ∧ networkUnavailableResponse.body = jsonError msg) := by
  refine ⟨?_, ⟨rfl, rfl, by decide, "Offline - data not available", by decide, rfl⟩,
    ⟨rfl, rfl, by decide, "Network unavailable", by decide, rfl⟩⟩
  cases hcf : (shouldCacheFirst request && request.method == "GET") with
  | true =>
    simp [handleApiRequest, hcf, attempt, bind, cachesOpen, hopen, cacheMatch, hmatch, St.emit,
      matchIn_openCache, hmiss, fetch, hnet, pure]
  | false =>
    simp [handleApiRequest, hcf, attempt, bind, cachesOpen, hopen, cacheMatch, hmatch, St.emit,
      matchIn_openCache, hmiss, fetch, hnet, pure]

/-- Claim C15 at sample inputs: the chapter list and the leaderboard asked with the network
down and nothing cached. -/
theorem synthesized_api_error_shape_witness :
    (handleApiRequest (sampleGet "/api/quran/chapters") (sampleEnv none) St.init).1
      = Except.ok offlineDataResponse
    ∧ (handleApiRequest (sampleGet "/api/leaderboard") (sampleEnv none) St.init).1
      = Except.ok networkUnavailableResponse :=
  ⟨(synthesized_api_error_shape (sampleEnv none) St.init (sampleGet "/api/quran/chapters")
      rfl rfl rfl rfl).1,
   (synthesized_api_error_shape (sampleEnv none) St.init (sampleGet "/api/leaderboard")
      rfl rfl rfl rfl).1⟩

/-- With a cache backend that opens and matches, `handleApiRequest` settles with a
response. -/
theorem handleApiRequest_total (env : Env) (s : St) (request : Request)
    (hopen : env.openOk = true) (hmatch : env.matchOk = true) :
    ∃ r, (handleApiRequest request env s).1 = Except.ok r := by
  cases hcf : (shouldCacheFirst request && request.method == "GET") with
  | true =>
    cases hc : s.matchIn DYNAMIC_CACHE_NAME request with
    | some cached =>
      simp [handleApiRequest, hcf, attempt, bind, cachesOpen, hopen, cacheMatch, hmatch,
        St.emit, matchIn_openCache, hc, detached, pure]
    | none =>
      cases hn : env.net s.tick request with
      | none =>
        simp [handleApiRequest, hcf, attempt, bind, cachesOpen, hopen, cacheMatch, hmatch,
          St.emit, matchIn_openCache, hc, fetch, hn, pure]
      | some r =>
        cases hok : r.ok <;>
          simp [handleApiRequest, hcf, attempt, bind, cachesOpen, hopen, cacheMatch, hmatch,
            St.emit, matchIn_openCache, hc, fetch, hn, hok, detached, pure]
  | false =>
    cases hn : env.net s.tick request with
    | none =>
      cases hc : s.matchIn DYNAMIC_CACHE_NAME request <;>
        simp [handleApiRequest, hcf, attempt, bind, fetch, hn, cachesOpen, hopen, cacheMatch,
          hmatch, St.emit, matchIn_openCache, hc, pure]
    | some r =>
      cases hput : (r.ok && request.method == "GET") with
      | false =>
        simp [handleApiRequest, hcf, attempt, bind, fetch, hn, hput, pure]
      | true =>
        have hok : r.ok = true := by simp only [Bool.and_eq_true] at hput; exact hput.1
        have hget : request.method = "GET" := by
          simp only [Bool.and_eq_true, beq_iff_eq] at hput; exact hput.2
        have hscf : shouldCacheFirst request = false := by simpa [hget] using hcf
        simp [handleApiRequest, hscf, attempt, bind, fetch, hn, hok, hget, cachesOpen, hopen,
          St.emit, detached, pure]

/-- With a cache backend that opens and matches, `handleStaticRequest` settles with a
response. -/
theorem handleStaticRequest_total (env : Env) (s : St) (request : Request)
    (hopen : env.openOk = true) (hmatch : env.matchOk = true) :
    ∃ r, (handleStaticRequest request env s).1 = Except.ok r := by
  cases hc : s.matchIn STATIC_CACHE_NAME request with
  | some cached =>
    simp [handleStaticRequest, attempt, bind, cachesOpen, hopen, cacheMatch, hmatch, St.emit,
      matchIn_openCache, hc, pure]
  | none =>
    cases hn : env.net s.tick request with
    | some r =>
      cases hput : (r.ok && isStaticFile request.url.href) with
      | false =>
        simp [handleStaticRequest, attempt, bind, cachesOpen, hopen, cacheMatch, hmatch,
          St.emit, matchIn_openCache, hc, fetch, hn, hput, pure]
      | true =>
        have hok : r.ok = true := by simp only [Bool.and_eq_true] at hput; exact hput.1
        have hst : isStaticFile request.url.href = true := by
          simp only [Bool.and_eq_true] at hput; exact hput.2
        simp [handleStaticRequest, attempt, bind, cachesOpen, hopen, cacheMatch, hmatch,
          St.emit, matchIn_openCache, hc, fetch, hn, hok, hst, detached, pure]
    | none =>
      by_cases hnav : request.mode = "navigate"
      · cases hroot : s.matchIn STATIC_CACHE_NAME (rootRequest env) <;>
          simp [handleStaticRequest, attempt, bind, cachesOpen, hopen, cacheMatch, hmatch,
            St.emit, matchIn_openCache, matchIn_openCache_twice, hc, fetch, hn, hnav, getEnv,
            hroot, pure]
      · simp [handleStaticRequest, attempt, bind, cachesOpen, hopen, cacheMatch, hmatch,
          St.emit, matchIn_openCache, hc, fetch, hn, hnav, pure]

/-- With a cache backend that opens and matches, for every request, every content of the
caches and every outcome of the network the fetch handler settles with a response, never
with a fault; and when the cache of the handler has no entry for the request and the network
fetch fails, the response is a synthesized 503 JSON error for an API path, and for another
path the root entry of the Static cache (navigation, entry present) or the offline HTML
document. -/
theorem fetch_handler_total (env : Env) (s : St) (request : Request)
    (hopen : env.openOk = true) (hmatch : env.matchOk = true) :
    (∃ r, (handleApiRequest request env s).1 = Except.ok r)
    ∧ (∃ r, (handleStaticRequest request env s).1 = Except.ok r)
    ∧ (∃ r, (onFetch request env s).1 = Except.ok r)
    ∧ (env.net s.tick request = none →
        s.matchIn (handlerCache request) request = none →
        (onFetch request env s).1
          = Except.ok (if startsWith request.url.pathname "/api/" = true then
              (if (shouldCacheFirst request && request.method == "GET") = true
                then offlineDataResponse else networkUnavailableResponse)
            else if request.mode = "navigate" then
              (s.matchIn STATIC_CACHE_NAME (rootRequest env)).getD offlinePage
            else offlinePage)) := by
  refine ⟨handleApiRequest_total env s request hopen hmatch,
    handleStaticRequest_total env s request hopen hmatch, ?_, ?_⟩
  · cases hapi : startsWith request.url.pathname "/api/" with
    | true =>
      simpa [onFetch, hapi] using handleApiRequest_total env s request hopen hmatch
    | false =>
      simpa [onFetch, hapi] using handleStaticRequest_total env s request hopen hmatch
  · intro hn hmiss
    cases hapi : startsWith request.url.pathname "/api/" with
    | true =>
      have hc : s.matchIn DYNAMIC_CACHE_NAME request = none := by
        simpa [handlerCache, hapi] using hmiss
      cases hcf : (shouldCacheFirst request && request.method == "GET") <;>
        simp [onFetch, hapi, handleApiRequest, hcf, attempt, bind, cachesOpen, hopen,
          cacheMatch, hmatch, St.emit, matchIn_openCache, hc, fetch, hn, pure]
    | false =>
      have hc : s.matchIn STATIC_CACHE_NAME request = none := by
        simpa [handlerCache, hapi] using hmiss
      by_cases hnav : request.mode = "navigate"
      · cases hroot : s.matchIn STATIC_CACHE_NAME (rootRequest env) <;>
          simp [onFetch, hapi, handleStaticRequest, attempt, bind, cachesOpen, hopen,
            cacheMatch, hmatch, St.emit, matchIn_openCache, matchIn_openCache_twice, hc, fetch,
            hn, hnav, getEnv, hroot, pure]
      · simp [onFetch, hapi, handleStaticRequest, attempt, bind, cachesOpen, hopen,
          cacheMatch, hmatch, St.emit, matchIn_openCache, hc, fetch, hn, hnav, pure]

/-- With the network down and nothing cached, an API request gets a 503 JSON error and a
page navigation gets the offline document. -/
theorem fetch_handler_total_witness :
    (onFetch (sampleGet "/api/leaderboard") (sampleEnv none) St.init).1
      = Except.ok networkUnavailableResponse
    ∧ (onFetch (sampleNavigate "/surah/2") (sampleEnv none) St.init).1
      = Except.ok offlinePage :=
  ⟨(fetch_handler_total (sampleEnv none) St.init (sampleGet "/api/leaderboard")
      rfl rfl).2.2.2 rfl rfl,
   (fetch_handler_total (sampleEnv none) St.init (sampleNavigate "/surah/2")
      rfl rfl).2.2.2 rfl rfl⟩

/-! ## A cache backend that fails -/

/-- Claim C17, where the code breaks it: the `catch` blocks of both handlers await
`caches.open` outside any `try`, so a rejection of `caches.open` leaves the promise of the
handler rejected, with no response.  With `caches.open` rejecting: a GET of the user
profile that the network answers with status 200 ends in a fault, after the fetch and two
attempts to open the Dynamic cache; so does the same request with the network down; and so
does a navigation, after two attempts to open the Static cache and no fetch.  With
`cache.match` rejecting and the network down, the profile request ends in a fault as well.
The cache-first branch, whose storage calls are inside its `try`, answers the chapter list
with the synthesized 503 under the same failure. -/
theorem fetch_handler_rejects_when_storage_fails :
    ((sampleEnvNoStorage (some (sampleResponse 200 "me"))).net 0 (sampleGet "/api/user/profile")
        = some (sampleResponse 200 "me")
      ∧ (onFetch (sampleGet "/api/user/profile")
          (sampleEnvNoStorage (some (sampleResponse 200 "me"))) St.init).1
        = Except.error Fault.storageError
      ∧ (onFetch (sampleGet "/api/user/profile")
          (sampleEnvNoStorage (some (sampleResponse 200 "me"))) St.init).2.trace
        = [Event.fetch (sampleGet "/api/user/profile"), Event.cachesOpen DYNAMIC_CACHE_NAME,
           Event.cachesOpen DYNAMIC_CACHE_NAME])
    ∧ (onFetch (sampleGet "/api/user/profile") (sampleEnvNoStorage none) St.init).1
        = Except.error Fault.storageError
    ∧ ((onFetch (sampleNavigate "/surah/2")
          (sampleEnvNoStorage (some (sampleResponse 200 "page"))) St.init).1
        = Except.error Fault.storageError
      ∧ (onFetch (sampleNavigate "/surah/2")
          (sampleEnvNoStorage (some (sampleResponse 200 "page"))) St.init).2.trace
        = [Event.cachesOpen STATIC_CACHE_NAME, Event.cachesOpen STATIC_CACHE_NAME])
    ∧ (onFetch (sampleGet "/api/user/profile") (sampleEnvNoMatch none) St.init).1
        = Except.error Fault.storageError
    ∧ (onFetch (sampleGet "/api/quran/chapters")
          (sampleEnvNoStorage (some (sampleResponse 200 "[1]"))) St.init).1
        = Except.ok offlineDataResponse :=
  ⟨⟨rfl, rfl, rfl⟩, rfl, ⟨rfl, rfl⟩, rfl, rfl⟩

/-- Claim C18, as amended: when `caches.open` or `cache.match` rejects, the handlers do not
go on as after a cache miss.  A cache-first API request is answered with the synthesized 503
`Offline - data not available` and a static request that is not a navigation with the
offline page, both without any network fetch, whatever the network would answer.  A
network-first API request is fetched first, and the answer of the network is returned when
the handler does not go on to cache it (the request is not GET or the response not ok). -/
theorem storage_failure_not_a_cache_miss (env : Env) (s : St) (request : Request)
    (hdown : env.openOk = false ∨ env.matchOk = false) :
    ((shouldCacheFirst request && request.method == "GET") = true →
        (handleApiRequest request env s).1 = Except.ok offlineDataResponse
        ∧ fetchesOf (newEvents s (handleApiRequest request env s).2) = [])
    ∧ (request.mode ≠ "navigate" →
        (handleStaticRequest request env s).1 = Except.ok offlinePage
        ∧ fetchesOf (newEvents s (handleStaticRequest request env s).2) = [])
    ∧ (∀ r, (shouldCacheFirst request && request.method == "GET") = false →
        env.net s.tick request = some r →
        (r.ok && request.method == "GET") = false →
        (handleApiRequest request env s).1 = Except.ok r) := by
  refine ⟨?_, ?_, ?_⟩
  · intro hcf
    cases ho : env.openOk with
    | false =>
      simp [handleApiRequest, hcf, attempt, bind, cachesOpen, ho, St.emit, pure, newEvents,
        fetchesOf]
    | true =>
      have hma : env.matchOk = false := by
        rcases hdown with h | h
        · rw [ho] at h; exact absurd h (by decide)
        · exact h
      simp [handleApiRequest, hcf, attempt, bind, cachesOpen, ho, cacheMatch, hma, St.emit,
        pure, newEvents, fetchesOf]
  · intro hnav
    cases ho : env.openOk with
    | false =>
      simp [handleStaticRequest, attempt, bind, cachesOpen, ho, St.emit, hnav, pure, newEvents,
        fetchesOf]
    | true =>
      have hma : env.matchOk = false := by
        rcases hdown with h | h
        · rw [ho] at h; exact absurd h (by decide)
        · exact h
      simp [handleStaticRequest, attempt, bind, cachesOpen, ho, cacheMatch, hma, St.emit, hnav,
        pure, newEvents, fetchesOf]
  · intro r hcf hn hput
    simp [handleApiRequest, hcf, attempt, bind, fetch, hn, hput, pure]

/-- The amended claim C18 at sample inputs: the storage backend cannot open a cache and the
network would answer 200. -/
theorem storage_failure_not_a_cache_miss_witness :
    ((handleApiRequest (sampleGet "/api/quran/chapters")
          (sampleEnvNoStorage (some (sampleResponse 200 "[1]"))) St.init).1
        = Except.ok offlineDataResponse
      ∧ fetchesOf (newEvents St.init (handleApiRequest (sampleGet "/api/quran/chapters")
          (sampleEnvNoStorage (some (sampleResponse 200 "[1]"))) St.init).2) = [])
    ∧ ((handleStaticRequest (sampleGet "/static/js/app.js")
          (sampleEnvNoStorage (some (sampleResponse 200 "js"))) St.init).1
        = Except.ok offlinePage
      ∧ fetchesOf (newEvents St.init (handleStaticRequest (sampleGet "/static/js/app.js")
          (sampleEnvNoStorage (some (sampleResponse 200 "js"))) St.init).2) = [])
    ∧ (handleApiRequest (samplePost "/api/learning/session" "b")
          (sampleEnvNoStorage (some (sampleResponse 201 "saved"))) St.init).1
        = Except.ok (sampleResponse 201 "saved") :=
  ⟨(storage_failure_not_a_cache_miss (sampleEnvNoStorage (some (sampleResponse 200 "[1]")))
      St.init (sampleGet "/api/quran/chapters") (Or.inl rfl)).1 rfl,
   (storage_failure_not_a_cache_miss (sampleEnvNoStorage (some (sampleResponse 200 "js")))
      St.init (sampleGet "/static/js/app.js") (Or.inl rfl)).2.1 (by decide),
   (storage_failure_not_a_cache_miss (sampleEnvNoStorage (some (sampleResponse 201 "saved")))
      St.init (samplePost "/api/learning/session" "b") (Or.inl rfl)).2.2 _ rfl rfl rfl⟩

/-- Claim C18 fails as stated: with a storage backend that cannot open a cache and a network
that answers 200, the chapter list gets the synthesized 503 and no fetch is issued; the same
happens when only `cache.match` rejects; and the profile, fetched network-first, ends in a
fault, because the handler opens the Dynamic cache to store the answer and again in its
`catch` block. -/
theorem storage_failure_surfaces_503_or_fault :
    ((sampleEnvNoStorage (some (sampleResponse 200 "[1]"))).net 0
          (sampleGet "/api/quran/chapters") = some (sampleResponse 200 "[1]")
      ∧ (onFetch (sampleGet "/api/quran/chapters")
          (sampleEnvNoStorage (some (sampleResponse 200 "[1]"))) St.init).1
        = Except.ok offlineDataResponse
      ∧ offlineDataResponse.status = 503
      ∧ fetchesOf (newEvents St.init (onFetch (sampleGet "/api/quran/chapters")
          (sampleEnvNoStorage (some (sampleResponse 200 "[1]"))) St.init).2) = [])
    ∧ ((onFetch (sampleGet "/api/quran/chapters")
          (sampleEnvNoMatch (some (sampleResponse 200 "[1]"))) St.init).1
        = Except.ok offlineDataResponse)
    ∧ ((onFetch (sampleGet "/api/user/profile")
          (sampleEnvNoStorage (some (sampleResponse 200 "me"))) St.init).1
        = Except.error Fault.storageError) :=
  ⟨⟨rfl, rfl, rfl, rfl⟩, rfl, rfl⟩

/-! ## Classification -/

/-- A list that starts with `p ++ q` starts with `p`. -/
theorem listStartsWith_of_append (s p q : List Char) (h : listStartsWith s (p ++ q) = true) :
    listStartsWith s p = true := by
  induction p generalizing s with
  | nil => cases s <;> rfl
  | cons c p ih =>
    cases s with
    | nil => simp [listStartsWith] at h
    | cons d s =>
      simp only [List.cons_append, listStartsWith, Bool.and_eq_true] at h ⊢
      exact ⟨h.1, ih s h.2⟩

/-- A path on the cache-first list is under the API root. -/
theorem api_of_shouldCacheFirst (request : Request) (h : shouldCacheFirst request = true) :
    startsWith request.url.pathname "/api/" = true := by
  simp only [shouldCacheFirst, cacheFirstEndpoints, List.any_cons, List.any_nil, Bool.or_false,
    Bool.or_eq_true, startsWith] at h
  rcases h with h | h | h | h
  · exact listStartsWith_of_append _ "/api/".data "quran/chapters".data h
  · exact listStartsWith_of_append _ "/api/".data "quran/reciters".data h
  · exact listStartsWith_of_append _ "/api/".data "quran/chapter/".data h
  · exact listStartsWith_of_append _ "/api/".data "quran/verse/".data h

/-- The two blocks of `handleApiRequest`. -/
theorem handleApiRequest_blocks (request : Request) :
    handleApiRequest request
      = if (shouldCacheFirst request && request.method == "GET") = true
        then apiCacheFirst request else apiNetworkFirst request := rfl

/-- The trace after a `cache.put`, stored or rejected. -/
theorem cachePut_trace (c : String) (q : Request) (r : Response) (env : Env) (s : St) :
    (cachePut c q r env s).2.trace = s.trace ++ [Event.cachePut c q r] := by
  unfold cachePut
  split <;> rfl

/-- The only cache `handleApiRequest` opens is the Dynamic cache. -/
theorem handleApiRequest_opens (env : Env) (s : St) (request : Request) :
    ∀ n ∈ opensOf (newEvents s (handleApiRequest request env s).2),
      n = DYNAMIC_CACHE_NAME := by
  cases hcf : (shouldCacheFirst request && request.method == "GET") with
  | true =>
    cases ho : env.openOk with
    | false =>
      simp [handleApiRequest, hcf, attempt, bind, cachesOpen, ho, St.emit, pure, newEvents,
        opensOf]
    | true =>
      cases hma : env.matchOk with
      | false =>
        simp [handleApiRequest, hcf, attempt, bind, cachesOpen, ho, cacheMatch, hma, St.emit,
          pure, newEvents, opensOf]
      | true =>
        cases hc : s.matchIn DYNAMIC_CACHE_NAME request with
        | some cached =>
          cases hn : env.net s.tick request with
          | none =>
            simp [handleApiRequest, hcf, attempt, bind, cachesOpen, ho, cacheMatch, hma,
              St.emit, matchIn_openCache, hc, detached, fetch, hn, pure, newEvents, opensOf]
          | some r =>
            cases hok : r.ok <;>
              simp [handleApiRequest, hcf, attempt, bind, cachesOpen, ho, cacheMatch, hma,
                St.emit, matchIn_openCache, hc, detached, fetch, hn, hok, pure, newEvents,
                opensOf, cachePut_trace]
        | none =>
          cases hn : env.net s.tick request with
          | none =>
            simp [handleApiRequest, hcf, attempt, bind, cachesOpen, ho, cacheMatch, hma,
              St.emit, matchIn_openCache, hc, fetch, hn, pure, newEvents, opensOf]
          | some r =>
            cases hok : r.ok <;>
              simp [handleApiRequest, hcf, attempt, bind, cachesOpen, ho, cacheMatch, hma,
                St.emit, matchIn_openCache, hc, detached, fetch, hn, hok, pure, newEvents,
                opensOf, cachePut_trace]
  | false =>
    cases hn : env.net s.tick request with
    | none =>
      cases ho : env.openOk with
      | false =>
        simp [handleApiRequest, hcf, attempt, bind, fetch, hn, cachesOpen, ho, St.emit, pure,
          newEvents, opensOf]
      | true =>
        cases hma : env.matchOk with
        | false =>
          simp [handleApiRequest, hcf, attempt, bind, fetch, hn, cachesOpen, ho, cacheMatch,
            hma, St.emit, pure, newEvents, opensOf]
        | true =>
          cases hc : s.matchIn DYNAMIC_CACHE_NAME request <;>
            simp [handleApiRequest, hcf, attempt, bind, fetch, hn, cachesOpen, ho, cacheMatch,
              hma, St.emit, matchIn_openCache, hc, pure, newEvents, opensOf]
    | some r =>
      cases hput : (r.ok && request.method == "GET") with
      | false =>
        simp [handleApiRequest, hcf, attempt, bind, fetch, hn, hput, St.emit, pure, newEvents,
          opensOf]
      | true =>
        have hok : r.ok = true := by simp only [Bool.and_eq_true] at hput; exact hput.1
        have hget : request.method = "GET" := by
          simp only [Bool.and_eq_true, beq_iff_eq] at hput; exact hput.2
        have hscf : shouldCacheFirst request = false := by simpa [hget] using hcf
        cases ho : env.openOk with
        | false =>
          simp [handleApiRequest, hscf, attempt, bind, fetch, hn, hok, hget, cachesOpen, ho,
            St.emit, pure, newEvents, opensOf]
        | true =>
          simp [handleApiRequest, hscf, attempt, bind, fetch, hn, hok, hget, cachesOpen, ho,
            St.emit, detached, pure, newEvents, opensOf, cachePut_trace]

/-- The only cache `handleStaticRequest` opens is the Static cache. -/
theorem handleStaticRequest_opens (env : Env) (s : St) (request : Request) :
    ∀ n ∈ opensOf (newEvents s (handleStaticRequest request env s).2),
      n = STATIC_CACHE_NAME := by
  by_cases hnav : request.mode = "navigate"
  · cases ho : env.openOk with
    | false =>
      simp [handleStaticRequest, attempt, bind, cachesOpen, ho, St.emit, hnav, getEnv, pure,
        newEvents, opensOf]
    | true =>
      cases hma : env.matchOk with
      | false =>
        simp [handleStaticRequest, attempt, bind, cachesOpen, ho, cacheMatch, hma, St.emit,
          hnav, getEnv, pure, newEvents, opensOf]
      | true =>
        cases hc : s.matchIn STATIC_CACHE_NAME request with
        | some cached =>
          simp [handleStaticRequest, attempt, bind, cachesOpen, ho, cacheMatch, hma, St.emit,
            matchIn_openCache, hc, pure, newEvents, opensOf]
        | none =>
          cases hn : env.net s.tick request with
          | none =>
            cases hroot : s.matchIn STATIC_CACHE_NAME (rootRequest env) <;>
              simp [handleStaticRequest, attempt, bind, cachesOpen, ho, cacheMatch, hma,
                St.emit, matchIn_openCache, matchIn_openCache_twice, hc, fetch, hn, hnav,
                getEnv, hroot, pure, newEvents, opensOf]
          | some r =>
            cases hok : r.ok <;> cases hst : isStaticFile request.url.href <;>
              simp [handleStaticRequest, attempt, bind, cachesOpen, ho, cacheMatch, hma,
                St.emit, matchIn_openCache, hc, fetch, hn, hok, hst, detached, pure,
                newEvents, opensOf, cachePut_trace]
  · cases ho : env.openOk with
    | false =>
      simp [handleStaticRequest, attempt, bind, cachesOpen, ho, St.emit, hnav, pure,
        newEvents, opensOf]
    | true =>
      cases hma : env.matchOk with
      | false =>
        simp [handleStaticRequest, attempt, bind, cachesOpen, ho, cacheMatch, hma, St.emit,
          hnav, pure, newEvents, opensOf]
      | true =>
        cases hc : s.matchIn STATIC_CACHE_NAME request with
        | some cached =>
          simp [handleStaticRequest, attempt, bind, cachesOpen, ho, cacheMatch, hma, St.emit,
            matchIn_openCache, hc, pure, newEvents, opensOf]
        | none =>
          cases hn : env.net s.tick request with
          | none =>
            simp [handleStaticRequest, attempt, bind, cachesOpen, ho, cacheMatch, hma,
              St.emit, matchIn_openCache, hc, fetch, hn, hnav, pure, newEvents, opensOf]
          | some r =>
            cases hok : r.ok <;> cases hst : isStaticFile request.url.href <;>
              simp [handleStaticRequest, attempt, bind, cachesOpen, ho, cacheMatch, hma,
                St.emit, matchIn_openCache, hc, fetch, hn, hok, hst, detached, pure,
                newEvents, opensOf, cachePut_trace]

/-- Claim C19: the classification is a function of the method and the URL path alone, and
the fetch listener handles every request by the policy it names: a GET request on one of the
four cache-first paths by the cache-first block of `handleApiRequest`, any other request
under `/api/` by its network-first block, both on the Dynamic cache, and every remaining
request by `handleStaticRequest`, on the Static cache: the only cache a run opens is the
Dynamic cache under the first two policies and the Static cache under the third. -/
theorem fetch_follows_classification (request : Request) :
    (onFetch request
      = match classify request with
        | Policy.cacheFirstDynamic => apiCacheFirst request
        | Policy.networkFirstDynamic => apiNetworkFirst request
        | Policy.staticCache => handleStaticRequest request)
    ∧ (∀ other : Request, other.method = request.method →
        other.url.pathname = request.url.pathname → classify other = classify request)
    ∧ (classify request = Policy.cacheFirstDynamic
        ↔ request.method = "GET" ∧ ∃ endpoint ∈ cacheFirstEndpoints,
            startsWith request.url.pathname endpoint = true)
    ∧ (classify request = Policy.networkFirstDynamic
        ↔ ¬ (request.method = "GET" ∧ ∃ endpoint ∈ cacheFirstEndpoints,
            startsWith request.url.pathname endpoint = true)
          ∧ startsWith request.url.pathname "/api/" = true)
    ∧ (classify request = Policy.staticCache
        ↔ startsWith request.url.pathname "/api/" = false)
    ∧ (∀ env s, ∀ n ∈ opensOf (newEvents s (onFetch request env s).2),
        n = if classify request = Policy.staticCache then STATIC_CACHE_NAME
            else DYNAMIC_CACHE_NAME) := by
  have hcond : (request.method == "GET"
        && cacheFirstEndpoints.any (fun endpoint => startsWith request.url.pathname endpoint))
        = true
      ↔ request.method = "GET" ∧ ∃ endpoint ∈ cacheFirstEndpoints,
          startsWith request.url.pathname endpoint = true := by
    simp only [Bool.and_eq_true, beq_iff_eq, List.any_eq_true]
  have hstatic : classify request = Policy.staticCache
      ↔ startsWith request.url.pathname "/api/" = false := by
    cases hc : (request.method == "GET"
        && cacheFirstEndpoints.any (fun endpoint => startsWith request.url.pathname endpoint))
    · cases hapi : startsWith request.url.pathname "/api/" <;> simp [classify, hc, hapi]
    · have hcf : shouldCacheFirst request = true := by
        simp only [Bool.and_eq_true] at hc
        exact hc.2
      have hapi := api_of_shouldCacheFirst request hcf
      simp [classify, hc, hapi]
  refine ⟨?_, ?_, ?_, ?_, hstatic, ?_⟩
  · rw [onFetch, handleApiRequest_blocks]
    cases hcf : shouldCacheFirst request with
    | true =>
      have hapi := api_of_shouldCacheFirst request hcf
      have hany : cacheFirstEndpoints.any
          (fun endpoint => startsWith request.url.pathname endpoint) = true := hcf
      cases hget : (request.method == "GET") <;> simp [classify, hany, hget, hapi]
    | false =>
      have hany : cacheFirstEndpoints.any
          (fun endpoint => startsWith request.url.pathname endpoint) = false := hcf
      cases hapi : startsWith request.url.pathname "/api/" <;> simp [classify, hany, hapi]
  · intro other hm hp
    simp only [classify, hm, hp]
  · rw [← hcond]
    cases hc : (request.method == "GET"
        && cacheFirstEndpoints.any (fun endpoint => startsWith request.url.pathname endpoint))
    · cases hapi : startsWith request.url.pathname "/api/" <;> simp [classify, hc, hapi]
    · simp [classify, hc]
  · rw [← hcond]
    cases hc : (request.method == "GET"
        && cacheFirstEndpoints.any (fun endpoint => startsWith request.url.pathname endpoint))
    · cases hapi : startsWith request.url.pathname "/api/" <;> simp [classify, hc, hapi]
    · simp [classify, hc]
  · intro env s n hn
    cases hapi : startsWith request.url.pathname "/api/" with
    | true =>
      have hns : ¬ classify request = Policy.staticCache := by
        rw [hstatic, hapi]; decide
      rw [if_neg hns]
      simp only [onFetch, hapi, if_true] at hn
      exact handleApiRequest_opens env s request n hn
    | false =>
      rw [if_pos (hstatic.mpr hapi)]
      simp only [onFetch, hapi, Bool.false_eq_true, if_false] at hn
      exact handleStaticRequest_opens env s request n hn

/-- Claim C19 at sample inputs: the chapter list is cache-first, a POST to the same path and
the profile are network-first, a page is static. -/
theorem fetch_follows_classification_witness :
    classify (sampleGet "/api/quran/chapters") = Policy.cacheFirstDynamic
    ∧ classify (samplePost "/api/quran/chapters" "b") = Policy.networkFirstDynamic
    ∧ classify (sampleGet "/api/user/profile") = Policy.networkFirstDynamic
    ∧ classify (sampleGet "/about") = Policy.staticCache
    ∧ classify (sampleNavigate "/api/quran/chapters") = classify (sampleGet "/api/quran/chapters")
    ∧ onFetch (sampleGet "/about") = handleStaticRequest (sampleGet "/about") :=
  ⟨by decide, by decide, by decide, by decide,
   (fetch_follows_classification (sampleGet "/api/quran/chapters")).2.1
      (sampleNavigate "/api/quran/chapters") rfl rfl,
   (fetch_follows_classification (sampleGet "/about")).1⟩

/-! ## Static files -/

/-- The test `listStartsWith` holds exactly of the lists that begin with the pattern. -/
theorem listStartsWith_iff (l p : List Char) :
    listStartsWith l p = true ↔ ∃ b, l = p ++ b := by
  induction p generalizing l with
  | nil => cases l <;> simp [listStartsWith]
  | cons c p ih =>
    cases l with
    | nil => simp [listStartsWith]
    | cons d l =>
      simp only [listStartsWith, Bool.and_eq_true, beq_iff_eq, ih, List.cons_append,
        List.cons.injEq]
      constructor
      · rintro ⟨rfl, b, rfl⟩
        exact ⟨b, rfl, rfl⟩
      · rintro ⟨b, rfl, rfl⟩
        exact ⟨rfl, b, rfl⟩

/-- The test `listIncludes` holds exactly of the lists that contain the pattern. -/
theorem listIncludes_iff (l p : List Char) :
    listIncludes l p = true ↔ ∃ a b, l = a ++ p ++ b := by
  induction l with
  | nil =>
    simp only [listIncludes, List.isEmpty_eq_true]
    constructor
    · rintro rfl
      exact ⟨[], [], rfl⟩
    · rintro ⟨a, b, h⟩
      have h2 := congrArg List.length h
      simp only [List.length_nil, List.length_append] at h2
      exact List.eq_nil_of_length_eq_zero (by omega)
  | cons d l ih =>
    simp only [listIncludes, Bool.or_eq_true, listStartsWith_iff, ih]
    constructor
    · rintro (⟨b, h⟩ | ⟨a, b, h⟩)
      · exact ⟨[], b, by simpa using h⟩
      · exact ⟨d :: a, b, by simp [h]⟩
    · rintro ⟨a, b, h⟩
      cases a with
      | nil => exact Or.inl ⟨b, by simpa using h⟩
      | cons e a =>
        simp only [List.cons_append, List.cons.injEq] at h
        exact Or.inr ⟨a, b, h.2⟩

/-- Claim C20, as amended: `isStaticFile(url)` is true exactly when the URL string contains
one of the eleven extensions somewhere, not only as the end of its path; in particular it is
true of every URL that ends with one of them. -/
theorem isStaticFile_iff_contains (url : String) :
    (isStaticFile url = true
      ↔ ∃ ext ∈ staticExtensions, ∃ a b : List Char, url.data = a ++ ext.data ++ b)
    ∧ (∀ ext ∈ staticExtensions, ∀ a : List Char, url.data = a ++ ext.data →
        isStaticFile url = true) := by
  have hiff : isStaticFile url = true
      ↔ ∃ ext ∈ staticExtensions, ∃ a b : List Char, url.data = a ++ ext.data ++ b := by
    simp only [isStaticFile, List.any_eq_true, includes, listIncludes_iff]
  refine ⟨hiff, ?_⟩
  intro ext hext a ha
  exact hiff.mpr ⟨ext, hext, a, [], by simpa using ha⟩

/-- The amended claim C20 at a sample input: the bundle of the manifest ends in `.js`. -/
theorem isStaticFile_iff_contains_witness :
    isStaticFile "https://quran.example/static/js/bundle.js" = true :=
  (isStaticFile_iff_contains "https://quran.example/static/js/bundle.js").2 ".js"
    (by decide) "https://quran.example/static/js/bundle".data rfl

/-- Claim C20 fails as stated: a URL ending in `.json`, which is not in the list, a URL with
`.js` in its host only and a URL with `.css` in its query only are all static files for
`isStaticFile`. -/
theorem isStaticFile_accepts_json_host_and_query :
    ".json" ∉ staticExtensions
    ∧ isStaticFile "https://quran.example/manifest.json" = true
    ∧ isStaticFile "https://api.jsonbin.io/data" = true
    ∧ isStaticFile "https://quran.example/search?next=main.css" = true
    ∧ isStaticFile "https://quran.example/api/quran/chapters" = false :=
  ⟨by decide, by decide, by decide, by decide, by decide⟩

/-! ## Cache hits -/

/-- Claim C21, as amended: for a GET request for which the Static cache holds an entry `e`,
`handleStaticRequest` returns `e` and issues no network fetch: the static handler has no
background revalidation, the number of fetches and the content of every cache are as
before. -/
theorem static_hit_returns_entry_without_fetch (env : Env) (s : St) (request : Request)
    (e : Response)
    (hopen : env.openOk = true) (hmatch : env.matchOk = true)
    (hhit : s.matchIn STATIC_CACHE_NAME request = some e) :
    (handleStaticRequest request env s).1 = Except.ok e
    ∧ fetchesOf (newEvents s (handleStaticRequest request env s).2) = []
    ∧ (handleStaticRequest request env s).2.tick = s.tick
    ∧ ∀ name q, (handleStaticRequest request env s).2.matchIn name q = s.matchIn name q := by
  simp [handleStaticRequest, attempt, bind, cachesOpen, hopen, cacheMatch, hmatch, St.emit,
    matchIn_openCache, hhit, pure, newEvents, fetchesOf]

/-- The amended claim C21 at a sample input: the cached bundle is returned while the network
would answer with a newer one, and no fetch is issued. -/
theorem static_hit_returns_entry_without_fetch_witness :
    (handleStaticRequest (sampleGet "/static/js/bundle.js")
        (sampleEnv (some (sampleResponse 200 "newer"))) sampleStaticState).1
      = Except.ok (sampleResponse 200 "bundle")
    ∧ fetchesOf (newEvents sampleStaticState (handleStaticRequest
        (sampleGet "/static/js/bundle.js") (sampleEnv (some (sampleResponse 200 "newer")))
        sampleStaticState).2) = [] :=
  have h := static_hit_returns_entry_without_fetch
    (sampleEnv (some (sampleResponse 200 "newer"))) sampleStaticState
    (sampleGet "/static/js/bundle.js") (sampleResponse 200 "bundle") rfl rfl rfl
  ⟨h.1, h.2.1⟩

/-- Claim C21 fails as stated: the bundle is in the Static cache and the network is
reachable; the handler returns the entry after opening the cache and looking the request
up, and these two are all the platform calls of the run: no fetch is attempted. -/
theorem static_hit_issues_no_fetch :
    (sampleGet "/static/js/bundle.js").method = "GET"
    ∧ sampleStaticState.matchIn STATIC_CACHE_NAME (sampleGet "/static/js/bundle.js")
        = some (sampleResponse 200 "bundle")
    ∧ (onFetch (sampleGet "/static/js/bundle.js")
        (sampleEnv (some (sampleResponse 200 "newer"))) sampleStaticState).1
      = Except.ok (sampleResponse 200 "bundle")
    ∧ (onFetch (sampleGet "/static/js/bundle.js")
        (sampleEnv (some (sampleResponse 200 "newer"))) sampleStaticState).2.trace
      = [Event.cachesOpen STATIC_CACHE_NAME,
         Event.cacheMatch STATIC_CACHE_NAME (sampleGet "/static/js/bundle.js")]
    ∧ (onFetch (sampleGet "/static/js/bundle.js")
        (sampleEnv (some (sampleResponse 200 "newer"))) sampleStaticState).2.tick = 0 :=
  ⟨rfl, rfl, rfl, rfl, rfl⟩

/-! ## The caches a handler touches -/

/-- The only cache `handleApiRequest` opens, reads or writes is the Dynamic cache, and it
deletes none. -/
theorem handleApiRequest_accesses (env : Env) (s : St) (request : Request) :
    (∀ n ∈ accessedOf (newEvents s (handleApiRequest request env s).2),
      n = DYNAMIC_CACHE_NAME)
    ∧ deletionsOf (newEvents s (handleApiRequest request env s).2) = [] := by
  cases hcf : (shouldCacheFirst request && request.method == "GET") with
  | true =>
    cases ho : env.openOk with
    | false =>
      simp [handleApiRequest, hcf, attempt, bind, cachesOpen, ho, St.emit, pure, newEvents,
        accessedOf, deletionsOf]
    | true =>
      cases hma : env.matchOk with
      | false =>
        simp [handleApiRequest, hcf, attempt, bind, cachesOpen, ho, cacheMatch, hma, St.emit,
          pure, newEvents, accessedOf, deletionsOf]
      | true =>
        cases hc : s.matchIn DYNAMIC_CACHE_NAME request with
        | some cached =>
          cases hn : env.net s.tick request with
          | none =>
            simp [handleApiRequest, hcf, attempt, bind, cachesOpen, ho, cacheMatch, hma,
              St.emit, matchIn_openCache, hc, detached, fetch, hn, pure, newEvents, accessedOf, deletionsOf]
          | some r =>
            cases hok : r.ok <;>
              simp [handleApiRequest, hcf, attempt, bind, cachesOpen, ho, cacheMatch, hma,
                St.emit, matchIn_openCache, hc, detached, fetch, hn, hok, pure, newEvents,
                accessedOf, deletionsOf, cachePut_trace]
        | none =>
          cases hn : env.net s.tick request with
          | none =>
            simp [handleApiRequest, hcf, attempt, bind, cachesOpen, ho, cacheMatch, hma,
              St.emit, matchIn_openCache, hc, fetch, hn, pure, newEvents, accessedOf, deletionsOf]
          | some r =>
            cases hok : r.ok <;>
              simp [handleApiRequest, hcf, attempt, bind, cachesOpen, ho, cacheMatch, hma,
                St.emit, matchIn_openCache, hc, detached, fetch, hn, hok, pure, newEvents,
                accessedOf, deletionsOf, cachePut_trace]
  | false =>
    cases hn : env.net s.tick request with
    | none =>
      cases ho : env.openOk with
      | false =>
        simp [handleApiRequest, hcf, attempt, bind, fetch, hn, cachesOpen, ho, St.emit, pure,
          newEvents, accessedOf, deletionsOf]
      | true =>
        cases hma : env.matchOk with
        | false =>
          simp [handleApiRequest, hcf, attempt, bind, fetch, hn, cachesOpen, ho, cacheMatch,
            hma, St.emit, pure, newEvents, accessedOf, deletionsOf]
        | true =>
          cases hc : s.matchIn DYNAMIC_CACHE_NAME request <;>
            simp [handleApiRequest, hcf, attempt, bind, fetch, hn, cachesOpen, ho, cacheMatch,
              hma, St.emit, matchIn_openCache, hc, pure, newEvents, accessedOf, deletionsOf]
    | some r =>
      cases hput : (r.ok && request.method == "GET") with
      | false =>
        simp [handleApiRequest, hcf, attempt, bind, fetch, hn, hput, St.emit, pure, newEvents,
          accessedOf, deletionsOf]
      | true =>
        have hok : r.ok = true := by simp only [Bool.and_eq_true] at hput; exact hput.1
        have hget : request.method = "GET" := by
          simp only [Bool.and_eq_true, beq_iff_eq] at hput; exact hput.2
        have hscf : shouldCacheFirst request = false := by simpa [hget] using hcf
        cases ho : env.openOk with
        | false =>
          simp [handleApiRequest, hscf, attempt, bind, fetch, hn, hok, hget, cachesOpen, ho,
            St.emit, pure, newEvents, accessedOf, deletionsOf]
        | true =>
          simp [handleApiRequest, hscf, attempt, bind, fetch, hn, hok, hget, cachesOpen, ho,
            St.emit, detached, pure, newEvents, accessedOf, deletionsOf, cachePut_trace]

/-- The only cache `handleStaticRequest` opens, reads or writes is the Static cache, and it
deletes none. -/
theorem handleStaticRequest_accesses (env : Env) (s : St) (request : Request) :
    (∀ n ∈ accessedOf (newEvents s (handleStaticRequest request env s).2),
      n = STATIC_CACHE_NAME)
    ∧ deletionsOf (newEvents s (handleStaticRequest request env s).2) = [] := by
  by_cases hnav : request.mode = "navigate"
  · cases ho : env.openOk with
    | false =>
      simp [handleStaticRequest, attempt, bind, cachesOpen, ho, St.emit, hnav, getEnv, pure,
        newEvents, accessedOf, deletionsOf]
    | true =>
      cases hma : env.matchOk with
      | false =>
        simp [handleStaticRequest, attempt, bind, cachesOpen, ho, cacheMatch, hma, St.emit,
          hnav, getEnv, pure, newEvents, accessedOf, deletionsOf]
      | true =>
        cases hc : s.matchIn STATIC_CACHE_NAME request with
        | some cached =>
          simp [handleStaticRequest, attempt, bind, cachesOpen, ho, cacheMatch, hma, St.emit,
            matchIn_openCache, hc, pure, newEvents, accessedOf, deletionsOf]
        | none =>
          cases hn : env.net s.tick request with
          | none =>
            cases hroot : s.matchIn STATIC_CACHE_NAME (rootRequest env) <;>
              simp [handleStaticRequest, attempt, bind, cachesOpen, ho, cacheMatch, hma,
                St.emit, matchIn_openCache, matchIn_openCache_twice, hc, fetch, hn, hnav,
                getEnv, hroot, pure, newEvents, accessedOf, deletionsOf]
          | some r =>
            cases hok : r.ok <;> cases hst : isStaticFile request.url.href <;>
              simp [handleStaticRequest, attempt, bind, cachesOpen, ho, cacheMatch, hma,
                St.emit, matchIn_openCache, hc, fetch, hn, hok, hst, detached, pure,
                newEvents, accessedOf, deletionsOf, cachePut_trace]
  · cases ho : env.openOk with
    | false =>
      simp [handleStaticRequest, attempt, bind, cachesOpen, ho, St.emit, hnav, pure,
        newEvents, accessedOf, deletionsOf]
    | true =>
      cases hma : env.matchOk with
      | false =>
        simp [handleStaticRequest, attempt, bind, cachesOpen, ho, cacheMatch, hma, St.emit,
          hnav, pure, newEvents, accessedOf, deletionsOf]
      | true =>
        cases hc : s.matchIn STATIC_CACHE_NAME request with
        | some cached =>
          simp [handleStaticRequest, attempt, bind, cachesOpen, ho, cacheMatch, hma, St.emit,
            matchIn_openCache, hc, pure, newEvents, accessedOf, deletionsOf]
        | none =>
          cases hn : env.net s.tick request with
          | none =>
            simp [handleStaticRequest, attempt, bind, cachesOpen, ho, cacheMatch, hma,
              St.emit, matchIn_openCache, hc, fetch, hn, hnav, pure, newEvents, accessedOf, deletionsOf]
          | some r =>
            cases hok : r.ok <;> cases hst : isStaticFile request.url.href <;>
              simp [handleStaticRequest, attempt, bind, cachesOpen, ho, cacheMatch, hma,
                St.emit, matchIn_openCache, hc, fetch, hn, hok, hst, detached, pure,
                newEvents, accessedOf, deletionsOf, cachePut_trace]

theorem accessedOf_append (a b : List Event) :
    accessedOf (a ++ b) = accessedOf a ++ accessedOf b := by
  induction a with
  | nil => rfl
  | cons e tl ih => cases e <;> simp [accessedOf, ih]

theorem deletionsOf_append (a b : List Event) :
    deletionsOf (a ++ b) = deletionsOf a ++ deletionsOf b := by
  induction a with
  | nil => rfl
  | cons e tl ih => cases e <;> simp [deletionsOf, ih]

theorem accessedOf_fetches (l : List Request) : accessedOf (l.map Event.fetch) = [] := by
  induction l with
  | nil => rfl
  | cons q tl ih => simpa [accessedOf] using ih

theorem deletionsOf_fetches (l : List Request) : deletionsOf (l.map Event.fetch) = [] := by
  induction l with
  | nil => rfl
  | cons q tl ih => simpa [deletionsOf] using ih

/-- The fetches of `cache.addAll` add one `fetch` call per request to the trace. -/
theorem fetchEach_trace (env : Env) (requests : List Request) (s : St) :
    (fetchEach requests env s).2.trace = s.trace ++ requests.map Event.fetch := by
  induction requests generalizing s with
  | nil => simp [fetchEach, pure]
  | cons q rest ih =>
    have hrest := ih { s.emit (Event.fetch q) with tick := s.tick + 1 }
    have hok := (fetchEach_caches env rest { s.emit (Event.fetch q) with tick := s.tick + 1 }).1
    obtain ⟨l, hl⟩ := hok
    cases hn : env.net s.tick q with
    | none =>
      simp only [fetchEach, bind, fetchSettled, attempt, fetch, hn, pure]
      generalize hx : fetchEach rest env _ = x at hl hrest ⊢
      obtain ⟨x1, x2⟩ := x
      simp only at hl hrest
      subst hl
      simpa [St.emit] using hrest
    | some r =>
      simp only [fetchEach, bind, fetchSettled, attempt, fetch, hn, pure]
      generalize hx : fetchEach rest env _ = x at hl hrest ⊢
      obtain ⟨x1, x2⟩ := x
      simp only at hl hrest
      subst hl
      simpa [St.emit] using hrest

/-- The platform calls of `cache.addAll`: fetches only. -/
theorem cacheAddAll_trace (env : Env) (cache : String) (urls : List Url) (s : St) :
    (cacheAddAll cache urls env s).2.trace = s.trace ++ (urls.map getRequest).map Event.fetch := by
  have htr := fetchEach_trace env (urls.map getRequest) s
  obtain ⟨l, hl⟩ := (fetchEach_caches env (urls.map getRequest) s).1
  simp only [cacheAddAll, bind, getEnv]
  generalize hx : fetchEach (urls.map getRequest) env s = x at hl htr ⊢
  obtain ⟨x1, x2⟩ := x
  simp only at hl htr
  subst hl
  simp only
  split <;> simpa [reject] using htr

/-- The `install` listener opens the Static cache and no other, reads or writes no other
cache and deletes none. -/
theorem onInstall_accesses (env : Env) (s : St) :
    (∀ n ∈ accessedOf (newEvents s (onInstall env s).2), n = STATIC_CACHE_NAME)
    ∧ deletionsOf (newEvents s (onInstall env s).2) = [] := by
  cases ho : env.openOk with
  | false =>
    simp [onInstall, primeStaticCache, attempt, bind, cachesOpen, ho, St.emit, pure, newEvents,
      accessedOf, deletionsOf]
  | true =>
    have htr := cacheAddAll_trace env STATIC_CACHE_NAME (STATIC_FILES env)
      { caches := openCache STATIC_CACHE_NAME s.caches, storedActions := s.storedActions,
        tick := s.tick, trace := s.trace ++ [Event.cachesOpen STATIC_CACHE_NAME] }
    simp only [onInstall, primeStaticCache, attempt, bind, cachesOpen, ho, St.emit, getEnv,
      if_true, pure, skipWaiting]
    generalize hx : cacheAddAll STATIC_CACHE_NAME (STATIC_FILES env) env _ = x at htr ⊢
    obtain ⟨x1, x2⟩ := x
    simp only at htr
    cases x1 with
    | error e =>
      simp only [newEvents, htr, List.append_assoc, List.drop_left, accessedOf_append,
        deletionsOf_append, accessedOf_fetches, deletionsOf_fetches]
      simp [accessedOf, deletionsOf]
    | ok u =>
      simp only [newEvents, htr, List.append_assoc, List.drop_left, accessedOf_append,
        deletionsOf_append, accessedOf_fetches, deletionsOf_fetches]
      simp [accessedOf, deletionsOf]

/-- The `message` listener opens the Dynamic cache and no other, reads or writes no other
cache and deletes none. -/
theorem onMessage_accesses (env : Env) (s : St) (data : Option MessageData) (hasPort : Bool) :
    (∀ n ∈ accessedOf (newEvents s (onMessage data hasPort env s).2), n = DYNAMIC_CACHE_NAME)
    ∧ deletionsOf (newEvents s (onMessage data hasPort env s).2) = [] := by
  cases data with
  | none => simp [onMessage, pure, newEvents, accessedOf, deletionsOf]
  | some d =>
    by_cases htype : d.type = "CACHE_AUDIO"
    · cases ho : env.openOk with
      | false =>
        cases hasPort <;>
          simp [onMessage, htype, attempt, bind, cachesOpen, ho, St.emit, postMessage, pure,
            newEvents, accessedOf, deletionsOf]
      | true =>
        have htr := cacheAddAll_trace env DYNAMIC_CACHE_NAME [d.url]
          { caches := openCache DYNAMIC_CACHE_NAME s.caches, storedActions := s.storedActions,
            tick := s.tick, trace := s.trace ++ [Event.cachesOpen DYNAMIC_CACHE_NAME] }
        simp only [onMessage, htype, attempt, bind, cachesOpen, ho, St.emit, beq_self_eq_true,
          if_true, postMessage]
        generalize hx : cacheAddAll DYNAMIC_CACHE_NAME [d.url] env _ = x at htr ⊢
        obtain ⟨x1, x2⟩ := x
        simp only at htr
        cases x1 <;> cases hasPort <;>
          simp [newEvents, htr, St.emit, accessedOf, deletionsOf]
    · simp [onMessage, htype, pure, newEvents, accessedOf, deletionsOf]

theorem accessedOf_deletes (l : List String) : accessedOf (l.map Event.cachesDelete) = [] := by
  induction l with
  | nil => rfl
  | cons n tl ih => simpa [accessedOf] using ih

theorem deletionsOf_deletes (l : List String) : deletionsOf (l.map Event.cachesDelete) = l := by
  induction l with
  | nil => rfl
  | cons n tl ih => simp [deletionsOf, ih]

/-- The `activate` listener opens, reads and writes no cache, and the names it hands to
`caches.delete` are the names that differ from both current names. -/
theorem onActivate_accesses (env : Env) (s : St) :
    accessedOf (newEvents s (onActivate env s).2) = []
    ∧ deletionsOf (newEvents s (onActivate env s).2)
        = (s.caches.map Prod.fst).filter
            (fun n => n != STATIC_CACHE_NAME && n != DYNAMIC_CACHE_NAME) := by
  rw [onActivate_run]
  simp only [newEvents]
  rw [List.append_assoc, List.drop_left]
  constructor
  · rw [accessedOf_append]
    simp only [accessedOf, accessedOf_deletes]
    rfl
  · rw [deletionsOf_append]
    simp only [deletionsOf, deletionsOf_deletes]
    simp [deletionsOf]

/-- Claim C22: in every run of the install, activate, fetch and message listeners, each
cache that is opened, looked up or written is `STATIC_CACHE_NAME` or `DYNAMIC_CACHE_NAME`;
the install, fetch and message listeners delete no cache, the activate listener opens none,
and every name it hands to `caches.delete` differs from both current names. -/
theorem only_current_caches_accessed (env : Env) (s : St) :
    ((∀ n ∈ accessedOf (newEvents s (onInstall env s).2),
        n = STATIC_CACHE_NAME ∨ n = DYNAMIC_CACHE_NAME)
      ∧ deletionsOf (newEvents s (onInstall env s).2) = [])
    ∧ (accessedOf (newEvents s (onActivate env s).2) = []
      ∧ ∀ n ∈ deletionsOf (newEvents s (onActivate env s).2),
          n ≠ STATIC_CACHE_NAME ∧ n ≠ DYNAMIC_CACHE_NAME)
    ∧ (∀ request,
        (∀ n ∈ accessedOf (newEvents s (onFetch request env s).2),
          n = STATIC_CACHE_NAME ∨ n = DYNAMIC_CACHE_NAME)
        ∧ deletionsOf (newEvents s (onFetch request env s).2) = [])
    ∧ (∀ data hasPort,
        (∀ n ∈ accessedOf (newEvents s (onMessage data hasPort env s).2),
          n = STATIC_CACHE_NAME ∨ n = DYNAMIC_CACHE_NAME)
        ∧ deletionsOf (newEvents s (onMessage data hasPort env s).2) = []) := by
  refine ⟨?_, ?_, ?_, ?_⟩
  · exact ⟨fun n hn => Or.inl ((onInstall_accesses env s).1 n hn), (onInstall_accesses env s).2⟩
  · refine ⟨(onActivate_accesses env s).1, ?_⟩
    intro n hn
    rw [(onActivate_accesses env s).2, List.mem_filter] at hn
    simpa using hn.2
  · intro request
    cases hapi : startsWith request.url.pathname "/api/" with
    | true =>
      have h := handleApiRequest_accesses env s request
      simp only [onFetch, hapi, if_true]
      exact ⟨fun n hn => Or.inr (h.1 n hn), h.2⟩
    | false =>
      have h := handleStaticRequest_accesses env s request
      simp only [onFetch, hapi, Bool.false_eq_true, if_false]
      exact ⟨fun n hn => Or.inl (h.1 n hn), h.2⟩
  · intro data hasPort
    have h := onMessage_accesses env s data hasPort
    exact ⟨fun n hn => Or.inr (h.1 n hn), h.2⟩

/-! ## Background revalidation -/

/-- Claim C23: for a cache-first API request for which the Dynamic cache holds an entry `e`,
two runs from the same state in environments that differ in the network only return the
same response, the entry `e`: the outcome of the background fetch (a response of any status
or a failure) never reaches the caller. -/
theorem background_fetch_noninterference (env1 env2 : Env) (s : St) (request : Request)
    (e : Response)
    (hget : request.method = "GET")
    (hcf : shouldCacheFirst request = true)
    (hopen : env1.openOk = true) (hmatch : env1.matchOk = true)
    (hopen2 : env2.openOk = env1.openOk) (hmatch2 : env2.matchOk = env1.matchOk)
    (hhit : s.matchIn DYNAMIC_CACHE_NAME request = some e) :
    (handleApiRequest request env1 s).1 = (handleApiRequest request env2 s).1
    ∧ (handleApiRequest request env1 s).1 = Except.ok e := by
  have h1 : (handleApiRequest request env1 s).1 = Except.ok e := by
    simp [handleApiRequest, hcf, hget, attempt, bind, cachesOpen, hopen, cacheMatch, hmatch,
      St.emit, matchIn_openCache, hhit, detached, pure]
  have h2 : (handleApiRequest request env2 s).1 = Except.ok e := by
    rw [hopen] at hopen2
    rw [hmatch] at hmatch2
    simp [handleApiRequest, hcf, hget, attempt, bind, cachesOpen, hopen2, cacheMatch, hmatch2,
      St.emit, matchIn_openCache, hhit, detached, pure]
  exact ⟨h1.trans h2.symm, h1⟩

/-- Claim C23 at sample inputs: the cached chapter list is returned whether the background
fetch gets a fresh list, a 500 or no answer at all. -/
theorem background_fetch_noninterference_witness :
    (handleApiRequest (sampleGet "/api/quran/chapters")
        (sampleEnv (some (sampleResponse 200 "fresh"))) sampleCachedState).1
      = (handleApiRequest (sampleGet "/api/quran/chapters") (sampleEnv none)
          sampleCachedState).1
    ∧ (handleApiRequest (sampleGet "/api/quran/chapters")
        (sampleEnv (some (sampleResponse 500 "oops"))) sampleCachedState).1
      = (handleApiRequest (sampleGet "/api/quran/chapters") (sampleEnv none)
          sampleCachedState).1
    ∧ (handleApiRequest (sampleGet "/api/quran/chapters") (sampleEnv none)
        sampleCachedState).1 = Except.ok (sampleResponse 200 "cached") :=
  have h1 := background_fetch_noninterference (sampleEnv (some (sampleResponse 200 "fresh")))
    (sampleEnv none) sampleCachedState (sampleGet "/api/quran/chapters")
    (sampleResponse 200 "cached") rfl rfl rfl rfl rfl rfl rfl
  have h2 := background_fetch_noninterference (sampleEnv (some (sampleResponse 500 "oops")))
    (sampleEnv none) sampleCachedState (sampleGet "/api/quran/chapters")
    (sampleResponse 200 "cached") rfl rfl rfl rfl rfl rfl rfl
  ⟨h1.1, h2.1, h1.1.symm.trans h1.2⟩

/-! ## The message listener -/

/-- Claim C24, as amended: a `CACHE_AUDIO` message for a URL `u`, whatever its path and
whether or not it carries a reply port, makes the listener open the Dynamic cache and add
`u` to it.  When the cache opens, the fetch of `u` resolves with an ok response that
`cache.add` accepts and the backend stores it, the Dynamic cache holds that response for `u`
afterwards; in every other case the content of every cache is as before.  A message with a
reply port is answered once, with `success: true` exactly when the entry was stored and
`success: false` otherwise; a message without a port gets no reply. -/
theorem cache_audio_primes_dynamic (env : Env) (s : St) (d : MessageData) (hasPort : Bool)
    (htype : d.type = "CACHE_AUDIO") :
    (∀ r, env.openOk = true → env.net s.tick (getRequest d.url) = some r →
        addable (some r) = true → env.putOk = true →
        repliesOf (newEvents s (onMessage (some d) hasPort env s).2)
            = (if hasPort = true then [true] else [])
        ∧ (onMessage (some d) hasPort env s).2.matchIn DYNAMIC_CACHE_NAME (getRequest d.url)
            = some r)
    ∧ ((env.openOk = false ∨ addable (env.net s.tick (getRequest d.url)) = false
          ∨ env.putOk = false) →
        repliesOf (newEvents s (onMessage (some d) hasPort env s).2)
            = (if hasPort = true then [false] else [])
        ∧ ∀ name q, (onMessage (some d) hasPort env s).2.matchIn name q = s.matchIn name q) := by
  constructor
  · intro r ho hn hadd hput
    simp only [getRequest] at hn
    cases hasPort <;>
      simp [onMessage, htype, attempt, bind, cachesOpen, ho, St.emit, cacheAddAll, fetchEach,
        fetchSettled, fetch, hn, getEnv, hadd, hput, postMessage, pure, newEvents, repliesOf,
        fileAll, St.matchIn, St.cache, getRequest, lookup_assocSet_self]
  · intro hfail
    cases ho : env.openOk with
    | false =>
      cases hasPort <;>
        simp [onMessage, htype, attempt, bind, cachesOpen, ho, St.emit, postMessage, pure,
          newEvents, repliesOf, St.matchIn, St.cache]
    | true =>
      cases hn : env.net s.tick (getRequest d.url) with
      | none =>
        simp only [getRequest] at hn
        cases hasPort <;>
          simp [onMessage, htype, attempt, bind, cachesOpen, ho, St.emit, cacheAddAll,
            fetchEach, fetchSettled, fetch, hn, getEnv, addable, reject, postMessage, pure,
            newEvents, repliesOf, matchIn_openCache, getRequest]
      | some r =>
        have hbad : (addable (some r) && env.putOk) = false := by
          rcases hfail with h | h | h
          · rw [ho] at h; exact absurd h (by decide)
          · rw [hn] at h; simp [h]
          · simp [h]
        simp only [getRequest] at hn
        cases hasPort <;>
          simp [onMessage, htype, attempt, bind, cachesOpen, ho, St.emit, cacheAddAll,
            fetchEach, fetchSettled, fetch, hn, getEnv, hbad, reject, postMessage, pure,
            newEvents, repliesOf, matchIn_openCache, getRequest]

/-- The amended claim C24 at sample inputs: an audio file is stored and acknowledged when
the network answers 200, and refused with `success: false` when it answers 404. -/
theorem cache_audio_primes_dynamic_witness :
    (repliesOf (newEvents St.init (onMessage (some sampleAudioMessage) true
        (sampleEnv (some (sampleResponse 200 "mp3"))) St.init).2) = [true]
      ∧ (onMessage (some sampleAudioMessage) true
          (sampleEnv (some (sampleResponse 200 "mp3"))) St.init).2.matchIn DYNAMIC_CACHE_NAME
            (getRequest sampleAudioMessage.url) = some (sampleResponse 200 "mp3"))
    ∧ (repliesOf (newEvents St.init (onMessage (some sampleAudioMessage) true
        (sampleEnv (some (sampleResponse 404 "none"))) St.init).2) = [false]
      ∧ (onMessage (some sampleAudioMessage) true
          (sampleEnv (some (sampleResponse 404 "none"))) St.init).2.matchIn DYNAMIC_CACHE_NAME
            (getRequest sampleAudioMessage.url)
          = St.init.matchIn DYNAMIC_CACHE_NAME (getRequest sampleAudioMessage.url)) :=
  have h1 := (cache_audio_primes_dynamic (sampleEnv (some (sampleResponse 200 "mp3"))) St.init
    sampleAudioMessage true rfl).1 (sampleResponse 200 "mp3") rfl rfl rfl rfl
  have h2 := (cache_audio_primes_dynamic (sampleEnv (some (sampleResponse 404 "none"))) St.init
    sampleAudioMessage true rfl).2 (Or.inr (Or.inl rfl))
  ⟨h1, h2.1, h2.2 _ _⟩

/-- Claim C24 fails as stated: a `CACHE_AUDIO` message without a reply port, with the network
answering 200: the entry is stored in the Dynamic cache, no `success: true` is sent, in
fact no reply at all, and the promise chain of the listener ends rejected, the call
`event.ports[0].postMessage` throwing in the `then` and again in the `catch` handler. -/
theorem cache_audio_without_port_gets_no_reply :
    sampleAudioMessage.type = "CACHE_AUDIO"
    ∧ (onMessage (some sampleAudioMessage) false
        (sampleEnv (some (sampleResponse 200 "mp3"))) St.init).2.matchIn DYNAMIC_CACHE_NAME
          (getRequest sampleAudioMessage.url) = some (sampleResponse 200 "mp3")
    ∧ repliesOf (newEvents St.init (onMessage (some sampleAudioMessage) false
        (sampleEnv (some (sampleResponse 200 "mp3"))) St.init).2) = []
    ∧ (onMessage (some sampleAudioMessage) false
        (sampleEnv (some (sampleResponse 200 "mp3"))) St.init).1
      = Except.error Fault.typeError :=
  ⟨rfl, rfl, rfl, rfl⟩

/-! ## Frame of the requests that are not GET -/

/-- Claim C25: for a request whose method is not GET and whose network fetch resolves with
a response `r`, the fetch handler returns `r` and the content of every cache is as before.
For an API path no `cache.put` is called; for another path the handler does call `cache.put`
when `r` is ok and the URL contains a static extension, and the Cache API rejects that put,
the request not being a GET. -/
theorem non_get_success_not_cached (env : Env) (s : St) (request : Request) (r : Response)
    (hmethod : request.method ≠ "GET")
    (hstore : startsWith request.url.pathname "/api/" = true
      ∨ (env.openOk = true ∧ env.matchOk = true))
    (hnet : env.net s.tick request = some r) :
    (onFetch request env s).1 = Except.ok r
    ∧ (∀ name q, (onFetch request env s).2.matchIn name q = s.matchIn name q)
    ∧ putsOf (newEvents s (onFetch request env s).2)
        = (if startsWith request.url.pathname "/api/" = false ∧ r.ok = true
              ∧ isStaticFile request.url.href = true
           then [(STATIC_CACHE_NAME, request, r)] else []) := by
  have hm : (request.method == "GET") = false := by simpa using hmethod
  have hnone : ∀ (t : St) (name : String), t.matchIn name request = none := by
    intro t name; simp [St.matchIn, hm]
  cases hapi : startsWith request.url.pathname "/api/" with
  | true =>
    simp [onFetch, hapi, handleApiRequest, hm, attempt, bind, fetch, hnet, pure, St.emit,
      newEvents, putsOf, St.matchIn, St.cache]
  | false =>
    obtain ⟨ho, hma⟩ : env.openOk = true ∧ env.matchOk = true := by
      rcases hstore with h | h
      · rw [hapi] at h; exact absurd h (by decide)
      · exact h
    cases hok : r.ok with
    | false =>
      simp [onFetch, hapi, handleStaticRequest, attempt, bind, cachesOpen, ho, cacheMatch, hma,
        hnone, fetch, hnet, hok, pure, St.emit, newEvents, putsOf, matchIn_openCache]
    | true =>
      cases hst : isStaticFile request.url.href with
      | false =>
        simp [onFetch, hapi, handleStaticRequest, attempt, bind, cachesOpen, ho, cacheMatch,
          hma, hnone, fetch, hnet, hok, hst, pure, St.emit, newEvents, putsOf,
          matchIn_openCache]
      | true =>
        simp [onFetch, hapi, handleStaticRequest, attempt, bind, cachesOpen, ho, cacheMatch,
          hma, hnone, fetch, hnet, hok, hst, pure, St.emit, newEvents, putsOf,
          matchIn_openCache, detached, cachePut, putAccepted, hm]

/-- Claim C25 at sample inputs: a POST to the API and a POST to `/upload.js`, both answered
with status 200, are answered with the response of the network and leave no entry. -/
theorem non_get_success_not_cached_witness :
    ((onFetch (samplePost "/api/learning/session" "b")
          (sampleEnv (some (sampleResponse 200 "saved"))) St.init).1
        = Except.ok (sampleResponse 200 "saved")
      ∧ (onFetch (samplePost "/api/learning/session" "b")
          (sampleEnv (some (sampleResponse 200 "saved"))) St.init).2.matchIn DYNAMIC_CACHE_NAME
            (sampleGet "/api/learning/session") = none)
    ∧ ((onFetch (samplePost "/upload.js" "b")
          (sampleEnv (some (sampleResponse 200 "done"))) St.init).1
        = Except.ok (sampleResponse 200 "done")
      ∧ (onFetch (samplePost "/upload.js" "b")
          (sampleEnv (some (sampleResponse 200 "done"))) St.init).2.matchIn STATIC_CACHE_NAME
            (sampleGet "/upload.js") = none) :=
  have h1 := non_get_success_not_cached (sampleEnv (some (sampleResponse 200 "saved"))) St.init
    (samplePost "/api/learning/session" "b") (sampleResponse 200 "saved") (by decide)
    (Or.inl rfl) rfl
  have h2 := non_get_success_not_cached (sampleEnv (some (sampleResponse 200 "done"))) St.init
    (samplePost "/upload.js" "b") (sampleResponse 200 "done") (by decide)
    (Or.inr ⟨rfl, rfl⟩) rfl
  ⟨⟨h1.1, (h1.2.1 _ _).trans rfl⟩, ⟨h2.1, (h2.2.1 _ _).trans rfl⟩⟩

/-! ## Premium access -/

/-- Claim C26: `hasChapterAccess` is false when no user is logged in and true for every
chapter when the user is premium; for a user who is not premium it is true exactly when the
id of the chapter is the id of one of the first three chapters of the list whose
`difficulty_level` is `beginner`, so the ids such a user has access to are among at most
three. -/
theorem hasChapterAccess_spec (chapters : List Chapter) (chapter : Chapter) :
    hasChapterAccess none chapters chapter = false
    ∧ (∀ u : User, u.is_premium = true → hasChapterAccess (some u) chapters chapter = true)
    ∧ (∀ u : User, u.is_premium = false →
        (hasChapterAccess (some u) chapters chapter = true
          ↔ chapter.id ∈ ((chapters.filter
              (fun ch => ch.difficulty_level = JsValue.str "beginner")).take 3).map Chapter.id))
    ∧ (((chapters.filter
          (fun ch => ch.difficulty_level = JsValue.str "beginner")).take 3).map
            Chapter.id).length ≤ 3 := by
  refine ⟨rfl, ?_, ?_, ?_⟩
  · intro u hu
    simp [hasChapterAccess, hu]
  · intro u hu
    simp only [hasChapterAccess, hu, Bool.false_eq_true, if_false, List.any_eq_true, strictEq,
      decide_eq_true_eq, List.mem_map]
  · simp only [List.length_map]
    exact List.length_take_le 3 _

/-- Claim C26 at a sample input: of four beginner chapters a free user reaches the first
three and not the fourth, nor a chapter that is not a beginner one. -/
theorem hasChapterAccess_spec_witness :
    hasChapterAccess (some { is_premium := false }) sampleChapters (sampleChapter 113 "beginner")
      = true
    ∧ hasChapterAccess (some { is_premium := false }) sampleChapters
        (sampleChapter 114 "beginner") = false
    ∧ hasChapterAccess (some { is_premium := false }) sampleChapters
        (sampleChapter 2 "advanced") = false
    ∧ hasChapterAccess (some { is_premium := true }) sampleChapters
        (sampleChapter 114 "beginner") = true :=
  ⟨((hasChapterAccess_spec sampleChapters (sampleChapter 113 "beginner")).2.2.1
      { is_premium := false } rfl).mpr (by decide),
   by decide, by decide,
   (hasChapterAccess_spec sampleChapters (sampleChapter 114 "beginner")).2.1
      { is_premium := true } rfl⟩

/-- Claim C27, the code at the failing input: for a user who is not premium,
`hasReciterAccess` compares the id with the string `'7'` by `===`, so it is true of the
string `'7'` and of no other value; the number 7, the id of the same reciter as a JSON
number, is refused. -/
theorem hasReciterAccess_refuses_number_seven :
    hasReciterAccess (some { is_premium := false }) (JsValue.num 7) = false
    ∧ hasReciterAccess (some { is_premium := false }) (JsValue.str "7") = true
    ∧ hasReciterAccess none (JsValue.str "7") = false
    ∧ (∀ v, hasReciterAccess (some { is_premium := true }) v = true)
    ∧ (∀ v, hasReciterAccess (some { is_premium := false }) v = true ↔ v = JsValue.str "7") := by
  refine ⟨by decide, by decide, rfl, fun v => rfl, fun v => ?_⟩
  simp [hasReciterAccess, strictEq]

/-! ## What an entry can be -/

/-- What a lookup finds after a `cache.put`: the response put, for a GET request with the
same URL key in the same cache when the put is accepted, and what it found before
otherwise. -/
theorem cachePut_matchIn (c : String) (q : Request) (r : Response) (env : Env) (s : St)
    (name : String) (q2 : Request) :
    (cachePut c q r env s).2.matchIn name q2
      = if putAccepted env q r = true ∧ name = c ∧ q2.method = "GET"
            ∧ q2.url.key = q.url.key
        then some r else s.matchIn name q2 := by
  unfold cachePut
  cases hacc : putAccepted env q r with
  | false => simp [St.matchIn, St.cache, St.emit]
  | true =>
    by_cases hget : q2.method = "GET"
    · by_cases hname : name = c
      · subst hname
        by_cases hkey : q2.url.key = q.url.key
        · simp [St.matchIn, St.cache, St.emit, hget, hkey, lookup_assocSet_self]
        · simp [St.matchIn, St.cache, St.emit, hget, hkey, lookup_assocSet_self,
            lookup_assocSet_other _ _ _ _ hkey]
      · simp [St.matchIn, St.cache, St.emit, hget, hname,
          lookup_assocSet_other _ _ _ _ hname]
    · simp [St.matchIn, St.cache, St.emit, hget]

/-! ## What an entry can be: runs of the handlers -/

/-- Every put of `handleApiRequest` files, in the Dynamic cache and under the request, the ok
response the network gave; what a lookup finds afterwards is what it found before or that
response. -/
theorem handleApiRequest_writes (env : Env) (s : St) (request : Request) :
    (∀ p ∈ putsOf (newEvents s (handleApiRequest request env s).2),
      ∃ r, env.net s.tick request = some r ∧ r.ok = true
        ∧ p = (DYNAMIC_CACHE_NAME, request, r))
    ∧ (∀ name q, (handleApiRequest request env s).2.matchIn name q = s.matchIn name q
        ∨ ∃ r, env.net s.tick request = some r ∧ r.ok = true
          ∧ (handleApiRequest request env s).2.matchIn name q = some r) := by
  cases hcf : (shouldCacheFirst request && request.method == "GET") with
  | true =>
    cases ho : env.openOk with
    | false =>
      (simp [handleApiRequest, hcf, attempt, bind, cachesOpen, ho, St.emit, pure, newEvents,
        putsOf, cachePut_matchIn, cachePut_trace, matchIn_openCache,
          matchIn_openCache_twice]; try (intro name q; tauto))
    | true =>
      cases hma : env.matchOk with
      | false =>
        simp [handleApiRequest, hcf, attempt, bind, cachesOpen, ho, cacheMatch, hma, St.emit,
          pure, newEvents, putsOf, cachePut_matchIn, cachePut_trace, matchIn_openCache,
            matchIn_openCache_twice]
      | true =>
        cases hc : s.matchIn DYNAMIC_CACHE_NAME request with
        | some cached =>
          cases hn : env.net s.tick request with
          | none =>
            simp [handleApiRequest, hcf, attempt, bind, cachesOpen, ho, cacheMatch, hma,
              St.emit, matchIn_openCache, hc, detached, fetch, hn, pure, newEvents, putsOf,
                cachePut_matchIn, cachePut_trace, matchIn_openCache_twice]
          | some r =>
            cases hok : r.ok <;>
              (simp [handleApiRequest, hcf, attempt, bind, cachesOpen, ho, cacheMatch, hma,
                St.emit, matchIn_openCache, hc, detached, fetch, hn, hok, pure, newEvents,
                putsOf, cachePut_matchIn, cachePut_trace,
                  matchIn_openCache_twice]; try (intro name q; tauto))
        | none =>
          cases hn : env.net s.tick request with
          | none =>
            simp [handleApiRequest, hcf, attempt, bind, cachesOpen, ho, cacheMatch, hma,
              St.emit, matchIn_openCache, hc, fetch, hn, pure, newEvents, putsOf,
                cachePut_matchIn, cachePut_trace, matchIn_openCache_twice]
          | some r =>
            cases hok : r.ok <;>
              (simp [handleApiRequest, hcf, attempt, bind, cachesOpen, ho, cacheMatch, hma,
                St.emit, matchIn_openCache, hc, detached, fetch, hn, hok, pure, newEvents,
                putsOf, cachePut_matchIn, cachePut_trace,
                  matchIn_openCache_twice]; try (intro name q; tauto))
  | false =>
    cases hn : env.net s.tick request with
    | none =>
      cases ho : env.openOk with
      | false =>
        (simp [handleApiRequest, hcf, attempt, bind, fetch, hn, cachesOpen, ho, St.emit, pure,
          newEvents, putsOf, cachePut_matchIn, cachePut_trace, matchIn_openCache,
            matchIn_openCache_twice]; try (intro name q; tauto))
      | true =>
        cases hma : env.matchOk with
        | false =>
          simp [handleApiRequest, hcf, attempt, bind, fetch, hn, cachesOpen, ho, cacheMatch,
            hma, St.emit, pure, newEvents, putsOf, cachePut_matchIn, cachePut_trace,
              matchIn_openCache, matchIn_openCache_twice]
        | true =>
          cases hc : s.matchIn DYNAMIC_CACHE_NAME request <;>
            simp [handleApiRequest, hcf, attempt, bind, fetch, hn, cachesOpen, ho, cacheMatch,
              hma, St.emit, matchIn_openCache, hc, pure, newEvents, putsOf, cachePut_matchIn,
                cachePut_trace, matchIn_openCache_twice]
    | some r =>
      cases hput : (r.ok && request.method == "GET") with
      | false =>
        (simp [handleApiRequest, hcf, attempt, bind, fetch, hn, hput, St.emit, pure, newEvents,
          putsOf, cachePut_matchIn, cachePut_trace, matchIn_openCache,
            matchIn_openCache_twice]; try (intro name q; tauto))
      | true =>
        have hok : r.ok = true := by simp only [Bool.and_eq_true] at hput; exact hput.1
        have hget : request.method = "GET" := by
          simp only [Bool.and_eq_true, beq_iff_eq] at hput; exact hput.2
        have hscf : shouldCacheFirst request = false := by simpa [hget] using hcf
        cases ho : env.openOk with
        | false =>
          (simp [handleApiRequest, hscf, attempt, bind, fetch, hn, hok, hget, cachesOpen, ho,
            St.emit, pure, newEvents, putsOf, cachePut_matchIn, cachePut_trace,
              matchIn_openCache, matchIn_openCache_twice]; try (intro name q; tauto))
        | true =>
          (simp [handleApiRequest, hscf, attempt, bind, fetch, hn, hok, hget, cachesOpen, ho,
            St.emit, detached, pure, newEvents, putsOf, cachePut_matchIn, cachePut_trace,
              matchIn_openCache, matchIn_openCache_twice]; try (intro name q; tauto))


/-- Every put of `handleStaticRequest` files, in the Static cache and under the request, the
ok response the network gave; what a lookup finds afterwards is what it found before or
that response. -/
theorem handleStaticRequest_writes (env : Env) (s : St) (request : Request) :
    (∀ p ∈ putsOf (newEvents s (handleStaticRequest request env s).2),
      ∃ r, env.net s.tick request = some r ∧ r.ok = true
        ∧ p = (STATIC_CACHE_NAME, request, r))
    ∧ (∀ name q, (handleStaticRequest request env s).2.matchIn name q = s.matchIn name q
        ∨ ∃ r, env.net s.tick request = some r ∧ r.ok = true
          ∧ (handleStaticRequest request env s).2.matchIn name q = some r) := by
  by_cases hnav : request.mode = "navigate"
  · cases ho : env.openOk with
    | false =>
      (simp [handleStaticRequest, attempt, bind, cachesOpen, ho, St.emit, hnav, getEnv, pure,
        newEvents, putsOf, cachePut_matchIn, cachePut_trace, matchIn_openCache,
          matchIn_openCache_twice]; try (intro name q; tauto))
    | true =>
      cases hma : env.matchOk with
      | false =>
        simp [handleStaticRequest, attempt, bind, cachesOpen, ho, cacheMatch, hma, St.emit,
          hnav, getEnv, pure, newEvents, putsOf, cachePut_matchIn, cachePut_trace,
            matchIn_openCache, matchIn_openCache_twice]
      | true =>
        cases hc : s.matchIn STATIC_CACHE_NAME request with
        | some cached =>
          simp [handleStaticRequest, attempt, bind, cachesOpen, ho, cacheMatch, hma, St.emit,
            matchIn_openCache, hc, pure, newEvents, putsOf, cachePut_matchIn, cachePut_trace,
              matchIn_openCache_twice]
        | none =>
          cases hn : env.net s.tick request with
          | none =>
            cases hroot : s.matchIn STATIC_CACHE_NAME (rootRequest env) <;>
              simp [handleStaticRequest, attempt, bind, cachesOpen, ho, cacheMatch, hma,
                St.emit, matchIn_openCache, matchIn_openCache_twice, hc, fetch, hn, hnav,
                getEnv, hroot, pure, newEvents, putsOf, cachePut_matchIn, cachePut_trace]
          | some r =>
            cases hok : r.ok <;> cases hst : isStaticFile request.url.href <;>
              (simp [handleStaticRequest, attempt, bind, cachesOpen, ho, cacheMatch, hma,
                St.emit, matchIn_openCache, hc, fetch, hn, hok, hst, detached, pure,
                newEvents, putsOf, cachePut_matchIn, cachePut_trace,
                  matchIn_openCache_twice]; try (intro name q; tauto))
  · cases ho : env.openOk with
    | false =>
      (simp [handleStaticRequest, attempt, bind, cachesOpen, ho, St.emit, hnav, pure,
        newEvents, putsOf, cachePut_matchIn, cachePut_trace, matchIn_openCache,
          matchIn_openCache_twice]; try (intro name q; tauto))
    | true =>
      cases hma : env.matchOk with
      | false =>
        simp [handleStaticRequest, attempt, bind, cachesOpen, ho, cacheMatch, hma, St.emit,
          hnav, pure, newEvents, putsOf, cachePut_matchIn, cachePut_trace, matchIn_openCache,
            matchIn_openCache_twice]
      | true =>
        cases hc : s.matchIn STATIC_CACHE_NAME request with
        | some cached =>
          simp [handleStaticRequest, attempt, bind, cachesOpen, ho, cacheMatch, hma, St.emit,
            matchIn_openCache, hc, pure, newEvents, putsOf, cachePut_matchIn, cachePut_trace,
              matchIn_openCache_twice]
        | none =>
          cases hn : env.net s.tick request with
          | none =>
            simp [handleStaticRequest, attempt, bind, cachesOpen, ho, cacheMatch, hma,
              St.emit, matchIn_openCache, hc, fetch, hn, hnav, pure, newEvents, putsOf,
                cachePut_matchIn, cachePut_trace, matchIn_openCache_twice]
          | some r =>
            cases hok : r.ok <;> cases hst : isStaticFile request.url.href <;>
              (simp [handleStaticRequest, attempt, bind, cachesOpen, ho, cacheMatch, hma,
                St.emit, matchIn_openCache, hc, fetch, hn, hok, hst, detached, pure,
                newEvents, putsOf, cachePut_matchIn, cachePut_trace,
                  matchIn_openCache_twice]; try (intro name q; tauto))


/-- Claim C28: every `cache.put` of the fetch handlers files, under the request and in the
cache of the handler, a response the network gave for the request whose `ok` is true, status
200 to 299; so what a lookup finds in any cache after a run is what it found before or such
a response, never an error response, a synthesized 503 or the offline page, and when the
network fails or answers with a response that is not ok, as in a failed background
revalidation, the content of every cache is unchanged. -/
theorem cache_entries_are_ok_responses (env : Env) (s : St) (request : Request) :
    (∀ p ∈ putsOf (newEvents s (onFetch request env s).2),
      ∃ r, env.net s.tick request = some r ∧ r.ok = true
        ∧ (200 ≤ r.status ∧ r.status ≤ 299)
        ∧ p = (handlerCache request, request, r))
    ∧ (∀ name q, (onFetch request env s).2.matchIn name q = s.matchIn name q
        ∨ ∃ r, env.net s.tick request = some r ∧ r.ok = true
          ∧ (onFetch request env s).2.matchIn name q = some r)
    ∧ ((∀ r, env.net s.tick request = some r → r.ok = false) →
        ∀ name q, (onFetch request env s).2.matchIn name q = s.matchIn name q) := by
  have hrange : ∀ r : Response, r.ok = true → 200 ≤ r.status ∧ r.status ≤ 299 := by
    intro r hr
    simpa [Response.ok] using hr
  have hmain : (∀ p ∈ putsOf (newEvents s (onFetch request env s).2),
        ∃ r, env.net s.tick request = some r ∧ r.ok = true
          ∧ p = (handlerCache request, request, r))
      ∧ (∀ name q, (onFetch request env s).2.matchIn name q = s.matchIn name q
        ∨ ∃ r, env.net s.tick request = some r ∧ r.ok = true
          ∧ (onFetch request env s).2.matchIn name q = some r) := by
    cases hapi : startsWith request.url.pathname "/api/" with
    | true =>
      simpa [onFetch, hapi, handlerCache] using handleApiRequest_writes env s request
    | false =>
      simpa [onFetch, hapi, handlerCache] using handleStaticRequest_writes env s request
  refine ⟨?_, hmain.2, ?_⟩
  · intro p hp
    obtain ⟨r, hn, hok, hpe⟩ := hmain.1 p hp
    exact ⟨r, hn, hok, hrange r hok, hpe⟩
  · intro hbad name q
    rcases hmain.2 name q with h | ⟨r, hn, hok, _⟩
    · exact h
    · rw [hbad r hn] at hok
      exact absurd hok (by decide)

/-- Claim C28 at sample inputs: a background revalidation answered with a 500, and one that
fails, leave the cached chapter list as it was. -/
theorem cache_entries_are_ok_responses_witness :
    (onFetch (sampleGet "/api/quran/chapters") (sampleEnv (some (sampleResponse 500 "oops")))
        sampleCachedState).2.matchIn DYNAMIC_CACHE_NAME (sampleGet "/api/quran/chapters")
      = some (sampleResponse 200 "cached")
    ∧ (onFetch (sampleGet "/api/quran/chapters") (sampleEnv none)
        sampleCachedState).2.matchIn DYNAMIC_CACHE_NAME (sampleGet "/api/quran/chapters")
      = some (sampleResponse 200 "cached") :=
  ⟨((cache_entries_are_ok_responses (sampleEnv (some (sampleResponse 500 "oops")))
      sampleCachedState (sampleGet "/api/quran/chapters")).2.2
      (fun r hr => by cases hr; rfl) _ _).trans rfl,
   ((cache_entries_are_ok_responses (sampleEnv none) sampleCachedState
      (sampleGet "/api/quran/chapters")).2.2
      (fun r hr => by cases hr) _ _).trans rfl⟩

/-! ## Background sync with the stubs -/

/-- Claim C29: with the `getStoredActions` of the repository, which returns the empty list,
`syncLearningProgress` settles without a fault and leaves the state as it is, whatever the
action store holds: no fetch, no removal, no other platform call; and the sync listener
hands a run of `syncLearningProgress` to `event.waitUntil` exactly when the tag of the event
is `background-sync-learning-progress`: for any other tag it starts nothing. -/
theorem sync_with_stub_does_nothing (env : Env) (s : St) (tag : String) :
    syncLearningProgress env s = (Except.ok (), s)
    ∧ fetchesOf (newEvents s (syncLearningProgress env s).2) = []
    ∧ removalsOf (newEvents s (syncLearningProgress env s).2) = []
    ∧ ((onSync tag).isSome = true ↔ tag = "background-sync-learning-progress")
    ∧ (tag = "background-sync-learning-progress" → onSync tag = some syncLearningProgress)
    ∧ (tag ≠ "background-sync-learning-progress" → onSync tag = none) := by
  have hrun : syncLearningProgress env s = (Except.ok (), s) := rfl
  refine ⟨hrun, ?_, ?_, ?_, ?_, ?_⟩
  · rw [hrun]
    simp [newEvents, fetchesOf]
  · rw [hrun]
    simp [newEvents, removalsOf]
  · by_cases h : tag = "background-sync-learning-progress"
    · simp [onSync, h]
    · simp [onSync, h]
  · intro h
    simp [onSync, h]
  · intro h
    simp [onSync, h]

/-- Claim C29 at sample inputs: three actions are in the store and the network is up; the
sync run issues no call; the listener starts a run for the tag of the learning progress and
none for another tag. -/
theorem sync_with_stub_does_nothing_witness :
    syncLearningProgress (sampleEnv (some (sampleResponse 201 "saved"))) samplePendingState
      = (Except.ok (), samplePendingState)
    ∧ onSync "background-sync-learning-progress" = some syncLearningProgress
    ∧ (onSync "background-sync-learning-progress").isSome = true
    ∧ onSync "periodic-refresh" = none :=
  have h := sync_with_stub_does_nothing (sampleEnv (some (sampleResponse 201 "saved")))
    samplePendingState "background-sync-learning-progress"
  have h2 := sync_with_stub_does_nothing (sampleEnv (some (sampleResponse 201 "saved")))
    samplePendingState "periodic-refresh"
  ⟨h.1, h.2.2.2.2.1 rfl, h.2.2.2.1.mpr rfl, h2.2.2.2.2.2 (by decide)⟩

/-- The replay outcomes depend on the network only through whether each fetch resolves. -/
theorem replayOutcomes_congr (env1 env2 : Env) (tick : Nat) (actions : List Action)
    (h : ∀ n q, (env1.net n q).isSome = (env2.net n q).isSome) :
    replayOutcomes env1 tick actions = replayOutcomes env2 tick actions := by
  induction actions generalizing tick with
  | nil => rfl
  | cons a rest ih => simp [replayOutcomes, h, ih]

/-- Claim C30: in the loop of `syncLearningProgress` an action whose replay fetch resolves,
with whatever status, is handed to `removeStoredAction` right after its fetch; and two runs
over the same actions whose fetches resolve or fail alike, whatever the statuses of the
responses, issue the same platform calls, removals included. -/
theorem replay_with_error_status_counts_as_synced (env : Env) (s : St) (action : Action)
    (rest : List Action) (r : Response)
    (hnet : env.net s.tick action.toRequest = some r) :
    (∃ more, newEvents s (syncActions (action :: rest) env s).2
        = Event.fetch action.toRequest :: Event.removeStoredAction action.id :: more)
    ∧ removalsOf (newEvents s (syncActions [action] env s).2) = [action.id]
    ∧ (∀ env2 : Env, (∀ n q, (env.net n q).isSome = (env2.net n q).isSome) →
        newEvents s (syncActions (action :: rest) env2 s).2
          = newEvents s (syncActions (action :: rest) env s).2) := by
  refine ⟨?_, ?_, ?_⟩
  · rw [syncActions_run]
    simp only [newEvents, List.drop_left, replayOutcomes, hnet, Option.isSome_some,
      List.flatMap_cons, if_true, List.cons_append, List.nil_append]
    exact ⟨_, rfl⟩
  · rw [syncActions_run]
    simp [newEvents, replayOutcomes, hnet, removalsOf]
  · intro env2 h
    rw [syncActions_run, syncActions_run]
    simp only [newEvents, List.drop_left]
    rw [replayOutcomes_congr env env2 s.tick (action :: rest) h]

/-- Claim C30 at sample inputs: the replay of A1 answered with status 500, and with status
401, ends with A1 handed to `removeStoredAction`, as with status 201. -/
theorem replay_with_error_status_counts_as_synced_witness :
    removalsOf (newEvents St.init (syncActions [sampleAction "A1" "one"]
        (sampleEnv (some (sampleResponse 500 "oops"))) St.init).2) = ["A1"]
    ∧ removalsOf (newEvents St.init (syncActions [sampleAction "A1" "one"]
        (sampleEnv (some (sampleResponse 401 "denied"))) St.init).2) = ["A1"]
    ∧ removalsOf (newEvents St.init (syncActions [sampleAction "A1" "one"]
        (sampleEnv (some (sampleResponse 201 "saved"))) St.init).2) = ["A1"] :=
  ⟨(replay_with_error_status_counts_as_synced (sampleEnv (some (sampleResponse 500 "oops")))
      St.init (sampleAction "A1" "one") [] (sampleResponse 500 "oops") rfl).2.1,
   (replay_with_error_status_counts_as_synced (sampleEnv (some (sampleResponse 401 "denied")))
      St.init (sampleAction "A1" "one") [] (sampleResponse 401 "denied") rfl).2.1,
   (replay_with_error_status_counts_as_synced (sampleEnv (some (sampleResponse 201 "saved")))
      St.init (sampleAction "A1" "one") [] (sampleResponse 201 "saved") rfl).2.1⟩

end QuranJourney
